import Mathlib

/-!
# putils: stream and datagram request/reply messaging

A shallow embedding of `TCPClientServer.cpp`, `UDPClientServer.cpp`, `StatusReport.cpp`
and `RecursiveMutex.hpp`.

* C `int` values are `Int`. Where the 32-bit width matters the reduction is
  explicit: the length field put on the wire is encoded modulo `2^32`
  (`intBytes`) and decoded as a signed value (`bytesInt`), the product
  `bdp * 1024` of the `init` functions is an `int` (`int32`), and the
  `unsigned int` counters of `StatusReport` and `RecursiveMutex` count modulo
  `UINT`.
* A statement without defined behaviour gives a result of its own: `none` for
  `FD_SET` with a negative descriptor, a `Fault` for the array accesses of
  `StatusReport`.
* The operating system is an explicit state `Kernel`: a descriptor table, the
  per-thread `errno`, and the log of system calls issued so far.
* The outcome of every `send`/`recv` is chosen by the environment through a
  per-socket plan, so that short counts and failures can be exercised.
* A buffer is the list of its bytes, a `NULL` pointer is `none`, and an output
  parameter such as `*inMsgLen` is passed in and handed back by value.
* `d_status` is the list of the `setReport` calls made on the status sink.
-/

namespace PUtils

/-! ## Bytes and the length field -/

/-- One `char` of a message buffer. -/
abbrev Byte := Fin 256

/-- The value of a C `int` seen as an unsigned 32-bit quantity. -/
def toU32 (x : Int) : Nat := (x % 4294967296).toNat

/-- The value an `int` variable holds after it has been assigned an expression whose
mathematical value is `x`: the 32 bits of `x` in two's complement. This is what the products
`bdp * 1024` of the `init` functions come to when they do not fit into an `int`. -/
def int32 (x : Int) : Int := (x + 2147483648) % 4294967296 - 2147483648

/-- Byte number `i` (least significant first) of an unsigned quantity. -/
def byteAt (u : Nat) (i : Nat) : Byte := ⟨u / 256 ^ i % 256, Nat.mod_lt _ (by decide)⟩

/-- The `sizeof(int)` bytes that `send(fd, &len, sizeof(int), 0)` reads from
the variable `len`: the in-memory representation of the `int`, least
significant byte first (no byte-order conversion is done by the code). -/
def intBytes (x : Int) : List Byte :=
  [byteAt (toU32 x) 0, byteAt (toU32 x) 1, byteAt (toU32 x) 2, byteAt (toU32 x) 3]

/-- The C `int` whose in-memory representation is the first four bytes of `bs`
(two's complement, least significant byte first). -/
def bytesInt (bs : List Byte) : Int :=
  let u : Nat := (bs.getD 0 0).val + 256 * (bs.getD 1 0).val
    + 65536 * (bs.getD 2 0).val + 16777216 * (bs.getD 3 0).val
  if u < 2147483648 then (u : Int) else (u : Int) - 4294967296

/-- Memory after `data` has been stored at offset `off` of `buf`. -/
def storeAt (buf : List Byte) (off : Nat) (data : List Byte) : List Byte :=
  buf.take off ++ data ++ buf.drop (off + data.length)

/-! ## errno values used by the code (Linux `errno.h`) -/

def EIO : Int := 5
def EBADF : Int := 9
def ENOMEM : Int := 12
def EINVAL : Int := 22

/-! ## The operating system -/

/-- What the environment decides for one `send`/`recv` attempt: a failure
(return value `-1`, with the `errno` it sets) or an upper bound on the number of
bytes moved by that attempt. -/
inductive Outcome where
  | err (errno : Int)
  | count (n : Nat)
  deriving DecidableEq, Repr

/-- The memory operand of a `send`/`recv`: an `int` variable, an offset into
the message buffer, or `NULL`. -/
inductive Mem where
  | var
  | buf (off : Int)
  | null
  deriving DecidableEq, Repr

/-- One end of a stream connection.
`peer sent` is the byte stream the remote end has produced once it has seen
the bytes `sent`; `tx` are the bytes accepted by `send` so far, `rxPos` the
number of bytes already delivered by `recv`. An empty plan means the transport
moves every byte requested. -/
structure Sock where
  peer : List Byte → List Byte
  tx : List Byte
  rxPos : Nat
  sendPlan : List Outcome
  recvPlan : List Outcome

/-- A fresh connection over a transport that moves every byte requested. -/
def Sock.lossless (peer : List Byte → List Byte) : Sock := ⟨peer, [], 0, [], []⟩

/-- A fresh connection on which the bytes `rx` arrive, with the given plans for the
`send` and `recv` attempts. -/
def Sock.scripted (rx : List Byte) (sendPlan recvPlan : List Outcome) : Sock :=
  ⟨fun _ => rx, [], 0, sendPlan, recvPlan⟩

/-- A datagram as seen by `sendto`/`recvfrom`: the remote address (IPv4 host
address and port) and the payload. -/
structure Datagram where
  s_addr : Nat
  sin_port : Int
  payload : List Byte
  deriving DecidableEq, Repr

/-- A datagram socket: datagrams waiting to be received, datagrams sent, and
the plans of the environment for the next `sendto` and `recvfrom`. -/
structure DSock where
  inbox : List Datagram
  sent : List Datagram
  sendPlan : List Outcome
  recvPlan : List Outcome

/-- System calls as they appear in the log: descriptor, memory operand,
requested length and return value. -/
inductive Syscall where
  | send (fd : Int) (src : Mem) (len : Int) (ret : Int)
  | recv (fd : Int) (dst : Mem) (len : Int) (ret : Int)
  | sendto (fd : Int) (len : Int) (ret : Int)
  | recvfrom (fd : Int) (len : Int) (ret : Int)
  | close (fd : Int) (ret : Int)
  | fcntl (fd : Int) (ret : Int)
  | socket (ret : Int)
  | setsockopt (fd : Int) (opt : String) (ret : Int)
  | connect (fd : Int) (ret : Int)
  | bind (fd : Int) (ret : Int)
  | gethostbyname (name : String) (found : Bool)
  | listen (fd : Int) (ret : Int)
  | accept (fd : Int) (ret : Int)
  | select (ret : Int)
  deriving DecidableEq, Repr

/-- Whether the log entry is a `send` or a `sendto`. -/
def Syscall.isSend : Syscall → Bool
  | .send _ _ _ _ => true
  | .sendto _ _ _ => true
  | _ => false

/-- Whether the log entry is a `recv` or a `recvfrom`. -/
def Syscall.isRecv : Syscall → Bool
  | .recv _ _ _ _ => true
  | .recvfrom _ _ _ => true
  | _ => false

/-- The return value of a `send`/`recv` log entry (`0` for the other entries). -/
def Syscall.ret : Syscall → Int
  | .send _ _ _ r => r
  | .recv _ _ _ r => r
  | .sendto _ _ r => r
  | .recvfrom _ _ r => r
  | _ => 0

/-- The number of bytes moved by the attempts of a log: the sum of their
non-negative return values. -/
def moved : List Syscall → Int
  | [] => 0
  | e :: rest => max e.ret 0 + moved rest

/-- Process-wide operating system state: `errno`, the open stream and datagram
descriptors, the stream end points that have been closed (most recent first),
and the system calls issued so far (most recent first). -/
structure Kernel where
  errno : Int
  fds : Int → Option Sock
  udp : Int → Option DSock
  closed : List (Int × Sock)
  trace : List Syscall

namespace Kernel

/-- Whether `fd` is an open descriptor. -/
def isOpen (k : Kernel) (fd : Int) : Bool := (k.fds fd).isSome || (k.udp fd).isSome

/-- The system call `send(fd, src, len, 0)`, where `data` are the bytes found at `src`.
The bytes accepted are a leading part of `data` of at most `len` bytes (fewer when the plan
of the socket says so); the return value is their number, or `-1`. -/
def send (k : Kernel) (fd : Int) (src : Mem) (data : List Byte) (len : Int) : Int × Kernel :=
  match k.fds fd with
  | none => (-1, { k with errno := EBADF, trace := .send fd src len (-1) :: k.trace })
  | some s =>
    match s.sendPlan with
    | .err e :: rest =>
      (-1, { k with errno := e
                    fds := Function.update k.fds fd (some { s with sendPlan := rest })
                    trace := .send fd src len (-1) :: k.trace })
    | .count n :: rest =>
      let taken := data.take (min n len.toNat)
      (taken.length, { k with fds := Function.update k.fds fd
                                (some { s with tx := s.tx ++ taken, sendPlan := rest })
                              trace := .send fd src len taken.length :: k.trace })
    | [] =>
      let taken := data.take len.toNat
      (taken.length, { k with fds := Function.update k.fds fd (some { s with tx := s.tx ++ taken })
                              trace := .send fd src len taken.length :: k.trace })

/-- The system call `recv(fd, dst, len, MSG_WAITALL)`: return value, the bytes stored
at `dst`, and the new state. The bytes delivered are the next bytes of the incoming stream,
at most `len` of them (fewer when the plan of the socket says so or the stream ends). -/
def recv (k : Kernel) (fd : Int) (dst : Mem) (len : Int) : Int × List Byte × Kernel :=
  match k.fds fd with
  | none => (-1, [], { k with errno := EBADF, trace := .recv fd dst len (-1) :: k.trace })
  | some s =>
    match s.recvPlan with
    | .err e :: rest =>
      (-1, [], { k with errno := e
                        fds := Function.update k.fds fd (some { s with recvPlan := rest })
                        trace := .recv fd dst len (-1) :: k.trace })
    | .count n :: rest =>
      let data := ((s.peer s.tx).drop s.rxPos).take (min n len.toNat)
      (data.length, data,
        { k with fds := Function.update k.fds fd
                    (some { s with rxPos := s.rxPos + data.length, recvPlan := rest })
                 trace := .recv fd dst len data.length :: k.trace })
    | [] =>
      let data := ((s.peer s.tx).drop s.rxPos).take len.toNat
      (data.length, data,
        { k with fds := Function.update k.fds fd (some { s with rxPos := s.rxPos + data.length })
                 trace := .recv fd dst len data.length :: k.trace })

/-- The system call `close(fd)`; its return value is ignored by the code. -/
def close (k : Kernel) (fd : Int) : Kernel :=
  if k.isOpen fd then
    { k with fds := Function.update k.fds fd none
             udp := Function.update k.udp fd none
             closed := match k.fds fd with
               | some s => (fd, s) :: k.closed
               | none => k.closed
             trace := .close fd 0 :: k.trace }
  else
    { k with errno := EBADF, trace := .close fd (-1) :: k.trace }

/-- The bytes accepted by `send` on the stream connection that is, or last was, behind `fd`. -/
def sentOn (k : Kernel) (fd : Int) : List Byte :=
  match k.fds fd with
  | some s => s.tx
  | none =>
    match k.closed.find? (fun p => p.1 = fd) with
    | some p => p.2.tx
    | none => []

/-- A system without any open descriptor. -/
def boot : Kernel := ⟨0, fun _ => none, fun _ => none, [], []⟩

/-- The system in which `fd` has been made to stand for the stream end point `s`. -/
def withSock (k : Kernel) (fd : Int) (s : Sock) : Kernel :=
  { k with fds := Function.update k.fds fd (some s) }

/-- The system call `fcntl(fd, F_GETFL)`: `-1` exactly when `fd` is not an open descriptor. -/
def fcntl (k : Kernel) (fd : Int) : Int × Kernel :=
  if k.isOpen fd then (0, { k with trace := .fcntl fd 0 :: k.trace })
  else (-1, { k with errno := EBADF, trace := .fcntl fd (-1) :: k.trace })

end Kernel

/-! ## Status reports -/

/-- One call `d_status.setReport(code, message)`. -/
structure Report where
  code : Int
  message : String
  deriving DecidableEq, Repr

/-- The C library functions that turn error numbers into text. -/
structure Libc where
  strerror : Int → String
  hstrerror : Int → String

/-- The call `snprintf(buf, 80, fmt, ...)` on the already formatted text: at most 79 characters are kept. -/
def snprintf80 (s : String) : String := String.mk (s.toList.take 79)

/-- The calls `d_status.setReport(code, message)` of a component, most recent first. -/
def setReport (st : List Report) (code : Int) (message : String) : List Report :=
  ⟨code, message⟩ :: st

/-- The body shared by `TCPServer::setError`, `TCPClient::setError`, `UDPServer::setError`
and `UDPClient::setError`. -/
def setError (libc : Libc) (st : List Report) (code : Int) (functionName : String) : List Report :=
  setReport st code (snprintf80 (functionName ++ ": " ++ libc.strerror code))

/-! ## The payload transfer loops -/

/-- The loop `while( (readTillNow < msgSize) && (numReadAttempts < 3) )` of
`TCPServer::doMessageCycle` (lines 193-205) and of `TCPClient::sendAndReceive`
(lines 610-624); `left` is `3 - numReadAttempts`. Returns `readTillNow`, the
buffer and the new kernel state. -/
def readLoop : Nat → Kernel → Int → List Byte → Int → Int → Int × List Byte × Kernel
  | 0, k, _, buf, _, readTillNow => (readTillNow, buf, k)
  | left + 1, k, fd, buf, msgSize, readTillNow =>
    if readTillNow < msgSize then
      let r := k.recv fd (.buf readTillNow) (msgSize - readTillNow)
      if r.1 = -1 then (readTillNow, buf, r.2.2)
      else readLoop left r.2.2 fd (storeAt buf readTillNow.toNat r.2.1) msgSize (readTillNow + r.1)
    else (readTillNow, buf, k)

/-- The read-and-discard loop of `TCPServer::doMessageCycle` (lines 171-181), which
receives into `NULL`. -/
def drainLoop : Nat → Kernel → Int → Int → Int → Int × Kernel
  | 0, k, _, _, readTillNow => (readTillNow, k)
  | left + 1, k, fd, msgSize, readTillNow =>
    if readTillNow < msgSize then
      let r := k.recv fd .null (msgSize - readTillNow)
      if r.1 = -1 then (readTillNow, r.2.2)
      else drainLoop left r.2.2 fd msgSize (readTillNow + r.1)
    else (readTillNow, k)

/-- The loop `while( (wroteTillNow < outMsgLen) && (numWriteAttempts < 3) )` of
`TCPServer::doMessageCycle` (lines 253-267) and of `TCPClient::sendAndReceive`
(lines 545-558); `left` is `3 - numWriteAttempts`. Returns `wroteTillNow` and the
new kernel state. -/
def writeLoop : Nat → Kernel → Int → List Byte → Int → Int → Int × Kernel
  | 0, k, _, _, _, wroteTillNow => (wroteTillNow, k)
  | left + 1, k, fd, outMsgBuf, outMsgLen, wroteTillNow =>
    if wroteTillNow < outMsgLen then
      let r := k.send fd (.buf wroteTillNow) (outMsgBuf.drop wroteTillNow.toNat)
        (outMsgLen - wroteTillNow)
      if r.1 = -1 then (wroteTillNow, r.2)
      else writeLoop left r.2 fd outMsgBuf outMsgLen (wroteTillNow + r.1)
    else (wroteTillNow, k)

/-! ## Further system calls used by the initialisation code -/

namespace Kernel

/-- The system call `socket(...)`: the environment either fails it with an `errno` or
hands out the descriptor `fd`, behind which `s` is the stream end point. -/
def socket (k : Kernel) (r : Except Int Int) (s : Sock) : Int × Kernel :=
  match r with
  | .error e => (-1, { k with errno := e, trace := .socket (-1) :: k.trace })
  | .ok fd => (fd, { k with fds := Function.update k.fds fd (some s), trace := .socket fd :: k.trace })

/-- The system call `socket(AF_INET, SOCK_DGRAM, IPPROTO_UDP)`. -/
def socketDgram (k : Kernel) (r : Except Int Int) (d : DSock) : Int × Kernel :=
  match r with
  | .error e => (-1, { k with errno := e, trace := .socket (-1) :: k.trace })
  | .ok fd => (fd, { k with udp := Function.update k.udp fd (some d), trace := .socket fd :: k.trace })

/-- The system call `setsockopt(fd, ..., opt, ...)`; `r` is the `errno` of a failure. -/
def setsockopt (k : Kernel) (fd : Int) (opt : String) (r : Option Int) : Int × Kernel :=
  match r with
  | some e => (-1, { k with errno := e, trace := .setsockopt fd opt (-1) :: k.trace })
  | none => (0, { k with trace := .setsockopt fd opt 0 :: k.trace })

/-- The system call `connect(fd, ...)`; `r` is the `errno` of a failure. -/
def connect (k : Kernel) (fd : Int) (r : Option Int) : Int × Kernel :=
  match r with
  | some e => (-1, { k with errno := e, trace := .connect fd (-1) :: k.trace })
  | none => (0, { k with trace := .connect fd 0 :: k.trace })

/-- The system call `bind(fd, ...)`; `r` is the `errno` of a failure. -/
def bind (k : Kernel) (fd : Int) (r : Option Int) : Int × Kernel :=
  match r with
  | some e => (-1, { k with errno := e, trace := .bind fd (-1) :: k.trace })
  | none => (0, { k with trace := .bind fd 0 :: k.trace })

/-- The library call `gethostbyname(name)`; it reports failures through `h_errno`,
not `errno`. -/
def gethostbyname (k : Kernel) (name : String) (r : Except Int Nat) : Kernel :=
  match r with
  | .error _ => { k with trace := .gethostbyname name false :: k.trace }
  | .ok _ => { k with trace := .gethostbyname name true :: k.trace }

end Kernel

/-- What the environment answers to the calls made by one run of `init`:
whether `realloc` succeeds, the host entry or `h_errno`, the descriptor or the
`errno` of `socket`, the `errno` of a failing `setsockopt` (by option name),
`connect` or `bind`, and the end point the new descriptor stands for. -/
structure InitEnv where
  realloc : Bool
  gethostbyname : Except Int Nat
  socket : Except Int Int
  setsockopt : String → Option Int
  connect : Option Int
  bind : Option Int
  conn : Sock
  dsock : DSock

/-! ## TCPServer -/

/-- The data members of `TCPServer`. -/
structure TCPServer where
  d_fd : Int
  d_rcvBuf : List Byte
  d_rcvBufSize : Int
  d_init : Bool
  d_status : List Report

/-- The virtual method `receiveAndReply(inMsgBuf, inMsgLen, outMsgLen)`: from the
receive buffer and the message length to the returned pointer (`none` is `NULL`)
and the value stored in `*outMsgLen`. -/
abbrev Handler := List Byte → Int → Option (List Byte) × Int

/-- The base class implementation `TCPServer::receiveAndReply` (lines 293-299). -/
def TCPServer.receiveAndReply : Handler := fun _ _ => (none, 0)

/-- The state of a running `TCPServer::doMessageCycle`: the object, the
operating system, the descriptor set `master`, and the invocations of
`receiveAndReply` made so far (buffer contents and `inMsgLen`, most recent first). -/
structure Cycle where
  srv : TCPServer
  k : Kernel
  master : Finset Int
  calls : List (List Byte × Int)

/-- The statements `close(i); FD_CLR(i, &master);` of `TCPServer::doMessageCycle`. -/
def Cycle.drop (c : Cycle) (k : Kernel) (i : Int) : Cycle :=
  { c with k := k.close i, master := c.master.erase i }

/-- The receiving half of the client message processing of
`TCPServer::doMessageCycle` (lines 139-217). `.error` is an iteration ended by
`continue`; `.ok` carries `msgSize` and the state in which the message is in
`d_rcvBuf`. -/
def TCPServer.readMessage (libc : Libc) (c : Cycle) (i : Int) : Except Cycle (Int × Cycle) :=
  let h := c.k.recv i .var 4
  if h.1 < 4 then
    .error (c.drop h.2.2 i)
  else
    let msgSize := bytesInt h.2.1
    if msgSize > c.srv.d_rcvBufSize then
      let d := drainLoop 3 h.2.2 i msgSize 0
      .error { c.drop d.2 i with
        srv := { c.srv with
          d_status := setReport c.srv.d_status (-1) "doMessageCycle: buffer not large enough." } }
    else
      let r := readLoop 3 h.2.2 i c.srv.d_rcvBuf msgSize 0
      if r.1 < msgSize then
        .error { c.drop r.2.2 i with
          srv := { c.srv with d_rcvBuf := r.2.1
                              d_status := setError libc c.srv.d_status EIO "doMessageCycle(recv)" } }
      else
        .ok (msgSize, { c with srv := { c.srv with d_rcvBuf := r.2.1 }, k := r.2.2 })

/-- The replying half of the client message processing of `TCPServer::doMessageCycle`
(lines 232-281), given what `receiveAndReply` returned. -/
def TCPServer.reply (libc : Libc) (c : Cycle) (i : Int) (outMsgBuf : Option (List Byte))
    (outMsgLen : Int) : Cycle :=
  match outMsgBuf with
  | none => c
  | some out =>
    let s := c.k.send i .var (intBytes outMsgLen) 4
    if s.1 < 4 then
      { c.drop s.2 i with
        srv := { c.srv with d_status := setError libc c.srv.d_status EIO "doMessageCycle(send)" } }
    else
      let w := writeLoop 3 s.2 i out outMsgLen 0
      if w.1 < outMsgLen then
        { c.drop w.2 i with
          srv := { c.srv with d_status := setError libc c.srv.d_status EIO "doMessageCycle(send)" } }
      else
        { c with k := w.2 }

/-- The client message processing of `TCPServer::doMessageCycle` (lines 137-282) for
a descriptor `i` of `master` other than the listening one that `select` reported
readable. -/
def TCPServer.clientMessage (libc : Libc) (receiveAndReply : Handler) (c : Cycle) (i : Int) :
    Cycle :=
  match TCPServer.readMessage libc c i with
  | .error c1 => c1
  | .ok (msgSize, c1) =>
    let out := receiveAndReply c1.srv.d_rcvBuf msgSize
    TCPServer.reply libc { c1 with calls := (c1.srv.d_rcvBuf, msgSize) :: c1.calls } i out.1 out.2

/-- The server end of connection `i` as its client sees it: the client message
processing run on the bytes `sent`, which arrive over a transport that moves
every byte requested. -/
def TCPServer.serve (libc : Libc) (receiveAndReply : Handler) (c : Cycle) (i : Int)
    (sent : List Byte) : Cycle :=
  TCPServer.clientMessage libc receiveAndReply
    { c with k := c.k.withSock i (Sock.scripted sent [] []) } i

/-! ## TCPClient -/

/-- A `struct timeval`. -/
structure Timeval where
  tv_sec : Int
  tv_usec : Int
  deriving DecidableEq, Repr

/-- The fields of `struct sockaddr_in` the code fills in. -/
structure SockAddr where
  sin_port : Int
  s_addr : Nat
  deriving DecidableEq, Repr

/-- The data members of `TCPClient`; `d_serverName = none` is the `NULL` pointer. -/
structure TCPClient where
  d_server : SockAddr
  d_serverName : Option String
  d_serverPort : Int
  d_fd : Int
  d_bdp : Int
  d_recvTimeout : Timeval
  d_init : Bool
  d_status : List Report

/-- The recurring failure exit of `TCPClient::init` after the socket exists:
`setError(errno, what); close(d_fd); d_fd = -1; return -1;`. -/
def TCPClient.initFail (libc : Libc) (c : TCPClient) (k : Kernel) (what : String) :
    Int × TCPClient × Kernel :=
  (-1, { c with d_status := setError libc c.d_status k.errno what, d_fd := -1 }, k.close c.d_fd)

/-- The part of `TCPClient::init` after the descriptor has been obtained (lines 701-757). -/
def TCPClient.initSocket (libc : Libc) (env : InitEnv) (c : TCPClient) (k : Kernel)
    (port : Int) (addr : Nat) : Int × TCPClient × Kernel :=
  let c : TCPClient := { c with d_server := { sin_port := port, s_addr := addr } }
  let o1 := k.setsockopt c.d_fd "TCP_NODELAY" (env.setsockopt "TCP_NODELAY")
  if o1.1 = -1 then TCPClient.initFail libc c o1.2 "init(setsockopt-TCP_NODELAY)"
  else
    let yes := int32 (c.d_bdp * 1024)
    let o2 := if yes ≠ 0 then o1.2.setsockopt c.d_fd "SO_SNDBUF" (env.setsockopt "SO_SNDBUF")
              else (0, o1.2)
    if o2.1 = -1 then TCPClient.initFail libc c o2.2 "init(setsockopt-SO_SNDBUF)"
    else
      let o3 := if yes ≠ 0 then o2.2.setsockopt c.d_fd "SO_RCVBUF" (env.setsockopt "SO_RCVBUF")
                else (0, o2.2)
      if o3.1 = -1 then TCPClient.initFail libc c o3.2 "init(setsockopt-SO_RCVBUF)"
      else
        let o4 := o3.2.setsockopt c.d_fd "SO_RCVTIMEO" (env.setsockopt "SO_RCVTIMEO")
        if o4.1 = -1 then TCPClient.initFail libc c o4.2 "init(setsockopt) SO_RCVTIMEO"
        else
          let o5 := o4.2.connect c.d_fd env.connect
          if o5.1 = -1 then TCPClient.initFail libc c o5.2 "init(connect)"
          else (0, { c with d_init := true }, o5.2)

/-- The function `TCPClient::init(serverIp, port, timeout, bdp)` (lines 645-758). -/
def TCPClient.init (libc : Libc) (env : InitEnv) (c : TCPClient) (k : Kernel)
    (serverIp : String) (port : Int) (timeout : Timeval) (bdp : Int) :
    Int × TCPClient × Kernel :=
  let c : TCPClient := { c with d_recvTimeout := timeout, d_bdp := bdp }
  let k := if c.d_fd ≠ 0 then k.close c.d_fd else k
  let c : TCPClient := if c.d_fd ≠ 0 then { c with d_fd := -1 } else c
  let c : TCPClient := { c with d_init := false }
  let nlen := serverIp.length
  let copy : Bool := match c.d_serverName with
    | none => true
    | some old => decide (old.toList.take nlen ≠ serverIp.toList)
  if copy && !env.realloc then
    (-1, { c with d_serverName := none
                  d_status := setError libc c.d_status (-1) "init(realloc)" }, k)
  else
    let c : TCPClient := if copy then { c with d_serverName := some serverIp } else c
    let c : TCPClient := { c with d_serverPort := port }
    let k := k.gethostbyname serverIp env.gethostbyname
    match env.gethostbyname with
    | .error h_errno =>
      (-1, { c with d_status :=
              setReport c.d_status h_errno (snprintf80 ("gethostbyname " ++ libc.hstrerror h_errno)) }, k)
    | .ok addr =>
      let s := k.socket env.socket env.conn
      let c : TCPClient := { c with d_fd := s.1 }
      if s.1 = -1 then
        (-1, { c with d_status := setError libc c.d_status s.2.errno "init(socket)" }, s.2)
      else
        TCPClient.initSocket libc env c s.2 port addr

/-- What a call of `sendAndReceive` leaves behind: the return value, the caller's
reply buffer and `*inMsgLen`, the object and the operating system. -/
structure Exchange (α : Type) where
  ret : Int
  inMsgBuf : Option (List Byte)
  inMsgLen : Int
  client : α
  k : Kernel

/-- The requesting half of `TCPClient::sendAndReceive` (lines 513-566): the checks,
the re-initialisation, and the writing of length and message. `.error` is a
`return -1`; `env` answers the system calls of a re-initialisation. -/
def TCPClient.sendRequest (libc : Libc) (env : InitEnv) (c : TCPClient) (k : Kernel)
    (outMsgBuf : Option (List Byte)) (outMsgLen : Int) :
    Except (TCPClient × Kernel) (TCPClient × Kernel) :=
  if !c.d_init then
    .error ({ c with d_status := setReport c.d_status (-1) "sendAndReceive: client not initialized" }, k)
  else
    let p := k.fcntl c.d_fd
    let i : Int × TCPClient × Kernel :=
      if p.1 = -1 then
        TCPClient.init libc env c p.2 (c.d_serverName.getD "") c.d_serverPort c.d_recvTimeout c.d_bdp
      else (0, c, p.2)
    if i.1 = -1 then .error (i.2.1, i.2.2)
    else
      let c := i.2.1
      match outMsgBuf with
      | none =>
        .error ({ c with d_status := setReport c.d_status EINVAL "sendAndReceive: invalid buffer" },
          i.2.2)
      | some out =>
        let s := i.2.2.send c.d_fd .var (intBytes outMsgLen) 4
        if s.1 < 4 then
          .error ({ c with d_status := setError libc c.d_status s.2.errno "sendAndReceive(send)" },
            s.2.close c.d_fd)
        else
          let w := writeLoop 3 s.2 c.d_fd out outMsgLen 0
          if w.1 < outMsgLen then
            .error ({ c with d_status := setError libc c.d_status EIO "sendAndReceive(send)" },
              w.2.close c.d_fd)
          else
            .ok (c, w.2)

/-- The receiving half of `TCPClient::sendAndReceive` (lines 580-638), entered with a
reply buffer `inBuf` that is not `NULL`; `inMsgLen` is the value found in `*inMsgLen`. -/
def TCPClient.receiveReply (libc : Libc) (c : TCPClient) (k : Kernel)
    (inBuf : List Byte) (inBufLen : Int) (inMsgLen : Int) : Exchange TCPClient :=
  let h := k.recv c.d_fd .var 4
  let len := bytesInt (h.2.1 ++ (intBytes inMsgLen).drop h.2.1.length)
  if h.1 < 4 then
    ⟨-1, some inBuf, len,
      { c with d_status := setError libc c.d_status h.2.2.errno "sendAndReceive(recv)" },
      h.2.2.close c.d_fd⟩
  else if len > inBufLen then
    ⟨-1, some inBuf, len,
      { c with d_status := setReport c.d_status (-1) "sendAndReceive: buffer not large enough." },
      h.2.2.close c.d_fd⟩
  else
    let r := readLoop 3 h.2.2 c.d_fd inBuf len 0
    if r.1 < len then
      ⟨-1, some r.2.1, len,
        { c with d_status := setError libc c.d_status EIO "sendAndReceive(recv)" },
        r.2.2.close c.d_fd⟩
    else ⟨0, some r.2.1, len, c, r.2.2⟩

/-- The function `TCPClient::sendAndReceive(outMsgBuf, outMsgLen, inMsgBuf, inBufLen, inMsgLen)`
(lines 510-639). A `NULL` buffer is `none`; the last argument is the value found in
`*inMsgLen` on entry. -/
def TCPClient.sendAndReceive (libc : Libc) (env : InitEnv) (c : TCPClient) (k : Kernel)
    (outMsgBuf : Option (List Byte)) (outMsgLen : Int)
    (inMsgBuf : Option (List Byte)) (inBufLen : Int) (inMsgLen : Int) : Exchange TCPClient :=
  match TCPClient.sendRequest libc env c k outMsgBuf outMsgLen with
  | .error (c1, k1) => ⟨-1, inMsgBuf, inMsgLen, c1, k1⟩
  | .ok (c1, k1) =>
    match inMsgBuf with
    | none => ⟨0, none, inMsgLen, c1, k1⟩
    | some inBuf => TCPClient.receiveReply libc c1 k1 inBuf inBufLen inMsgLen

/-! ## UDPClient -/

namespace Kernel

/-- The system call `sendto(fd, buf, len, 0, addr, addrlen)`, where `data` are the bytes
found at `buf`. -/
def sendto (k : Kernel) (fd : Int) (data : List Byte) (len : Int) (addr : SockAddr) :
    Int × Kernel :=
  match k.udp fd with
  | none => (-1, { k with errno := EBADF, trace := .sendto fd len (-1) :: k.trace })
  | some d =>
    match d.sendPlan with
    | .err e :: rest =>
      (-1, { k with errno := e
                    udp := Function.update k.udp fd (some { d with sendPlan := rest })
                    trace := .sendto fd len (-1) :: k.trace })
    | .count n :: rest =>
      let taken := data.take (min n len.toNat)
      (taken.length,
        { k with udp := Function.update k.udp fd
                    (some { d with sent := ⟨addr.s_addr, addr.sin_port, taken⟩ :: d.sent
                                   sendPlan := rest })
                 trace := .sendto fd len taken.length :: k.trace })
    | [] =>
      let taken := data.take len.toNat
      (taken.length,
        { k with udp := Function.update k.udp fd
                    (some { d with sent := ⟨addr.s_addr, addr.sin_port, taken⟩ :: d.sent })
                 trace := .sendto fd len taken.length :: k.trace })

/-- The errno of a receive that timed out. -/
def EAGAIN : Int := 11

/-- The system call `recvfrom(fd, buf, len, 0, from, fromlen)`: return value, the bytes
stored at `buf`, the sender address stored at `from` (if any), and the new state.
A datagram longer than `len` is cut to `len` bytes; an empty inbox is a timeout. -/
def recvfrom (k : Kernel) (fd : Int) (len : Int) : Int × List Byte × Option SockAddr × Kernel :=
  match k.udp fd with
  | none => (-1, [], none, { k with errno := EBADF, trace := .recvfrom fd len (-1) :: k.trace })
  | some d =>
    match d.recvPlan, d.inbox with
    | .err e :: rest, _ =>
      (-1, [], none, { k with errno := e
                              udp := Function.update k.udp fd (some { d with recvPlan := rest })
                              trace := .recvfrom fd len (-1) :: k.trace })
    | plan, [] =>
      (-1, [], none, { k with errno := EAGAIN
                              udp := Function.update k.udp fd (some { d with recvPlan := plan.tail })
                              trace := .recvfrom fd len (-1) :: k.trace })
    | plan, g :: more =>
      let data := g.payload.take len.toNat
      (data.length, data, some ⟨g.sin_port, g.s_addr⟩,
        { k with udp := Function.update k.udp fd
                    (some { d with inbox := more, recvPlan := plan.tail })
                 trace := .recvfrom fd len data.length :: k.trace })

end Kernel

/-- The data members of `UDPClient`; `d_serverName = none` is the `NULL` pointer. -/
structure UDPClient where
  d_server : SockAddr
  d_serverName : Option String
  d_serverPort : Int
  d_fd : Int
  d_bdp : Int
  d_recvTimeout : Timeval
  d_init : Bool
  d_status : List Report

/-- The recurring failure exit of `UDPClient::init` after the socket exists:
`setError(errno, what); close(d_fd); d_fd = -1; return -1;`. -/
def UDPClient.initFail (libc : Libc) (c : UDPClient) (k : Kernel) (what : String) :
    Int × UDPClient × Kernel :=
  (-1, { c with d_status := setError libc c.d_status k.errno what, d_fd := -1 }, k.close c.d_fd)

/-- The part of `UDPClient::init` after the descriptor has been obtained (lines 404-463). -/
def UDPClient.initSocket (libc : Libc) (env : InitEnv) (c : UDPClient) (k : Kernel)
    (serverIp : String) (port : Int) : Int × UDPClient × Kernel :=
  let yes := int32 (c.d_bdp * 1024)
  let o2 := if yes ≠ 0 then k.setsockopt c.d_fd "SO_SNDBUF" (env.setsockopt "SO_SNDBUF")
            else (0, k)
  if o2.1 = -1 then UDPClient.initFail libc c o2.2 "init(setsockopt-SO_SNDBUF)"
  else
    let o3 := if yes ≠ 0 then o2.2.setsockopt c.d_fd "SO_RCVBUF" (env.setsockopt "SO_RCVBUF")
              else (0, o2.2)
    if o3.1 = -1 then UDPClient.initFail libc c o3.2 "init(setsockopt-SO_RCVBUF)"
    else
      let o4 := o3.2.setsockopt c.d_fd "SO_RCVTIMEO" (env.setsockopt "SO_RCVTIMEO")
      if o4.1 = -1 then UDPClient.initFail libc c o4.2 "init(setsockopt) SO_RCVTIMEO"
      else
        let o5 := o4.2.bind c.d_fd env.bind
        if o5.1 = -1 then UDPClient.initFail libc c o5.2 "init(bind)"
        else
          let k := o5.2.gethostbyname serverIp env.gethostbyname
          match env.gethostbyname with
          | .error h_errno =>
            (-1, { c with
                    d_status := setReport c.d_status h_errno
                      (snprintf80 ("gethostbyname " ++ libc.hstrerror h_errno)),
                    d_fd := -1 }, k.close c.d_fd)
          | .ok addr =>
            (0, { c with d_server := { sin_port := port, s_addr := addr }, d_init := true }, k)

/-- The function `UDPClient::init(serverIp, port, timout, bdp)` (lines 350-463). -/
def UDPClient.init (libc : Libc) (env : InitEnv) (c : UDPClient) (k : Kernel)
    (serverIp : String) (port : Int) (timout : Timeval) (bdp : Int) :
    Int × UDPClient × Kernel :=
  let c : UDPClient := { c with d_recvTimeout := timout, d_bdp := bdp }
  let k := if c.d_fd ≠ 0 then k.close c.d_fd else k
  let c : UDPClient := if c.d_fd ≠ 0 then { c with d_fd := -1 } else c
  let c : UDPClient := { c with d_init := false }
  let nlen := serverIp.length
  let copy : Bool := match c.d_serverName with
    | none => true
    | some old => decide (old.toList.take nlen ≠ serverIp.toList)
  if copy && !env.realloc then
    (-1, { c with d_serverName := none
                  d_status := setError libc c.d_status (-1) "init(realloc)" }, k)
  else
    let c : UDPClient := if copy then { c with d_serverName := some serverIp } else c
    let c : UDPClient := { c with d_serverPort := port }
    let s := k.socketDgram env.socket env.dsock
    let c : UDPClient := { c with d_fd := s.1 }
    if s.1 = -1 then
      (-1, { c with d_status := setError libc c.d_status s.2.errno "init(socket)" }, s.2)
    else
      UDPClient.initSocket libc env c s.2 serverIp port

/-- The function `UDPClient::sendAndReceive(outMsgBuf, outMsgLen, inMsgBuf, inBufLen, inMsgLen)`
(lines 283-344). A `NULL` buffer is `none`; the last argument is the value found in
`*inMsgLen` on entry; `env` answers the system calls of a re-initialisation. -/
def UDPClient.sendAndReceive (libc : Libc) (env : InitEnv) (c : UDPClient) (k : Kernel)
    (outMsgBuf : Option (List Byte)) (outMsgLen : Int)
    (inMsgBuf : Option (List Byte)) (inBufLen : Int) (inMsgLen : Int) : Exchange UDPClient :=
  if !c.d_init then
    ⟨-1, inMsgBuf, inMsgLen,
      { c with d_status := setReport c.d_status (-1) "sendAndReceive: client not initialized" }, k⟩
  else
    let p := k.fcntl c.d_fd
    let i : Int × UDPClient × Kernel :=
      if p.1 = -1 then
        UDPClient.init libc env c p.2 (c.d_serverName.getD "") c.d_serverPort c.d_recvTimeout c.d_bdp
      else (0, c, p.2)
    if i.1 = -1 then ⟨-1, inMsgBuf, inMsgLen, i.2.1, i.2.2⟩
    else
      let c := i.2.1
      match outMsgBuf with
      | none =>
        ⟨-1, inMsgBuf, inMsgLen,
          { c with d_status := setReport c.d_status EINVAL "sendAndReceive: invalid buffer" }, i.2.2⟩
      | some out =>
        let s := i.2.2.sendto c.d_fd out outMsgLen c.d_server
        if s.1 < outMsgLen then
          ⟨-1, inMsgBuf, inMsgLen,
            { c with d_status := setError libc c.d_status s.2.errno "sendAndReceive(send)" },
            s.2.close c.d_fd⟩
        else
          match inMsgBuf with
          | none => ⟨0, none, inMsgLen, c, s.2⟩
          | some inBuf =>
            let r := s.2.recvfrom c.d_fd inBufLen
            if r.1 = -1 then
              ⟨-1, some inBuf, -1,
                { c with d_status := setError libc c.d_status r.2.2.2.errno "sendAndReceive(recv)" },
                r.2.2.2.close c.d_fd⟩
            else if (r.2.2.1.map (fun a => a.s_addr)) ≠ some c.d_server.s_addr then
              ⟨-1, some (storeAt inBuf 0 r.2.1), r.1,
                { c with
                    d_status := setReport c.d_status (-1)
                      (snprintf80 "sendAndReceive(recv): Received message from some other source"),
                    d_fd := -1 },
                r.2.2.2.close c.d_fd⟩
            else ⟨0, some (storeAt inBuf 0 r.2.1), r.1, c, r.2.2.2⟩

/-! ## `TCPClient::sendAndReceive` in finer steps -/

/-- The entry of `TCPClient::sendAndReceive` (lines 513-524): the `d_init` test, the
`fcntl` probe of `d_fd` and, when the probe fails, the call
`init(d_serverName, d_serverPort, d_recvTimeout, d_bdp)`. `.error` is a `return -1`;
`.ok` carries the object and the system with which the call goes on. -/
def TCPClient.connected (libc : Libc) (env : InitEnv) (c : TCPClient) (k : Kernel) :
    Except (TCPClient × Kernel) (TCPClient × Kernel) :=
  if !c.d_init then
    .error ({ c with d_status := setReport c.d_status (-1) "sendAndReceive: client not initialized" }, k)
  else
    let p := k.fcntl c.d_fd
    if p.1 = -1 then
      let r := TCPClient.init libc env c p.2 (c.d_serverName.getD "") c.d_serverPort
        c.d_recvTimeout c.d_bdp
      if r.1 = -1 then .error (r.2.1, r.2.2) else .ok (r.2.1, r.2.2)
    else .ok (c, p.2)

/-- The writing part of `TCPClient::sendAndReceive` (lines 526-566): the test of
`outMsgBuf`, the `send` of the length and the write loop. `.error` is a `return -1`. -/
def TCPClient.writeRequest (libc : Libc) (c : TCPClient) (k : Kernel)
    (outMsgBuf : Option (List Byte)) (outMsgLen : Int) :
    Except (TCPClient × Kernel) (TCPClient × Kernel) :=
  match outMsgBuf with
  | none =>
    .error ({ c with d_status := setReport c.d_status EINVAL "sendAndReceive: invalid buffer" }, k)
  | some out =>
    let s := k.send c.d_fd .var (intBytes outMsgLen) 4
    if s.1 < 4 then
      .error ({ c with d_status := setError libc c.d_status s.2.errno "sendAndReceive(send)" },
        s.2.close c.d_fd)
    else
      let w := writeLoop 3 s.2 c.d_fd out outMsgLen 0
      if w.1 < outMsgLen then
        .error ({ c with d_status := setError libc c.d_status EIO "sendAndReceive(send)" },
          w.2.close c.d_fd)
      else
        .ok (c, w.2)

/-- The exchange of `TCPClient::sendAndReceive` (lines 526-639): everything after the
descriptor has been probed and, if need be, replaced. -/
def TCPClient.exchange (libc : Libc) (c : TCPClient) (k : Kernel)
    (outMsgBuf : Option (List Byte)) (outMsgLen : Int)
    (inMsgBuf : Option (List Byte)) (inBufLen : Int) (inMsgLen : Int) : Exchange TCPClient :=
  match TCPClient.writeRequest libc c k outMsgBuf outMsgLen with
  | .error (c1, k1) => ⟨-1, inMsgBuf, inMsgLen, c1, k1⟩
  | .ok (c1, k1) =>
    match inMsgBuf with
    | none => ⟨0, none, inMsgLen, c1, k1⟩
    | some inBuf => TCPClient.receiveReply libc c1 k1 inBuf inBufLen inMsgLen

/-- Whether the log entry is a `socket` or a `connect`, the calls with which a
connection is established. -/
def Syscall.isConnect : Syscall → Bool
  | .socket _ => true
  | .connect _ _ => true
  | _ => false

/-! ## Server initialisation -/

namespace Kernel

/-- The system call `listen(fd, 20)`; `r` is the `errno` of a failure. -/
def listen (k : Kernel) (fd : Int) (r : Option Int) : Int × Kernel :=
  match r with
  | some e => (-1, { k with errno := e, trace := .listen fd (-1) :: k.trace })
  | none => (0, { k with trace := .listen fd 0 :: k.trace })

/-- The system call `accept(fd, ...)`: the environment either fails it with an `errno` or
hands out a new descriptor together with the end point of the accepted connection. -/
def accept (k : Kernel) (fd : Int) (r : Except Int (Int × Sock)) : Int × Kernel :=
  match r with
  | .error e => (-1, { k with errno := e, trace := .accept fd (-1) :: k.trace })
  | .ok a => (a.1, { k with fds := Function.update k.fds a.1 (some a.2)
                            trace := .accept fd a.1 :: k.trace })

/-- The system call `select(...)` without timeout; `r` is the `errno` of a failure. -/
def select (k : Kernel) (r : Option Int) : Int × Kernel :=
  match r with
  | some e => (-1, { k with errno := e, trace := .select (-1) :: k.trace })
  | none => (1, { k with trace := .select 1 :: k.trace })

end Kernel

/-- What the environment answers to the calls made by one run of a server `init`: the
descriptor or the `errno` of `socket`, the `errno` of a failing `setsockopt` (by option
name), `bind` or `listen`, whether `realloc` succeeds, and the socket the new descriptor
stands for. -/
structure ListenEnv where
  socket : Except Int Int
  setsockopt : String → Option Int
  bind : Option Int
  listen : Option Int
  realloc : Bool
  sock : Sock
  dsock : DSock

/-- The block `realloc(d_rcvBuf, size)` when it succeeds: the old contents up to the new
size; bytes that were not there before are taken to be zero. -/
def resized (buf : List Byte) (size : Int) : List Byte :=
  buf.take size.toNat ++ List.replicate (size.toNat - buf.length) 0

/-- The recurring failure exit of `TCPServer::init` after the socket exists:
`setError(errno, what); close(d_fd); d_fd = -1; return -1;`. -/
def TCPServer.initFail (libc : Libc) (s : TCPServer) (k : Kernel) (what : String) :
    Int × TCPServer × Kernel :=
  (-1, { s with d_status := setError libc s.d_status k.errno what, d_fd := -1 }, k.close s.d_fd)

/-- The part of `TCPServer::init` after the descriptor has been obtained (lines 324-397). -/
def TCPServer.initSocket (libc : Libc) (env : ListenEnv) (s : TCPServer) (k : Kernel)
    (bufSize : Int) (sockBufSize : Int) : Int × TCPServer × Kernel :=
  let o1 := k.setsockopt s.d_fd "SO_REUSEADDR" (env.setsockopt "SO_REUSEADDR")
  if o1.1 = -1 then TCPServer.initFail libc s o1.2 "init(setsockopt-SO_REUSEADDR)"
  else
    let o2 := o1.2.setsockopt s.d_fd "TCP_NODELAY" (env.setsockopt "TCP_NODELAY")
    if o2.1 = -1 then TCPServer.initFail libc s o2.2 "init(setsockopt-TCP_NODELAY)"
    else
      let o3 := if sockBufSize ≠ 0 then o2.2.setsockopt s.d_fd "SO_SNDBUF" (env.setsockopt "SO_SNDBUF")
                else (0, o2.2)
      if o3.1 = -1 then TCPServer.initFail libc s o3.2 "init(setsockopt-SO_SNDBUF)"
      else
        let o4 := if sockBufSize ≠ 0 then o3.2.setsockopt s.d_fd "SO_RCVBUF" (env.setsockopt "SO_RCVBUF")
                  else (0, o3.2)
        if o4.1 = -1 then TCPServer.initFail libc s o4.2 "init(setsockopt-SO_RCVBUF)"
        else
          let o5 := o4.2.bind s.d_fd env.bind
          if o5.1 = -1 then TCPServer.initFail libc s o5.2 "init(bind)"
          else
            let o6 := o5.2.listen s.d_fd env.listen
            if o6.1 = -1 then TCPServer.initFail libc s o6.2 "init(listen)"
            else if !env.realloc then
              (-1, { s with d_rcvBuf := []
                            d_status := setError libc s.d_status ENOMEM "TCPServer(malloc)"
                            d_fd := -1 }, o6.2.close s.d_fd)
            else
              (0, { s with d_rcvBuf := resized s.d_rcvBuf (bufSize + 4)
                           d_rcvBufSize := bufSize
                           d_init := true }, o6.2)

/-- The function `TCPServer::init(port, bufSize, bdp)` (lines 305-398). -/
def TCPServer.init (libc : Libc) (env : ListenEnv) (s : TCPServer) (k : Kernel)
    (_port : Int) (bufSize : Int) (bdp : Int) : Int × TCPServer × Kernel :=
  let sockBufSize := int32 (bdp * 1024)
  let s : TCPServer := { s with d_init := false }
  let k := if s.d_fd ≠ 0 then k.close s.d_fd else k
  let s : TCPServer := if s.d_fd ≠ 0 then { s with d_fd := -1 } else s
  let so := k.socket env.socket env.sock
  let s : TCPServer := { s with d_fd := so.1 }
  if so.1 = -1 then
    (-1, { s with d_status := setError libc s.d_status so.2.errno "init(socket)" }, so.2)
  else
    TCPServer.initSocket libc env s so.2 bufSize sockBufSize

/-! ## The loop of `TCPServer::doMessageCycle` -/

/-- What one `select` that succeeds reports: the descriptors with activity, and what the
`accept` made in this round (if the listening descriptor is among them) will return,
the new descriptor, its end point and the text `inet_ntoa` gives for the client. -/
structure Ready where
  fds : Finset Int
  accept : Except Int (Int × Sock)
  clntIp : String

/-- The state of the loop: the state of `Cycle` and the local variable `fdMax`. -/
structure Loop where
  c : Cycle
  fdMax : Int

/-- The handling of a connection request in `TCPServer::doMessageCycle` (lines 122-133).
A descriptor that `accept` hands out is not negative, so `FD_SET(newFd, &master)` is the
insertion of `newFd`. -/
def TCPServer.acceptClient (libc : Libc) (r : Ready) (st : Loop) : Loop :=
  let a := st.c.k.accept st.c.srv.d_fd r.accept
  if a.1 = -1 then
    { st with c := { st.c with
        k := a.2
        srv := { st.c.srv with
          d_status := setError libc st.c.srv.d_status a.2.errno "doMessageCycle(accept)" } } }
  else
    { c := { st.c with
        k := a.2
        master := insert a.1 st.c.master
        srv := { st.c.srv with
          d_status := setReport st.c.srv.d_status 0
            (snprintf80 ("accept " ++ r.clntIp ++ " (fd " ++ toString a.1 ++ ")")) } }
      fdMax := if a.1 > st.fdMax then a.1 else st.fdMax }

/-- The body of `for(int i = 0; i <= fdMax; i++)` in `TCPServer::doMessageCycle`
(lines 118-284) for one value of `i`. -/
def TCPServer.serveDescriptor (libc : Libc) (receiveAndReply : Handler) (readFds : Finset Int)
    (r : Ready) (st : Loop) (i : Int) : Loop :=
  if i ∈ readFds then
    if i = st.c.srv.d_fd then TCPServer.acceptClient libc r st
    else { st with c := TCPServer.clientMessage libc receiveAndReply st.c i }
  else st

/-- The loop `for(int i = 0; i <= fdMax; i++)` of `TCPServer::doMessageCycle`, started at `i`
with `n` values of `i` still to go. Descriptors accepted during the loop raise `fdMax`,
but they are not in `readFds`, so the values of `i` added by that are not visited here. -/
def TCPServer.scan (libc : Libc) (receiveAndReply : Handler) (readFds : Finset Int) (r : Ready) :
    Nat → Int → Loop → Loop
  | 0, _, st => st
  | n + 1, i, st =>
    TCPServer.scan libc receiveAndReply readFds r n (i + 1)
      (TCPServer.serveDescriptor libc receiveAndReply readFds r st i)

/-- The loop `for(;;)` of `TCPServer::doMessageCycle` (lines 106-286), run on the outcomes
of the successive `select` calls. The result says whether the loop was left (`true`, after a
failing `select`) or is waiting in the next `select` (`false`, outcomes used up). `select`
reports a subset of the descriptors it is given. -/
def TCPServer.loop (libc : Libc) (receiveAndReply : Handler) :
    List (Except Int Ready) → Loop → Loop × Bool
  | [], st => (st, false)
  | .error e :: _, st =>
    let s := st.c.k.select (some e)
    ({ st with c := { st.c with
        k := s.2
        srv := { st.c.srv with
          d_status := setError libc st.c.srv.d_status s.2.errno "doMessageCycle(select)" } } },
      true)
  | .ok r :: rest, st =>
    let s := st.c.k.select none
    let st1 : Loop := { st with c := { st.c with k := s.2 } }
    TCPServer.loop libc receiveAndReply rest
      (TCPServer.scan libc receiveAndReply (r.fds ∩ st.c.master) r (st.fdMax + 1).toNat 0 st1)

/-- The macro call `FD_SET(fd, &set)` of `<sys/select.h>`: the descriptor set with `fd`
added. The macro sets bit `fd` of an array of bits, so its behaviour is defined for a
descriptor that is not negative only; `none` is the undefined behaviour of a negative `fd`.
The upper limit `FD_SETSIZE` of the array is not part of the embedding, in which descriptor
sets are finite sets of any size. -/
def FD_SET (fd : Int) (set : Finset Int) : Option (Finset Int) :=
  if 0 ≤ fd then some (insert fd set) else none

/-- The statements `FD_ZERO(&master); FD_SET(d_fd, &master); fdMax = d_fd;` with which
`TCPServer::doMessageCycle` begins (lines 90-92): the set `master` and `fdMax`. They are
executed before `d_init` is tested. -/
def TCPServer.listener (srv : TCPServer) : Option (Finset Int × Int) :=
  (FD_SET srv.d_fd ∅).map (fun master => (master, srv.d_fd))

/-- The function `TCPServer::doMessageCycle()` (lines 78-287), run on the outcomes of
its `select` calls. The result is `none` when the function leaves defined behaviour in
`FD_SET(d_fd, &master)`; otherwise it says whether the function has returned. -/
def TCPServer.doMessageCycle (libc : Libc) (receiveAndReply : Handler)
    (selects : List (Except Int Ready)) (srv : TCPServer) (k : Kernel) : Option (Loop × Bool) :=
  match TCPServer.listener srv with
  | none => none
  | some (master, fdMax) =>
    if !srv.d_init then
      some (⟨⟨{ srv with
          d_status := setReport srv.d_status (-1) "sendAndReceive: server not initialized" },
          k, master, []⟩, fdMax⟩, true)
    else
      some (TCPServer.loop libc receiveAndReply selects ⟨⟨srv, k, master, []⟩, fdMax⟩)

/-! ## UDPServer -/

/-- The data members of `UDPServer`. -/
structure UDPServer where
  d_fd : Int
  d_rcvBuf : List Byte
  d_rcvBufSize : Int
  d_init : Bool
  d_status : List Report

/-- The base class implementation `UDPServer::receiveAndReply` (lines 110-116). -/
def UDPServer.receiveAndReply : Handler := fun _ _ => (none, 0)

/-- The recurring failure exit of `UDPServer::init` after the socket exists:
`setError(errno, what); close(d_fd); d_fd = -1; return -1;`. -/
def UDPServer.initFail (libc : Libc) (s : UDPServer) (k : Kernel) (what : String) :
    Int × UDPServer × Kernel :=
  (-1, { s with d_status := setError libc s.d_status k.errno what, d_fd := -1 }, k.close s.d_fd)

/-- The part of `UDPServer::init` after the descriptor has been obtained (lines 145-198). -/
def UDPServer.initSocket (libc : Libc) (env : ListenEnv) (s : UDPServer) (k : Kernel)
    (maxMsgSize : Int) (sockBufSize : Int) : Int × UDPServer × Kernel :=
  let o1 := k.setsockopt s.d_fd "SO_REUSEADDR" (env.setsockopt "SO_REUSEADDR")
  if o1.1 = -1 then UDPServer.initFail libc s o1.2 "init(setsockopt) SO_REUSEADDR"
  else
    let o3 := if sockBufSize ≠ 0 then o1.2.setsockopt s.d_fd "SO_SNDBUF" (env.setsockopt "SO_SNDBUF")
              else (0, o1.2)
    if o3.1 = -1 then UDPServer.initFail libc s o3.2 "init(setsockopt-SO_SNDBUF)"
    else
      let o4 := if sockBufSize ≠ 0 then o3.2.setsockopt s.d_fd "SO_RCVBUF" (env.setsockopt "SO_RCVBUF")
                else (0, o3.2)
      if o4.1 = -1 then UDPServer.initFail libc s o4.2 "init(setsockopt-SO_RCVBUF)"
      else
        let o5 := o4.2.bind s.d_fd env.bind
        if o5.1 = -1 then UDPServer.initFail libc s o5.2 "init(bind)"
        else if !env.realloc then
          (-1, { s with d_rcvBuf := []
                        d_status := setError libc s.d_status ENOMEM "UDPServer(malloc)"
                        d_fd := -1 }, o5.2.close s.d_fd)
        else
          (0, { s with d_rcvBuf := resized s.d_rcvBuf maxMsgSize
                       d_rcvBufSize := maxMsgSize
                       d_init := true }, o5.2)

/-- The function `UDPServer::init(port, maxMsgSize, bdp)` (lines 122-199). -/
def UDPServer.init (libc : Libc) (env : ListenEnv) (s : UDPServer) (k : Kernel)
    (_port : Int) (maxMsgSize : Int) (bdp : Int) : Int × UDPServer × Kernel :=
  let sockBufSize := int32 (bdp * 1024)
  let k := if s.d_init && decide (s.d_fd ≠ 0) then k.close s.d_fd else k
  let s : UDPServer := if s.d_init && decide (s.d_fd ≠ 0) then { s with d_fd := -1 } else s
  let s : UDPServer := { s with d_init := false }
  let so := k.socketDgram env.socket env.dsock
  let s : UDPServer := { s with d_fd := so.1 }
  if so.1 = -1 then
    (-1, { s with d_status := setError libc s.d_status so.2.errno "init(socket)", d_fd := -1 }, so.2)
  else
    UDPServer.initSocket libc env s so.2 maxMsgSize sockBufSize

/-- The state of a running `UDPServer::doMessageCycle`: the object, the operating
system, and the invocations of `receiveAndReply` made so far (most recent first). -/
structure UCycle where
  srv : UDPServer
  k : Kernel
  calls : List (List Byte × Int)

/-- One round of the loop of `UDPServer::doMessageCycle` after `pthread_testcancel`
(lines 80-102). -/
def UDPServer.serveDatagram (libc : Libc) (receiveAndReply : Handler) (c : UCycle) : UCycle :=
  let r := c.k.recvfrom c.srv.d_fd c.srv.d_rcvBufSize
  if r.1 = -1 then
    { c with k := r.2.2.2
             srv := { c.srv with
               d_status := setError libc c.srv.d_status EIO "doMessageCycle(recvfrom)" } }
  else
    let buf := storeAt c.srv.d_rcvBuf 0 r.2.1
    let out := receiveAndReply buf r.1
    let c1 : UCycle := { srv := { c.srv with d_rcvBuf := buf }, k := r.2.2.2
                         calls := (buf, r.1) :: c.calls }
    match out.1 with
    | none => c1
    | some outMsgBuf =>
      let s := c1.k.sendto c1.srv.d_fd outMsgBuf out.2 (r.2.2.1.getD ⟨0, 0⟩)
      if s.1 ≠ out.2 then
        { c1 with k := s.2
                  srv := { c1.srv with
                    d_status := setError libc c1.srv.d_status EIO "doMessageCycle(sendto)" } }
      else { c1 with k := s.2 }

/-- The loop `while(1)` of `UDPServer::doMessageCycle` (lines 75-103), run on what the
successive `pthread_testcancel` calls find (`true`: the thread has been cancelled). The
result says whether the thread has left the loop. -/
def UDPServer.loop (libc : Libc) (receiveAndReply : Handler) : List Bool → UCycle → UCycle × Bool
  | [], c => (c, false)
  | true :: _, c => (c, true)
  | false :: rest, c =>
    UDPServer.loop libc receiveAndReply rest (UDPServer.serveDatagram libc receiveAndReply c)

/-- The function `UDPServer::doMessageCycle()` (lines 63-104). The result says whether the
function has returned or the thread has been cancelled. -/
def UDPServer.doMessageCycle (libc : Libc) (receiveAndReply : Handler) (cancels : List Bool)
    (srv : UDPServer) (k : Kernel) : UCycle × Bool :=
  if !srv.d_init then
    (⟨{ srv with d_status := setReport srv.d_status (-1) "doMessageCycle: server not initialized" },
      k, []⟩, true)
  else
    UDPServer.loop libc receiveAndReply cancels ⟨srv, k, []⟩

/-- The steps of a server `init` that can fail. -/
inductive InitStep where
  | socket
  | reuseaddr
  | nodelay
  | sndbuf
  | rcvbuf
  | bind
  | listen
  | malloc
  deriving DecidableEq, Repr

/-- The text with which `TCPServer::init` names a failing step in its report. -/
def InitStep.tcpText : InitStep → String
  | .socket => "init(socket)"
  | .reuseaddr => "init(setsockopt-SO_REUSEADDR)"
  | .nodelay => "init(setsockopt-TCP_NODELAY)"
  | .sndbuf => "init(setsockopt-SO_SNDBUF)"
  | .rcvbuf => "init(setsockopt-SO_RCVBUF)"
  | .bind => "init(bind)"
  | .listen => "init(listen)"
  | .malloc => "TCPServer(malloc)"

/-- The text with which `UDPServer::init` names a failing step in its report. -/
def InitStep.udpText : InitStep → String
  | .socket => "init(socket)"
  | .reuseaddr => "init(setsockopt) SO_REUSEADDR"
  | .nodelay => "init(setsockopt-TCP_NODELAY)"
  | .sndbuf => "init(setsockopt-SO_SNDBUF)"
  | .rcvbuf => "init(setsockopt-SO_RCVBUF)"
  | .bind => "init(bind)"
  | .listen => "init(listen)"
  | .malloc => "UDPServer(malloc)"

/-- The first step at which the environment makes `TCPServer::init` fail, with the error
code of the failure (`ENOMEM` for the allocation), if there is one. The two buffer size
options are set only when the `int` variable `sockBufSize` is not zero. -/
def ListenEnv.tcpFailure (env : ListenEnv) (bdp : Int) : Option (InitStep × Int) :=
  match env.socket with
  | .error e => some (.socket, e)
  | .ok _ =>
    match env.setsockopt "SO_REUSEADDR" with
    | some e => some (.reuseaddr, e)
    | none =>
      match env.setsockopt "TCP_NODELAY" with
      | some e => some (.nodelay, e)
      | none =>
        match (if int32 (bdp * 1024) ≠ 0 then env.setsockopt "SO_SNDBUF" else none) with
        | some e => some (.sndbuf, e)
        | none =>
          match (if int32 (bdp * 1024) ≠ 0 then env.setsockopt "SO_RCVBUF" else none) with
          | some e => some (.rcvbuf, e)
          | none =>
            match env.bind with
            | some e => some (.bind, e)
            | none =>
              match env.listen with
              | some e => some (.listen, e)
              | none => if env.realloc then none else some (.malloc, ENOMEM)

/-- The first step at which the environment makes `UDPServer::init` fail, with the error
code of the failure (`ENOMEM` for the allocation), if there is one. The two buffer size
options are set only when the `int` variable `sockBufSize` is not zero. -/
def ListenEnv.udpFailure (env : ListenEnv) (bdp : Int) : Option (InitStep × Int) :=
  match env.socket with
  | .error e => some (.socket, e)
  | .ok _ =>
    match env.setsockopt "SO_REUSEADDR" with
    | some e => some (.reuseaddr, e)
    | none =>
      match (if int32 (bdp * 1024) ≠ 0 then env.setsockopt "SO_SNDBUF" else none) with
      | some e => some (.sndbuf, e)
      | none =>
        match (if int32 (bdp * 1024) ≠ 0 then env.setsockopt "SO_RCVBUF" else none) with
        | some e => some (.rcvbuf, e)
        | none =>
          match env.bind with
          | some e => some (.bind, e)
          | none => if env.realloc then none else some (.malloc, ENOMEM)

/-! ## StatusReport -/

/-- The number of values of an `unsigned int`: arithmetic on such values is modulo `UINT`. -/
def UINT : Nat := 4294967296

/-- The value of an `unsigned int` after conversion to `int`. -/
def toInt32 (u : Nat) : Int := if u < 2147483648 then (u : Int) else (u : Int) - 4294967296

/-- A `struct timespec`. -/
structure Timespec where
  tv_sec : Int
  tv_nsec : Int
  deriving DecidableEq, Repr

/-- Modelled from the spec: the enumeration `SR_buffer_type` is declared in `StatusReport.hpp`,
which is not among the sources. The code tests for `SR_LINEAR` only; every other value is a
ring buffer. -/
inductive SR_buffer_type where
  | SR_LINEAR
  | SR_CIRCULAR
  deriving DecidableEq, Repr

/-- Modelled from the spec: the structure `status_message_t` is declared in `StatusReport.hpp`,
which is not among the sources; the code uses its members `time`, `message` and `code`.
`message = none` is a `NULL` pointer, otherwise the C string held in the allocated block. -/
structure StatusMessage where
  time : Timespec
  message : Option String
  code : Int
  deriving DecidableEq, Repr

/-- Modelled from the spec: the data members of `StatusReport` are declared in
`StatusReport.hpp`, which is not among the sources. `d_maxNumMsgs` and `d_reportNum` are
`unsigned int` (the type in which `getNumReports` and `getNumReportsOverflow` return them),
`d_maxMsgLen` is an `int`, and `d_messages` is the array (`[]` when it is `NULL`). -/
structure StatusReport where
  d_bufferType : SR_buffer_type
  d_maxNumMsgs : Nat
  d_maxMsgLen : Int
  d_messages : List StatusMessage
  d_reportNum : Nat
  deriving DecidableEq, Repr

namespace StatusReport

/-- The function `StatusReport::init(maxMsgLen, maxNumMsgs, type)` (lines 36-60). `avail` is
the number of `calloc` calls that succeed before one returns `NULL`; a request for a negative
number of elements does not succeed. -/
def init (maxMsgLen maxNumMsgs : Int) (type : SR_buffer_type) (avail : Nat) : StatusReport :=
  if maxNumMsgs < 0 ∨ avail = 0 then ⟨type, 0, maxMsgLen, [], 0⟩
  else
    let got := if maxMsgLen + 1 < 0 then 0 else min maxNumMsgs.toNat (avail - 1)
    ⟨type, got % UINT, maxMsgLen,
      List.replicate got ⟨⟨0, 0⟩, some "", 0⟩ ++
        List.replicate (maxNumMsgs.toNat - got) ⟨⟨0, 0⟩, none, 0⟩, 0⟩

/-- The ways in which a member function of `StatusReport` can leave defined behaviour. -/
inductive Fault where
  | divisionByZero
  | outsideArray
  | nullBlock
  | outsideBlock
  deriving DecidableEq, Repr

/-- The statement `int index = (d_reportNum-1) % d_maxNumMsgs;` of `setReport` (line 74), with
`d_reportNum` already incremented; `none` is a division by zero. -/
def setIndex (s : StatusReport) : Option Int :=
  if s.d_maxNumMsgs = 0 then none
  else some (toInt32 ((s.d_reportNum + UINT - 1) % UINT % s.d_maxNumMsgs))

/-- What `strncpy(..., d_maxMsgLen)` followed by the terminating `\0` leaves in the block
(lines 80-86): the first `d_maxMsgLen` characters of the message, nothing for `NULL`. -/
def stored (s : StatusReport) (message : Option String) : String :=
  match message with
  | some m => String.mk (m.toList.take s.d_maxMsgLen.toNat)
  | none => ""

/-- The function `StatusReport::setReport(code, message)` (lines 66-90); `now` is what
`clock_gettime` returns. The errors are: the modulo by a zero `d_maxNumMsgs`, an element
outside the array `d_messages`, an element whose block is `NULL`, and a negative
`d_maxMsgLen`, with which the terminating `\0` is written outside the block. -/
def setReport (s : StatusReport) (code : Int) (message : Option String) (now : Timespec) :
    Except Fault StatusReport :=
  let s : StatusReport := { s with d_reportNum := (s.d_reportNum + 1) % UINT }
  if s.d_bufferType = .SR_LINEAR ∧ s.d_reportNum > s.d_maxNumMsgs then .ok s
  else
    match s.setIndex with
    | none => .error .divisionByZero
    | some index =>
      if index < 0 then .error .outsideArray
      else
        match s.d_messages.get? index.toNat with
        | none => .error .outsideArray
        | some slot =>
          if slot.message.isNone then .error .nullBlock
          else if s.d_maxMsgLen < 0 then .error .outsideBlock
          else
            .ok { s with d_messages :=
              s.d_messages.set index.toNat ⟨now, some (s.stored message), code⟩ }

/-- The function `StatusReport::getNumReports()` (lines 164-169). -/
def getNumReports (s : StatusReport) : Nat :=
  if s.d_reportNum ≤ s.d_maxNumMsgs then s.d_reportNum else s.d_maxNumMsgs

/-- The function `StatusReport::getNumReportsOverflow()` (lines 153-158). -/
def getNumReportsOverflow (s : StatusReport) : Nat :=
  if s.d_reportNum > s.d_maxNumMsgs then s.d_reportNum - s.d_maxNumMsgs else 0

/-- The function `StatusReport::clearReports()` (lines 144-147). -/
def clearReports (s : StatusReport) : StatusReport := { s with d_reportNum := 0 }

/-- The element of `d_messages` that the three getters read for the query `rN` (lines 98-105,
114-121, 131-137): `none` when the query is out of range and no element is read. The
subtractions are on `unsigned int` values. -/
def getIndex (s : StatusReport) (rN : Nat) : Option Nat :=
  if rN > s.getNumReports ∨ rN < 1 then none
  else if s.d_bufferType = .SR_LINEAR then some ((s.getNumReports + UINT - rN % UINT) % UINT)
  else some ((s.d_reportNum + UINT - rN % UINT) % UINT % s.d_maxNumMsgs)

/-- The element `d_messages[i]`, or the error of reading outside the array. -/
def element (s : StatusReport) (i : Nat) : Except Fault StatusMessage :=
  match s.d_messages.get? i with
  | none => .error .outsideArray
  | some m => .ok m

/-- The function `StatusReport::getReportCode(rN)` (lines 112-122). -/
def getReportCode (s : StatusReport) (rN : Nat) : Except Fault Int :=
  match s.getIndex rN with
  | none => .ok 0
  | some i => (s.element i).map (fun m => m.code)

/-- The function `StatusReport::getReportMessage(rN)` (lines 96-106), as the C string behind
the pointer it returns (`none` for a `NULL` pointer). -/
def getReportMessage (s : StatusReport) (rN : Nat) : Except Fault (Option String) :=
  match s.getIndex rN with
  | none => .ok (some "")
  | some i => (s.element i).map (fun m => m.message)

/-- The function `StatusReport::getReportTimestamp(rN)` (lines 128-138). -/
def getReportTimestamp (s : StatusReport) (rN : Nat) : Except Fault Timespec :=
  match s.getIndex rN with
  | none => .ok ⟨0, 0⟩
  | some i => (s.element i).map (fun m => m.time)

/-- One call `setReport(code, message)` together with the time at which it is made. -/
structure Call where
  code : Int
  message : Option String
  now : Timespec
  deriving DecidableEq, Repr

/-- What a call of `setReport` leaves in the element it writes. -/
def entry (s : StatusReport) (c : Call) : StatusMessage := ⟨c.now, some (s.stored c.message), c.code⟩

/-- Successive calls of `setReport`, the first of the list first. -/
def report : StatusReport → List Call → Except Fault StatusReport
  | s, [] => .ok s
  | s, c :: rest =>
    match s.setReport c.code c.message c.now with
    | .error e => .error e
    | .ok s1 => report s1 rest

/-- The state of an object whose first `d_maxNumMsgs` elements have their blocks: the state
that `init` leaves. `d_maxNumMsgs` counts up to an `int`. -/
def allocated (s : StatusReport) : Bool :=
  decide (s.d_maxNumMsgs < 2147483648) &&
    decide (s.d_reportNum < UINT) &&
    decide (s.d_maxNumMsgs ≤ s.d_messages.length) &&
    (s.d_messages.take s.d_maxNumMsgs).all (fun m => m.message.isSome)

/-- A call of a member function of `StatusReport`. -/
inductive Op where
  | setReport (code : Int) (message : Option String) (now : Timespec)
  | clearReports
  | getReportCode (rN : Nat)
  | getReportMessage (rN : Nat)
  | getReportTimestamp (rN : Nat)
  deriving DecidableEq, Repr

/-- One call of a member function: the object after it, or the error of the call. -/
def step (s : StatusReport) : Op → Except Fault StatusReport
  | .setReport code message now => s.setReport code message now
  | .clearReports => .ok s.clearReports
  | .getReportCode rN => (s.getReportCode rN).map (fun _ => s)
  | .getReportMessage rN => (s.getReportMessage rN).map (fun _ => s)
  | .getReportTimestamp rN => (s.getReportTimestamp rN).map (fun _ => s)

/-- A sequence of calls, the first of the list first, up to the first error. -/
def exec : StatusReport → List Op → Except Fault StatusReport
  | s, [] => .ok s
  | s, op :: rest =>
    match s.step op with
    | .error e => .error e
    | .ok s1 => exec s1 rest

end StatusReport

/-! ## RecursiveMutex -/

/-- The data members `d_recursionCount` (an `unsigned int`) and `d_ownerId` of
`RecursiveMutex`. A `pthread_t` is a number, `0` being `(pthread_t)NULL`. The member functions
run between `pthread_mutex_lock(&d_mutex)` and `pthread_mutex_unlock(&d_mutex)`, so each is one
step on this state; the `pthread` calls are taken to return `0`. -/
structure RecursiveMutex where
  d_recursionCount : Nat
  d_ownerId : Nat
  deriving DecidableEq, Repr

namespace RecursiveMutex

/-- The constructor `RecursiveMutex::RecursiveMutex()` (lines 92-114). -/
def new : RecursiveMutex := ⟨0, 0⟩

/-- The function `RecursiveMutex::lock()` (lines 136-150) called by thread `threadId`;
`none` when the thread waits in `pthread_cond_wait` because `d_recursionCount` is not zero. -/
def lock (m : RecursiveMutex) (threadId : Nat) : Option RecursiveMutex :=
  if m.d_ownerId = threadId then
    some { m with d_recursionCount := (m.d_recursionCount + 1) % UINT }
  else if m.d_recursionCount ≠ 0 then none
  else some ⟨1, threadId⟩

/-- The function `RecursiveMutex::unlock()` (lines 156-169) called by thread `threadId`. -/
def unlock (m : RecursiveMutex) (threadId : Nat) : RecursiveMutex :=
  if m.d_ownerId = threadId then
    let count := (m.d_recursionCount + UINT - 1) % UINT
    if count = 0 then ⟨0, 0⟩ else { m with d_recursionCount := count }
  else m

/-- The function `RecursiveMutex::tryLock()` (lines 175-196) called by thread `threadId`. -/
def tryLock (m : RecursiveMutex) (threadId : Nat) : Int × RecursiveMutex :=
  if m.d_ownerId = threadId then
    (0, { m with d_recursionCount := (m.d_recursionCount + 1) % UINT })
  else if m.d_recursionCount = 0 then (0, ⟨1, threadId⟩)
  else (-1, m)

/-- A call made by a thread. -/
inductive Act where
  | lock
  | tryLock
  | unlock
  deriving DecidableEq, Repr

/-- Whether the call is `lock` or `tryLock`. -/
def Act.acquires : Act → Bool
  | .lock => true
  | .tryLock => true
  | .unlock => false

/-- The calls of the list made one after the other by thread `threadId`; `none` when a
`lock` waits or a `tryLock` returns `-1`. -/
def run (threadId : Nat) : RecursiveMutex → List Act → Option RecursiveMutex
  | m, [] => some m
  | m, .lock :: rest =>
    match m.lock threadId with
    | none => none
    | some m1 => run threadId m1 rest
  | m, .tryLock :: rest =>
    if (m.tryLock threadId).1 = 0 then run threadId (m.tryLock threadId).2 rest else none
  | m, .unlock :: rest => run threadId (m.unlock threadId) rest

/-- The number of `lock` and `tryLock` calls of a list. -/
def locks (acts : List Act) : Nat := acts.countP Act.acquires

/-- The number of `unlock` calls of a list. -/
def unlocks (acts : List Act) : Nat := acts.countP (fun a => !a.acquires)

end RecursiveMutex

/-- The ring buffer `s` holds the reports `log` (most recent first): `d_reportNum` is their
number, and the most recent ones, as many as there are elements, are found where the getters
look for them. -/
def StatusReport.holds (s : StatusReport) (log : List StatusMessage) : Prop :=
  s.d_reportNum = log.length ∧
  ∀ j, j < log.length → j < s.d_maxNumMsgs →
    s.d_messages.get? ((log.length - 1 - j) % s.d_maxNumMsgs) = log.get? j

/-! ## Concrete scenarios -/

namespace Example

/-- A C library whose error texts are fixed strings. -/
def libc : Libc := ⟨fun _ => "error", fun _ => "host error"⟩

/-- A handler that echoes the message it is given. -/
def echo : Handler := fun buf len => (some (buf.take len.toNat), len)

/-- The four bytes of the text "ping". -/
def ping : List Byte := [112, 105, 110, 103]

/-- An environment in which a re-initialisation succeeds and yields descriptor 7. -/
def env : InitEnv :=
  ⟨true, .ok 1, .ok 7, fun _ => none, none, none, Sock.lossless (fun _ => []), ⟨[], [], [], []⟩⟩

/-- A server listening on descriptor 3 with `maxMsgSize = 64`, and one client connection on
descriptor 5 on which the bytes `rx` arrive. -/
def server (rx : List Byte) (sendPlan recvPlan : List Outcome) : Cycle :=
  ⟨⟨3, List.replicate 68 0, 64, true, []⟩,
    Kernel.boot.withSock 5 (Sock.scripted rx sendPlan recvPlan), {3, 5}, []⟩

/-- An initialised client whose connection is descriptor 4. -/
def client : TCPClient := ⟨⟨9000, 1⟩, some "localhost", 9000, 4, 0, ⟨1, 0⟩, true, []⟩

/-- A connection on descriptor 5 whose attempts move 1, 2 and 1 bytes. -/
def chunkedNet : Kernel :=
  Kernel.boot.withSock 5 (Sock.scripted ping [.count 1, .count 2, .count 1] [.count 1, .count 2, .count 1])

/-- A connection on descriptor 5 whose first attempt moves nothing and whose second
attempt moves everything. -/
def stallingNet : Kernel :=
  Kernel.boot.withSock 5 (Sock.scripted ping [.count 0, .count 4] [.count 0, .count 4])

/-- What `TCPServer::doMessageCycle` has after reading the message that arrives on
descriptor 5 of `server`. -/
def received (rx : List Byte) : Int × Cycle :=
  match TCPServer.readMessage libc (server rx [] []) 5 with
  | .ok r => r
  | .error c => (0, c)

/-- What `client` has after writing the request "ping". -/
def requested (k : Kernel) : TCPClient × Kernel :=
  match TCPClient.sendRequest libc env client k (some ping) 4 with
  | .ok r => r
  | .error r => r

/-- An initialised datagram client whose socket is descriptor 4. -/
def udpClient : UDPClient := ⟨⟨9000, 1⟩, some "localhost", 9000, 4, 0, ⟨1, 0⟩, true, []⟩

/-- A system whose descriptor 4 is a datagram socket. -/
def udpNet : Kernel :=
  { Kernel.boot with udp := Function.update (fun _ => none) 4 (some ⟨[], [], [], []⟩) }

/-- A datagram socket on descriptor 4 on which one datagram with payload "ping" from host
address 2, port 9000 is waiting. -/
def foreignNet : Kernel :=
  { Kernel.boot with
    udp := Function.update (fun _ => none) 4 (some ⟨[⟨2, 9000, ping⟩], [], [], []⟩) }

/-- An environment in which `socket` hands out descriptor 6 and `bind` fails with
`EADDRINUSE` (98). -/
def busyPort : ListenEnv :=
  ⟨.ok 6, fun _ => none, some 98, none, true, Sock.lossless (fun _ => []), ⟨[], [], [], []⟩⟩

/-- An environment in which `socket` hands out descriptor 6 and the two buffer size options
are refused with `EINVAL` (22). -/
def fixedBuffers : ListenEnv :=
  ⟨.ok 6, fun opt => if opt = "SO_SNDBUF" ∨ opt = "SO_RCVBUF" then some 22 else none, none, none,
    true, Sock.lossless (fun _ => []), ⟨[], [], [], []⟩⟩

/-- A stream server object that was initialised before, with descriptor 3. -/
def oldServer : TCPServer := ⟨3, List.replicate 68 0, 64, true, []⟩

/-- A datagram server object that was initialised before, with descriptor 3. -/
def oldUdpServer : UDPServer := ⟨3, List.replicate 64 0, 64, true, []⟩

/-- Three rounds of `select`: a connection request that `accept` answers with descriptor 5,
on which only 2 bytes will arrive; activity on descriptor 5; and a failure with `EINTR` (4). -/
def rounds : List (Except Int Ready) :=
  [.ok ⟨{3}, .ok (5, Sock.scripted [1, 2] [] []), "10.0.0.1"⟩, .ok ⟨{5}, .error 0, ""⟩, .error 4]

/-- An environment in which the server cannot be reached: `connect` fails with
`ECONNREFUSED` (111). -/
def unreachable : InitEnv :=
  ⟨true, .ok 1, .ok 7, fun _ => none, some 111, none, Sock.lossless (fun _ => []), ⟨[], [], [], []⟩⟩

/-- An environment in which the server can be reached and sends back what it receives. -/
def echoEnv : InitEnv :=
  ⟨true, .ok 1, .ok 7, fun _ => none, none, none, Sock.lossless (fun sent => sent), ⟨[], [], [], []⟩⟩

/-- A system in which descriptor 4 is a connection that the peer has closed: no byte will
arrive on it any more. -/
def hungUp : Kernel := Kernel.boot.withSock 4 (Sock.scripted [] [] [])

/-- What `client` is left with when its descriptor is invalid and the server cannot be
reached. -/
def stranded : Exchange TCPClient :=
  TCPClient.sendAndReceive libc unreachable client Kernel.boot (some ping) 4
    (some (List.replicate 8 0)) 8 0

/-- What `client` is left with after a call on the connection that the peer has closed. -/
def cutOff : Exchange TCPClient :=
  TCPClient.sendAndReceive libc echoEnv client hungUp (some ping) 4 (some (List.replicate 8 0)) 8 0

/-- The object and the system with which `client` goes on after the probe of its
descriptor, on a connection whose first `send` moves 2 bytes. -/
def probed : TCPClient × Kernel :=
  match TCPClient.connected libc env client
      (Kernel.boot.withSock 4 (Sock.scripted [] [.count 2] [])) with
  | .ok r => r
  | .error r => r

/-- A ring buffer of 2 reports of at most 8 characters, as `init` leaves it. -/
def ring : StatusReport := StatusReport.init 8 2 .SR_CIRCULAR 10

/-- Three calls of `setReport`, the second with a `NULL` message. -/
def reports : List StatusReport.Call :=
  [⟨1, some "first", ⟨1, 0⟩⟩, ⟨2, none, ⟨2, 0⟩⟩, ⟨3, some "a long message", ⟨3, 0⟩⟩]

/-- A full `SR_LINEAR` buffer of 2 reports whose counter has reached the largest
`unsigned int`. -/
def lineAtMax : StatusReport :=
  ⟨.SR_LINEAR, 2, 8, [⟨⟨1, 0⟩, some "a", 11⟩, ⟨⟨2, 0⟩, some "b", 22⟩], 4294967295⟩

/-- The object `lineAtMax` after one more call of `setReport`. -/
def lineWrapped : StatusReport :=
  match lineAtMax.setReport 5 (some "x") ⟨9, 0⟩ with
  | .ok s => s
  | .error _ => lineAtMax

/-- A full `SR_LINEAR` buffer of 2 reports after 3 calls of `setReport`. -/
def lineFull : StatusReport :=
  ⟨.SR_LINEAR, 2, 8, [⟨⟨1, 0⟩, some "a", 11⟩, ⟨⟨2, 0⟩, some "b", 22⟩], 3⟩

/-- An initialised datagram server on descriptor 3 with room for 8 bytes. -/
def udpServer : UDPServer := ⟨3, List.replicate 8 0, 8, true, []⟩

/-- A system whose descriptor 3 is a datagram socket on which the datagram "ping" from host
address 2, port 4000 is waiting. -/
def udpInbox : Kernel :=
  { Kernel.boot with
    udp := Function.update (fun _ => none) 3 (some ⟨[⟨2, 4000, ping⟩], [], [], []⟩) }

/-- A system whose descriptor 3 is a datagram socket whose next `recvfrom` fails with
`EINTR` (4). -/
def udpFailing : Kernel :=
  { Kernel.boot with
    udp := Function.update (fun _ => none) 3 (some ⟨[], [], [], [.err 4]⟩) }

/-- A datagram socket on descriptor 4 on which the datagram "ping" from host address 1 (the
one of the server of `udpClient`) and port `port` is waiting. -/
def replyFrom (port : Int) : Kernel :=
  { Kernel.boot with
    udp := Function.update (fun _ => none) 4 (some ⟨[⟨1, port, ping⟩], [], [], []⟩) }

/-- An initialised stream client whose stored server name is "localhost2". -/
def staleClient : TCPClient := ⟨⟨9000, 1⟩, some "localhost2", 9000, 4, 0, ⟨1, 0⟩, true, []⟩

/-- An initialised datagram client whose stored server name is "localhost2". -/
def staleUdpClient : UDPClient := ⟨⟨9000, 1⟩, some "localhost2", 9000, 4, 0, ⟨1, 0⟩, true, []⟩

end Example

/-! # Lemmas -/

theorem toU32_lt (x : Int) : toU32 x < 4294967296 := by
  unfold toU32; omega

theorem bytesInt_intBytes_append (x : Int) (rest : List Byte)
    (h1 : -2147483648 ≤ x) (h2 : x < 2147483648) : bytesInt (intBytes x ++ rest) = x := by
  have hu := toU32_lt x
  have hx : ((toU32 x : Nat) : Int) = x % 4294967296 := by
    unfold toU32; omega
  simp only [bytesInt, intBytes, byteAt, List.cons_append, List.getD_cons_zero,
    List.getD_cons_succ, pow_zero, pow_one, Nat.div_one]
  norm_num
  split <;> omega

theorem intBytes_length (x : Int) : (intBytes x).length = 4 := rfl


theorem Kernel.send_lossless (k : Kernel) (fd : Int) (src : Mem) (data : List Byte) (len : Int)
    (s : Sock) (h : k.fds fd = some s) (hp : s.sendPlan = []) :
    k.send fd src data len =
      (((data.take len.toNat).length : Int),
        { k with fds := Function.update k.fds fd (some { s with tx := s.tx ++ data.take len.toNat })
                 trace := .send fd src len (data.take len.toNat).length :: k.trace }) := by
  simp only [Kernel.send, h, hp]

theorem Kernel.recv_lossless (k : Kernel) (fd : Int) (dst : Mem) (len : Int)
    (s : Sock) (h : k.fds fd = some s) (hp : s.recvPlan = []) :
    k.recv fd dst len =
      (((((s.peer s.tx).drop s.rxPos).take len.toNat).length : Int),
        ((s.peer s.tx).drop s.rxPos).take len.toNat,
        { k with fds := Function.update k.fds fd
                    (some { s with rxPos := s.rxPos + (((s.peer s.tx).drop s.rxPos).take len.toNat).length })
                 trace := .recv fd dst len (((s.peer s.tx).drop s.rxPos).take len.toNat).length :: k.trace }) := by
  simp only [Kernel.recv, h, hp]

theorem writeLoop_lossless (n : Nat) (k : Kernel) (fd : Int) (out : List Byte) (s : Sock)
    (h : k.fds fd = some s) (hp : s.sendPlan = []) :
    (writeLoop (n + 1) k fd out out.length 0).1 = out.length ∧
    (writeLoop (n + 1) k fd out out.length 0).2.fds fd = some { s with tx := s.tx ++ out } := by
  by_cases h0 : (0 : Int) < out.length
  · have hs := Kernel.send_lossless k fd (.buf 0) out out.length s h hp
    simp only [Int.toNat_ofNat, List.take_length] at hs
    have hne : ¬ ((out.length : Int) = -1) := by omega
    cases n with
    | zero =>
      simp [writeLoop, h0, hs, hne]
    | succ m =>
      simp [writeLoop, h0, hs, hne]
  · have hl : out = [] := by
      cases out with
      | nil => rfl
      | cons a t => simp at h0
    subst hl
    simp [writeLoop, h]


theorem storeAt_zero_take (buf data : List Byte) : (storeAt buf 0 data).take data.length = data := by
  simp [storeAt]

theorem readLoop_lossless (n : Nat) (k : Kernel) (fd : Int) (buf : List Byte) (s : Sock)
    (data : List Byte)
    (h : k.fds fd = some s) (hp : s.recvPlan = [])
    (hd : ((s.peer s.tx).drop s.rxPos).take data.length = data) :
    (readLoop (n + 1) k fd buf data.length 0).1 = data.length ∧
    ((readLoop (n + 1) k fd buf data.length 0).2.1).take data.length = data ∧
    (readLoop (n + 1) k fd buf data.length 0).2.2.fds fd
      = some { s with rxPos := s.rxPos + data.length } := by
  by_cases h0 : (0 : Int) < data.length
  · have hs := Kernel.recv_lossless k fd (.buf 0) data.length s h hp
    simp only [Int.toNat_ofNat, hd] at hs
    have hne : ¬ ((data.length : Int) = -1) := by omega
    cases n with
    | zero =>
      simp [readLoop, h0, hs, hne, storeAt_zero_take]
    | succ m =>
      simp [readLoop, h0, hs, hne, storeAt_zero_take]
  · have hl : data = [] := by
      cases data with
      | nil => rfl
      | cons a t => simp at h0
    subst hl
    simp [readLoop, h]


theorem bytesInt_intBytes (x : Int) (h1 : -2147483648 ≤ x) (h2 : x < 2147483648) :
    bytesInt (intBytes x) = x := by
  have := bytesInt_intBytes_append x [] h1 h2
  simpa using this

theorem readMessage_lossless (libc : Libc) (c : Cycle) (i : Int) (s : Sock) (P rest : List Byte)
    (h : c.k.fds i = some s) (hp : s.recvPlan = [])
    (hrx : (s.peer s.tx).drop s.rxPos = intBytes P.length ++ P ++ rest)
    (hcap : (P.length : Int) ≤ c.srv.d_rcvBufSize) (hint : (P.length : Int) < 2147483648) :
    ∃ c1, TCPServer.readMessage libc c i = .ok ((P.length : Int), c1) ∧
      c1.srv.d_rcvBuf.take P.length = P ∧
      c1.k.fds i = some { s with rxPos := s.rxPos + 4 + P.length } ∧
      c1.calls = c.calls ∧ c1.master = c.master ∧ c1.srv.d_status = c.srv.d_status ∧
      c1.srv.d_rcvBufSize = c.srv.d_rcvBufSize := by
  have hrecv := Kernel.recv_lossless c.k i .var 4 s h hp
  have h4 : ((s.peer s.tx).drop s.rxPos).take (4 : Int).toNat = intBytes P.length := by
    rw [hrx]
    have : (4 : Int).toNat = (intBytes (P.length : Int)).length := rfl
    rw [this, List.append_assoc, List.take_left]
  rw [h4] at hrecv
  simp only [intBytes_length] at hrecv
  generalize hk1 : ({ c.k with
      fds := Function.update c.k.fds i (some { s with rxPos := s.rxPos + 4 })
      trace := Syscall.recv i Mem.var 4 ((4 : Nat) : Int) :: c.k.trace } : Kernel) = k1 at hrecv
  have hk1i : k1.fds i = some { s with rxPos := s.rxPos + 4 } := by
    rw [← hk1]; simp
  have hd : (((({ s with rxPos := s.rxPos + 4 } : Sock).peer ({ s with rxPos := s.rxPos + 4 } : Sock).tx).drop
      ({ s with rxPos := s.rxPos + 4 } : Sock).rxPos).take P.length) = P := by
    show ((s.peer s.tx).drop (s.rxPos + 4)).take P.length = P
    rw [← List.drop_drop, hrx]
    have : (4 : Nat) = (intBytes (P.length : Int)).length := rfl
    rw [List.append_assoc, this, List.drop_left, List.take_left]
  obtain ⟨hr1, hr2, hr3⟩ := readLoop_lossless 2 k1 i c.srv.d_rcvBuf _ P hk1i hp hd
  have hb : bytesInt (intBytes (P.length : Int)) = P.length :=
    bytesInt_intBytes _ (by omega) hint
  have hcap2 : ¬ ((P.length : Int) > c.srv.d_rcvBufSize) := by omega
  refine ⟨{ c with srv := { c.srv with d_rcvBuf := (readLoop 3 k1 i c.srv.d_rcvBuf P.length 0).2.1 }
                   k := (readLoop 3 k1 i c.srv.d_rcvBuf P.length 0).2.2 }, ?_, hr2, ?_, rfl, rfl, rfl, rfl⟩
  · simp only [TCPServer.readMessage, hrecv, hb]
    simp [hcap2, hr1]
  · simp [hr3, Nat.add_assoc]


theorem reply_lossless (libc : Libc) (c : Cycle) (i : Int) (s : Sock) (R : List Byte)
    (h : c.k.fds i = some s) (hp : s.sendPlan = []) :
    (TCPServer.reply libc c i (some R) R.length).k.fds i
        = some { s with tx := s.tx ++ intBytes R.length ++ R } ∧
      (TCPServer.reply libc c i (some R) R.length).calls = c.calls ∧
      (TCPServer.reply libc c i (some R) R.length).master = c.master ∧
      (TCPServer.reply libc c i (some R) R.length).srv = c.srv := by
  have hs := Kernel.send_lossless c.k i .var (intBytes R.length) 4 s h hp
  have h4 : (intBytes (R.length : Int)).take (4 : Int).toNat = intBytes R.length := rfl
  rw [h4] at hs
  simp only [intBytes_length] at hs
  generalize hk1 : ({ c.k with
      fds := Function.update c.k.fds i (some { s with tx := s.tx ++ intBytes R.length })
      trace := Syscall.send i Mem.var 4 ((4 : Nat) : Int) :: c.k.trace } : Kernel) = k1 at hs
  have hk1i : k1.fds i = some { s with tx := s.tx ++ intBytes R.length } := by
    rw [← hk1]; simp
  obtain ⟨hw1, hw2⟩ := writeLoop_lossless 2 k1 i R _ hk1i hp
  simp only [TCPServer.reply, hs]
  simp [hw1, hw2]

theorem clientMessage_lossless (libc : Libc) (handler : Handler) (c : Cycle) (i : Int) (s : Sock)
    (P R rest : List Byte)
    (h : c.k.fds i = some s) (hp : s.recvPlan = []) (hq : s.sendPlan = [])
    (hrx : (s.peer s.tx).drop s.rxPos = intBytes P.length ++ P ++ rest)
    (hcap : (P.length : Int) ≤ c.srv.d_rcvBufSize) (hint : (P.length : Int) < 2147483648)
    (hR : ∀ buf : List Byte, buf.take P.length = P → handler buf P.length = (some R, (R.length : Int))) :
    (∃ buf, (TCPServer.clientMessage libc handler c i).calls = (buf, (P.length : Int)) :: c.calls ∧
      buf.take P.length = P) ∧
    (TCPServer.clientMessage libc handler c i).k.sentOn i = s.tx ++ intBytes R.length ++ R ∧
    (TCPServer.clientMessage libc handler c i).master = c.master := by
  obtain ⟨c1, hc1, hbuf, hfd, hcalls, hmaster, -, -⟩ :=
    readMessage_lossless libc c i s P rest h hp hrx hcap hint
  have hout := hR _ hbuf
  simp only [TCPServer.clientMessage, hc1, hout]
  obtain ⟨g1, g2, g3, -⟩ := reply_lossless libc
    { c1 with calls := (c1.srv.d_rcvBuf, (P.length : Int)) :: c1.calls } i _ R hfd hq
  refine ⟨⟨c1.srv.d_rcvBuf, ?_, hbuf⟩, ?_, ?_⟩
  · rw [g2, hcalls]
  · simp [Kernel.sentOn, g1]
  · rw [g3, hmaster]


theorem Kernel.fcntl_open (k : Kernel) (fd : Int) (s : Sock) (h : k.fds fd = some s) :
    k.fcntl fd = (0, { k with trace := .fcntl fd 0 :: k.trace }) := by
  simp [Kernel.fcntl, Kernel.isOpen, h]

theorem sendRequest_lossless (libc : Libc) (env : InitEnv) (c : TCPClient) (k : Kernel)
    (s : Sock) (out : List Byte)
    (hinit : c.d_init = true) (h : k.fds c.d_fd = some s) (hp : s.sendPlan = []) :
    ∃ k1, TCPClient.sendRequest libc env c k (some out) out.length = .ok (c, k1) ∧
      k1.fds c.d_fd = some { s with tx := s.tx ++ intBytes out.length ++ out } := by
  have hf := Kernel.fcntl_open k c.d_fd s h
  generalize hk0 : ({ k with trace := Syscall.fcntl c.d_fd 0 :: k.trace } : Kernel) = k0 at hf
  have hk0i : k0.fds c.d_fd = some s := by rw [← hk0]; exact h
  have hs := Kernel.send_lossless k0 c.d_fd .var (intBytes out.length) 4 s hk0i hp
  have h4 : (intBytes (out.length : Int)).take (4 : Int).toNat = intBytes out.length := rfl
  rw [h4] at hs
  simp only [intBytes_length] at hs
  generalize hk1 : ({ k0 with
      fds := Function.update k0.fds c.d_fd (some { s with tx := s.tx ++ intBytes out.length })
      trace := Syscall.send c.d_fd Mem.var 4 ((4 : Nat) : Int) :: k0.trace } : Kernel) = k1 at hs
  have hk1i : k1.fds c.d_fd = some { s with tx := s.tx ++ intBytes out.length } := by
    rw [← hk1]; simp
  obtain ⟨hw1, hw2⟩ := writeLoop_lossless 2 k1 c.d_fd out _ hk1i hp
  refine ⟨(writeLoop 3 k1 c.d_fd out out.length 0).2, ?_, ?_⟩
  · simp only [TCPClient.sendRequest, hinit, hf]
    simp [hs, hw1]
  · simpa using hw2

theorem receiveReply_lossless (libc : Libc) (c : TCPClient) (k : Kernel) (s : Sock)
    (R rest inBuf : List Byte) (inBufLen v : Int)
    (h : k.fds c.d_fd = some s) (hp : s.recvPlan = [])
    (hrx : (s.peer s.tx).drop s.rxPos = intBytes R.length ++ R ++ rest)
    (hcap : (R.length : Int) ≤ inBufLen) (hint : (R.length : Int) < 2147483648) :
    (TCPClient.receiveReply libc c k inBuf inBufLen v).ret = 0 ∧
    (TCPClient.receiveReply libc c k inBuf inBufLen v).inMsgLen = R.length ∧
    (∃ b, (TCPClient.receiveReply libc c k inBuf inBufLen v).inMsgBuf = some b ∧
      b.take R.length = R) ∧
    (TCPClient.receiveReply libc c k inBuf inBufLen v).client = c ∧
    (TCPClient.receiveReply libc c k inBuf inBufLen v).k.fds c.d_fd
      = some { s with rxPos := s.rxPos + 4 + R.length } := by
  have hrecv := Kernel.recv_lossless k c.d_fd .var 4 s h hp
  have h4 : ((s.peer s.tx).drop s.rxPos).take (4 : Int).toNat = intBytes R.length := by
    rw [hrx]
    have : (4 : Int).toNat = (intBytes (R.length : Int)).length := rfl
    rw [this, List.append_assoc, List.take_left]
  rw [h4] at hrecv
  simp only [intBytes_length] at hrecv
  generalize hk1 : ({ k with
      fds := Function.update k.fds c.d_fd (some { s with rxPos := s.rxPos + 4 })
      trace := Syscall.recv c.d_fd Mem.var 4 ((4 : Nat) : Int) :: k.trace } : Kernel) = k1 at hrecv
  have hk1i : k1.fds c.d_fd = some { s with rxPos := s.rxPos + 4 } := by
    rw [← hk1]; simp
  have hd : (((({ s with rxPos := s.rxPos + 4 } : Sock).peer ({ s with rxPos := s.rxPos + 4 } : Sock).tx).drop
      ({ s with rxPos := s.rxPos + 4 } : Sock).rxPos).take R.length) = R := by
    show ((s.peer s.tx).drop (s.rxPos + 4)).take R.length = R
    rw [← List.drop_drop, hrx]
    have : (4 : Nat) = (intBytes (R.length : Int)).length := rfl
    rw [List.append_assoc, this, List.drop_left, List.take_left]
  obtain ⟨hr1, hr2, hr3⟩ := readLoop_lossless 2 k1 c.d_fd inBuf _ R hk1i hp hd
  have hb : bytesInt (intBytes (R.length : Int) ++ List.drop (intBytes (R.length : Int)).length (intBytes v))
      = R.length := bytesInt_intBytes_append _ _ (by omega) hint
  have hcap2 : ¬ ((R.length : Int) > inBufLen) := by omega
  simp only [TCPClient.receiveReply, hrecv, hb]
  simp [hcap2, hr1, hr2, hr3, Nat.add_assoc]


/-! ### What a single system call changes -/

theorem Kernel.recv_trace (k : Kernel) (fd : Int) (dst : Mem) (len : Int) :
    (k.recv fd dst len).2.2.trace = .recv fd dst len (k.recv fd dst len).1 :: k.trace := by
  unfold Kernel.recv
  split
  · rfl
  · split <;> rfl

theorem Kernel.send_trace (k : Kernel) (fd : Int) (src : Mem) (data : List Byte) (len : Int) :
    (k.send fd src data len).2.trace = .send fd src len (k.send fd src data len).1 :: k.trace := by
  unfold Kernel.send
  split
  · rfl
  · split <;> rfl

theorem Kernel.recv_closed (k : Kernel) (fd : Int) (dst : Mem) (len : Int) :
    (k.recv fd dst len).2.2.closed = k.closed := by
  unfold Kernel.recv
  split
  · rfl
  · split <;> rfl

/-- What `recv` may change of a stream end point: the read position and the receive plan. -/
theorem Kernel.recv_fds (k : Kernel) (fd : Int) (dst : Mem) (len : Int) (g : Int) :
    ((k.recv fd dst len).2.2.fds g).map (fun s => (s.tx, s.sendPlan, s.peer))
      = (k.fds g).map (fun s => (s.tx, s.sendPlan, s.peer)) := by
  unfold Kernel.recv
  split
  · rfl
  · rename_i s hs
    by_cases hg : g = fd
    · subst hg
      split <;> simp [hs]
    · split <;> simp [Function.update_noteq hg]

theorem Kernel.recv_ret (k : Kernel) (fd : Int) (dst : Mem) (len : Int) :
    ((k.recv fd dst len).1 = -1 ∧ (k.recv fd dst len).2.1 = []) ∨
    ((k.recv fd dst len).1 = ((k.recv fd dst len).2.1.length : Int) ∧
      (k.recv fd dst len).2.1.length ≤ len.toNat ∧ (k.fds fd).isSome = true) := by
  unfold Kernel.recv
  split
  · left; exact ⟨rfl, rfl⟩
  · rename_i s hs
    split
    · left; exact ⟨rfl, rfl⟩
    · right
      refine ⟨rfl, ?_, by simp [hs]⟩
      simp only [List.length_take]
      omega
    · right
      refine ⟨rfl, ?_, by simp [hs]⟩
      simp only [List.length_take]
      omega

theorem Kernel.send_ret (k : Kernel) (fd : Int) (src : Mem) (data : List Byte) (len : Int) :
    (k.send fd src data len).1 = -1 ∨
    (0 ≤ (k.send fd src data len).1 ∧ (k.send fd src data len).1 ≤ (len.toNat : Int)) := by
  unfold Kernel.send
  split
  · left; rfl
  · split
    · left; rfl
    · right
      simp only [List.length_take]
      omega
    · right
      simp only [List.length_take]
      omega


theorem moved_append_single (calls : List Syscall) (e : Syscall) :
    moved (calls ++ [e]) = moved calls + max e.ret 0 := by
  induction calls with
  | nil => simp [moved]
  | cons a t ih => simp [moved, ih, add_assoc]

/-- The bookkeeping shared by the inductions over the transfer loops: what holds for the
attempts `calls` of the remaining iterations also holds once the first attempt `e`, which
moved `r` bytes, is put in front of them. -/
theorem attempts_step (n : Nat) (m t r res : Int) (e : Syscall) (calls : List Syscall)
    (he : e.ret = r) (hr0 : 0 ≤ r) (hne : r ≠ -1)
    (h : calls.length ≤ n ∧ res = (t + r) + moved calls ∧ t + r ≤ res ∧ res ≤ m ∧
      (∀ x ∈ calls.tail, x.ret ≠ -1) ∧ ((∃ x ∈ calls, x.ret = -1) → res < m) ∧
      (calls.length = n ∨ (∃ x, calls.head? = some x ∧ x.ret = -1) ∨ ¬ res < m)) :
    (calls ++ [e]).length ≤ n + 1 ∧ res = t + moved (calls ++ [e]) ∧ t ≤ res ∧ res ≤ m ∧
      (∀ x ∈ (calls ++ [e]).tail, x.ret ≠ -1) ∧ ((∃ x ∈ calls ++ [e], x.ret = -1) → res < m) ∧
      ((calls ++ [e]).length = n + 1 ∨ (∃ x, (calls ++ [e]).head? = some x ∧ x.ret = -1) ∨
        ¬ res < m) := by
  obtain ⟨h1, h2, h3, h4, h5, h6, h7⟩ := h
  have hmax : max e.ret 0 = r := by rw [he]; exact max_eq_left hr0
  refine ⟨by simp; omega, by rw [moved_append_single, hmax, h2]; ring, by omega, h4, ?_, ?_, ?_⟩
  · intro x hx
    cases calls with
    | nil => simp at hx
    | cons a rest =>
      simp only [List.cons_append, List.tail_cons, List.mem_append, List.mem_singleton] at hx
      rcases hx with hx | hx
      · exact h5 x (by simpa using hx)
      · rw [hx, he]; exact hne
  · rintro ⟨x, hx, hx1⟩
    simp only [List.mem_append, List.mem_singleton] at hx
    rcases hx with hx | hx
    · exact h6 ⟨x, hx, hx1⟩
    · rw [hx, he] at hx1; exact absurd hx1 hne
  · rcases h7 with h7 | ⟨x, hx, hx1⟩ | h7
    · left; simp [h7]
    · right; left
      refine ⟨x, ?_, hx1⟩
      cases calls with
      | nil => simp at hx
      | cons a rest => simpa using hx
    · right; right; exact h7

theorem writeLoop_attempts (fd : Int) (out : List Byte) (m : Int) :
    ∀ (n : Nat) (k : Kernel) (t : Int),
    ∃ calls : List Syscall,
      (writeLoop n k fd out m t).2.trace = calls ++ k.trace ∧
      (∀ e ∈ calls, ∃ off len ret, e = Syscall.send fd (.buf off) len ret) ∧
      (t ≤ m →
      calls.length ≤ n ∧ (writeLoop n k fd out m t).1 = t + moved calls ∧
      t ≤ (writeLoop n k fd out m t).1 ∧ (writeLoop n k fd out m t).1 ≤ m ∧
      (∀ x ∈ calls.tail, x.ret ≠ -1) ∧
      ((∃ x ∈ calls, x.ret = -1) → (writeLoop n k fd out m t).1 < m) ∧
      (calls.length = n ∨ (∃ x, calls.head? = some x ∧ x.ret = -1) ∨
        ¬ (writeLoop n k fd out m t).1 < m)) := by
  intro n
  induction n with
  | zero =>
    intro k t
    refine ⟨[], by simp [writeLoop], by simp, ?_⟩
    intro ht
    simp [writeLoop, moved, ht]
  | succ n ih =>
    intro k t
    by_cases hlt : t < m
    · have htr := Kernel.send_trace k fd (.buf t) (out.drop t.toNat) (m - t)
      have hret := Kernel.send_ret k fd (.buf t) (out.drop t.toNat) (m - t)
      by_cases hfail : (k.send fd (.buf t) (out.drop t.toNat) (m - t)).1 = -1
      · refine ⟨[Syscall.send fd (.buf t) (m - t) (-1)], ?_, ?_, ?_⟩
        · simp [writeLoop, hlt, hfail, htr]
        · intro e he; simp at he; exact ⟨_, _, _, he⟩
        · intro _
          simp [writeLoop, hlt, hfail, moved, Syscall.ret, le_of_lt hlt]
      · obtain ⟨calls, hc1, hc2, hc3⟩ := ih (k.send fd (.buf t) (out.drop t.toNat) (m - t)).2
          (t + (k.send fd (.buf t) (out.drop t.toNat) (m - t)).1)
        have hr : 0 ≤ (k.send fd (.buf t) (out.drop t.toNat) (m - t)).1 ∧
            (k.send fd (.buf t) (out.drop t.toNat) (m - t)).1 ≤ m - t := by
          rcases hret with h | ⟨h1, h2⟩
          · exact absurd h hfail
          · exact ⟨h1, by omega⟩
        have hw : writeLoop (n + 1) k fd out m t
            = writeLoop n (k.send fd (.buf t) (out.drop t.toNat) (m - t)).2 fd out m
                (t + (k.send fd (.buf t) (out.drop t.toNat) (m - t)).1) := by
          simp [writeLoop, hlt, hfail]
        refine ⟨calls ++ [Syscall.send fd (.buf t) (m - t)
            (k.send fd (.buf t) (out.drop t.toNat) (m - t)).1], ?_, ?_, ?_⟩
        · rw [hw, hc1, htr]; simp
        · intro e he
          simp only [List.mem_append, List.mem_singleton] at he
          rcases he with he | he
          · exact hc2 e he
          · exact ⟨_, _, _, he⟩
        · intro _
          rw [hw]
          exact attempts_step n m t _ _ _ calls rfl hr.1 hfail (hc3 (by omega))
    · refine ⟨[], by simp [writeLoop, hlt], by simp, ?_⟩
      intro ht
      simp [writeLoop, hlt, moved, ht]


theorem readLoop_attempts (fd : Int) (m : Int) :
    ∀ (n : Nat) (k : Kernel) (buf : List Byte) (t : Int),
    ∃ calls : List Syscall,
      (readLoop n k fd buf m t).2.2.trace = calls ++ k.trace ∧
      (∀ e ∈ calls, ∃ off len ret, e = Syscall.recv fd (.buf off) len ret) ∧
      (t ≤ m →
      calls.length ≤ n ∧ (readLoop n k fd buf m t).1 = t + moved calls ∧
      t ≤ (readLoop n k fd buf m t).1 ∧ (readLoop n k fd buf m t).1 ≤ m ∧
      (∀ x ∈ calls.tail, x.ret ≠ -1) ∧
      ((∃ x ∈ calls, x.ret = -1) → (readLoop n k fd buf m t).1 < m) ∧
      (calls.length = n ∨ (∃ x, calls.head? = some x ∧ x.ret = -1) ∨
        ¬ (readLoop n k fd buf m t).1 < m)) := by
  intro n
  induction n with
  | zero =>
    intro k buf t
    refine ⟨[], by simp [readLoop], by simp, ?_⟩
    intro ht
    simp [readLoop, moved, ht]
  | succ n ih =>
    intro k buf t
    by_cases hlt : t < m
    · have htr := Kernel.recv_trace k fd (.buf t) (m - t)
      have hret := Kernel.recv_ret k fd (.buf t) (m - t)
      by_cases hfail : (k.recv fd (.buf t) (m - t)).1 = -1
      · refine ⟨[Syscall.recv fd (.buf t) (m - t) (-1)], ?_, ?_, ?_⟩
        · simp [readLoop, hlt, hfail, htr]
        · intro e he; simp at he; exact ⟨_, _, _, he⟩
        · intro _
          simp [readLoop, hlt, hfail, moved, Syscall.ret, le_of_lt hlt]
      · obtain ⟨calls, hc1, hc2, hc3⟩ := ih (k.recv fd (.buf t) (m - t)).2.2
          (storeAt buf t.toNat (k.recv fd (.buf t) (m - t)).2.1)
          (t + (k.recv fd (.buf t) (m - t)).1)
        have hr : 0 ≤ (k.recv fd (.buf t) (m - t)).1 ∧ (k.recv fd (.buf t) (m - t)).1 ≤ m - t := by
          rcases hret with ⟨h, -⟩ | ⟨h1, h2, -⟩
          · exact absurd h hfail
          · exact ⟨by omega, by omega⟩
        have hw : readLoop (n + 1) k fd buf m t
            = readLoop n (k.recv fd (.buf t) (m - t)).2.2 fd
                (storeAt buf t.toNat (k.recv fd (.buf t) (m - t)).2.1) m
                (t + (k.recv fd (.buf t) (m - t)).1) := by
          simp [readLoop, hlt, hfail]
        refine ⟨calls ++ [Syscall.recv fd (.buf t) (m - t) (k.recv fd (.buf t) (m - t)).1],
          ?_, ?_, ?_⟩
        · rw [hw, hc1, htr]; simp
        · intro e he
          simp only [List.mem_append, List.mem_singleton] at he
          rcases he with he | he
          · exact hc2 e he
          · exact ⟨_, _, _, he⟩
        · intro _
          rw [hw]
          exact attempts_step n m t _ _ _ calls rfl hr.1 hfail (hc3 (by omega))
    · refine ⟨[], by simp [readLoop, hlt], by simp, ?_⟩
      intro ht
      simp [readLoop, hlt, moved, ht]

/-! ### Properties kept by the loops because every attempt keeps them -/

theorem readLoop_preserves (Q : Kernel → Prop) (fd : Int)
    (hQ : ∀ k dst len, Q k → Q (k.recv fd dst len).2.2) (m : Int) :
    ∀ (n : Nat) (k : Kernel) (buf : List Byte) (t : Int), Q k → Q (readLoop n k fd buf m t).2.2 := by
  intro n
  induction n with
  | zero => intro k buf t h; simpa [readLoop] using h
  | succ n ih =>
    intro k buf t h
    by_cases hlt : t < m
    · by_cases hf : (k.recv fd (.buf t) (m - t)).1 = -1
      · simp only [readLoop, hlt, hf, ↓reduceIte]
        exact hQ _ _ _ h
      · simp only [readLoop, hlt, hf, ↓reduceIte]
        exact ih _ _ _ (hQ _ _ _ h)
    · simp only [readLoop, hlt, ↓reduceIte]
      exact h

theorem drainLoop_preserves (Q : Kernel → Prop) (fd : Int)
    (hQ : ∀ k dst len, Q k → Q (k.recv fd dst len).2.2) (m : Int) :
    ∀ (n : Nat) (k : Kernel) (t : Int), Q k → Q (drainLoop n k fd m t).2 := by
  intro n
  induction n with
  | zero => intro k t h; simpa [drainLoop] using h
  | succ n ih =>
    intro k t h
    by_cases hlt : t < m
    · by_cases hf : (k.recv fd .null (m - t)).1 = -1
      · simp only [drainLoop, hlt, hf, ↓reduceIte]
        exact hQ _ _ _ h
      · simp only [drainLoop, hlt, hf, ↓reduceIte]
        exact ih _ _ (hQ _ _ _ h)
    · simp only [drainLoop, hlt, ↓reduceIte]
      exact h

theorem writeLoop_preserves (Q : Kernel → Prop) (fd : Int)
    (hQ : ∀ k src data len, Q k → Q (k.send fd src data len).2) (out : List Byte) (m : Int) :
    ∀ (n : Nat) (k : Kernel) (t : Int), Q k → Q (writeLoop n k fd out m t).2 := by
  intro n
  induction n with
  | zero => intro k t h; simpa [writeLoop] using h
  | succ n ih =>
    intro k t h
    by_cases hlt : t < m
    · by_cases hf : (k.send fd (.buf t) (out.drop t.toNat) (m - t)).1 = -1
      · simp only [writeLoop, hlt, hf, ↓reduceIte]
        exact hQ _ _ _ _ h
      · simp only [writeLoop, hlt, hf, ↓reduceIte]
        exact ih _ _ (hQ _ _ _ _ h)
    · simp only [writeLoop, hlt, ↓reduceIte]
      exact h


theorem Kernel.recv_filter_isSend (k : Kernel) (fd : Int) (dst : Mem) (len : Int) :
    (k.recv fd dst len).2.2.trace.filter Syscall.isSend = k.trace.filter Syscall.isSend := by
  rw [Kernel.recv_trace]; simp [Syscall.isSend]

theorem Kernel.send_filter_isRecv (k : Kernel) (fd : Int) (src : Mem) (data : List Byte)
    (len : Int) :
    (k.send fd src data len).2.trace.filter Syscall.isRecv = k.trace.filter Syscall.isRecv := by
  rw [Kernel.send_trace]; simp [Syscall.isRecv]

theorem Kernel.sentOn_congr (k1 k2 : Kernel) (g : Int)
    (h : (k1.fds g).map (fun s => (s.tx, s.sendPlan, s.peer))
      = (k2.fds g).map (fun s => (s.tx, s.sendPlan, s.peer)))
    (hc : k1.closed = k2.closed) : k1.sentOn g = k2.sentOn g := by
  unfold Kernel.sentOn
  rw [hc]
  cases h1 : k1.fds g <;> cases h2 : k2.fds g <;> simp [h1, h2] at h ⊢
  exact h.1

/-- One `recv` leaves alone what has been sent, the closed end points and the `send` entries
of the log. -/
theorem Kernel.recv_frame (k0 k : Kernel) (fd : Int) (dst : Mem) (len : Int)
    (h : (∀ g, (k.fds g).map (fun s => (s.tx, s.sendPlan, s.peer))
        = (k0.fds g).map (fun s => (s.tx, s.sendPlan, s.peer))) ∧
      k.closed = k0.closed ∧ k.trace.filter Syscall.isSend = k0.trace.filter Syscall.isSend) :
    (∀ g, ((k.recv fd dst len).2.2.fds g).map (fun s => (s.tx, s.sendPlan, s.peer))
        = (k0.fds g).map (fun s => (s.tx, s.sendPlan, s.peer))) ∧
      (k.recv fd dst len).2.2.closed = k0.closed ∧
      (k.recv fd dst len).2.2.trace.filter Syscall.isSend = k0.trace.filter Syscall.isSend :=
  ⟨fun g => (Kernel.recv_fds k fd dst len g).trans (h.1 g),
    (Kernel.recv_closed k fd dst len).trans h.2.1,
    (Kernel.recv_filter_isSend k fd dst len).trans h.2.2⟩

theorem readLoop_frame (n : Nat) (k : Kernel) (fd : Int) (buf : List Byte) (m t : Int) :
    (∀ g, ((readLoop n k fd buf m t).2.2.fds g).map (fun s => (s.tx, s.sendPlan, s.peer))
        = (k.fds g).map (fun s => (s.tx, s.sendPlan, s.peer))) ∧
      (readLoop n k fd buf m t).2.2.closed = k.closed ∧
      (readLoop n k fd buf m t).2.2.trace.filter Syscall.isSend = k.trace.filter Syscall.isSend :=
  readLoop_preserves _ fd (fun k1 dst len h => Kernel.recv_frame k k1 fd dst len h) m n k buf t
    ⟨fun _ => rfl, rfl, rfl⟩

theorem drainLoop_frame (n : Nat) (k : Kernel) (fd : Int) (m t : Int) :
    (∀ g, ((drainLoop n k fd m t).2.fds g).map (fun s => (s.tx, s.sendPlan, s.peer))
        = (k.fds g).map (fun s => (s.tx, s.sendPlan, s.peer))) ∧
      (drainLoop n k fd m t).2.closed = k.closed ∧
      (drainLoop n k fd m t).2.trace.filter Syscall.isSend = k.trace.filter Syscall.isSend :=
  drainLoop_preserves _ fd (fun k1 dst len h => Kernel.recv_frame k k1 fd dst len h) m n k t
    ⟨fun _ => rfl, rfl, rfl⟩

theorem Kernel.close_fds_self (k : Kernel) (fd : Int) : (k.close fd).fds fd = none := by
  unfold Kernel.close
  split
  · simp
  · rename_i h
    show k.fds fd = none
    cases hs : k.fds fd with
    | none => rfl
    | some s => simp [Kernel.isOpen, hs] at h

theorem Kernel.close_filter_isSend (k : Kernel) (fd : Int) :
    (k.close fd).trace.filter Syscall.isSend = k.trace.filter Syscall.isSend := by
  unfold Kernel.close
  split <;> simp [Syscall.isSend]

theorem Kernel.close_sentOn (k : Kernel) (fd g : Int) : (k.close fd).sentOn g = k.sentOn g := by
  unfold Kernel.close
  split
  · by_cases hg : g = fd
    · subst hg
      cases hs : k.fds g <;> simp [Kernel.sentOn, hs]
    · cases hs : k.fds fd
      · simp [Kernel.sentOn, Function.update_noteq hg]
      · simp [Kernel.sentOn, Function.update_noteq hg, List.find?, Ne.symm hg]
  · rfl

theorem Kernel.send_short (k : Kernel) (fd : Int) (src : Mem) (data : List Byte)
    (s : Sock) (j : Nat) (rest : List Outcome)
    (h : k.fds fd = some s) (hp : s.sendPlan = .count j :: rest) (hj : j < 4)
    (hd : data.length = 4) :
    k.send fd src data 4 =
      ((j : Int),
        { k with fds := Function.update k.fds fd
                    (some { s with tx := s.tx ++ data.take j, sendPlan := rest })
                 trace := .send fd src 4 j :: k.trace }) := by
  have hmin : min j (4 : Int).toNat = j := by
    have : (4 : Int).toNat = 4 := rfl
    omega
  have hlen : (data.take j).length = j := by
    rw [List.length_take]; omega
  simp only [Kernel.send, h, hp, hmin, hlen]

theorem Kernel.close_open (k : Kernel) (fd : Int) (s : Sock) (h : k.fds fd = some s) :
    (k.close fd).trace = .close fd 0 :: k.trace := by
  simp [Kernel.close, Kernel.isOpen, h]

theorem Kernel.sentOn_open (k : Kernel) (fd : Int) (s : Sock) (h : k.fds fd = some s) :
    k.sentOn fd = s.tx := by
  simp [Kernel.sentOn, h]

theorem readMessage_ok_frame (libc : Libc) (c : Cycle) (i : Int) (msgSize : Int) (c1 : Cycle)
    (h : TCPServer.readMessage libc c i = .ok (msgSize, c1)) :
    c1.master = c.master ∧ c1.calls = c.calls ∧ c1.srv.d_status = c.srv.d_status ∧
    (∀ g, (c1.k.fds g).map (fun s => (s.tx, s.sendPlan, s.peer))
        = (c.k.fds g).map (fun s => (s.tx, s.sendPlan, s.peer))) ∧
    c1.k.closed = c.k.closed ∧
    c1.k.trace.filter Syscall.isSend = c.k.trace.filter Syscall.isSend ∧
    (c.k.fds i).isSome = true := by
  unfold TCPServer.readMessage at h
  by_cases h1 : (c.k.recv i .var 4).1 < 4
  · simp [h1] at h
  · by_cases h2 : bytesInt (c.k.recv i .var 4).2.1 > c.srv.d_rcvBufSize
    · simp [h1, h2] at h
    · by_cases h3 : (readLoop 3 (c.k.recv i .var 4).2.2 i c.srv.d_rcvBuf
          (bytesInt (c.k.recv i .var 4).2.1) 0).1 < bytesInt (c.k.recv i .var 4).2.1
      · simp [h1, h2, h3] at h
      · simp only [h1, h2, h3, ↓reduceIte, Except.ok.injEq, Prod.mk.injEq] at h
        obtain ⟨-, hc⟩ := h
        subst hc
        obtain ⟨f1, f2, f3⟩ := readLoop_frame 3 (c.k.recv i .var 4).2.2 i c.srv.d_rcvBuf
          (bytesInt (c.k.recv i .var 4).2.1) 0
        refine ⟨rfl, rfl, rfl, fun g => (f1 g).trans (Kernel.recv_fds _ _ _ _ _),
          f2.trans (Kernel.recv_closed _ _ _ _),
          f3.trans (Kernel.recv_filter_isSend _ _ _ _), ?_⟩
        rcases Kernel.recv_ret c.k i .var 4 with ⟨hr, -⟩ | ⟨-, -, hr⟩
        · rw [hr] at h1; exact absurd (by decide) h1
        · exact hr

theorem receiveReply_sentOn (libc : Libc) (c : TCPClient) (k : Kernel) (inBuf : List Byte)
    (inBufLen v : Int) (g : Int) :
    (TCPClient.receiveReply libc c k inBuf inBufLen v).k.sentOn g = k.sentOn g := by
  have hrecv : (k.recv c.d_fd .var 4).2.2.sentOn g = k.sentOn g :=
    Kernel.sentOn_congr _ _ g (Kernel.recv_fds _ _ _ _ _) (Kernel.recv_closed _ _ _ _)
  unfold TCPClient.receiveReply
  simp only
  split
  · show (Kernel.close _ _).sentOn g = _
    rw [Kernel.close_sentOn, hrecv]
  · split
    · show (Kernel.close _ _).sentOn g = _
      rw [Kernel.close_sentOn, hrecv]
    · obtain ⟨f1, f2, -⟩ := readLoop_frame 3 (k.recv c.d_fd .var 4).2.2 c.d_fd inBuf
        (bytesInt ((k.recv c.d_fd .var 4).2.1 ++
          (intBytes v).drop (k.recv c.d_fd .var 4).2.1.length)) 0
      have hloop := Kernel.sentOn_congr _ _ g (f1 g) f2
      split
      · show (Kernel.close _ _).sentOn g = _
        rw [Kernel.close_sentOn, hloop, hrecv]
      · show Kernel.sentOn _ g = _
        rw [hloop, hrecv]

theorem Kernel.fcntl_isOpen (k : Kernel) (fd : Int) (h : k.isOpen fd = true) :
    k.fcntl fd = (0, { k with trace := .fcntl fd 0 :: k.trace }) := by
  simp [Kernel.fcntl, h]

theorem Kernel.sendto_trace (k : Kernel) (fd : Int) (data : List Byte) (len : Int)
    (addr : SockAddr) :
    (k.sendto fd data len addr).2.trace = .sendto fd len (k.sendto fd data len addr).1 :: k.trace := by
  unfold Kernel.sendto
  split
  · rfl
  · split <;> rfl

theorem writeLoop_filter_isRecv (n : Nat) (k : Kernel) (fd : Int) (out : List Byte) (m t : Int) :
    (writeLoop n k fd out m t).2.trace.filter Syscall.isRecv = k.trace.filter Syscall.isRecv :=
  writeLoop_preserves (fun k1 => k1.trace.filter Syscall.isRecv = k.trace.filter Syscall.isRecv) fd
    (fun k1 src data len h => (Kernel.send_filter_isRecv k1 fd src data len).trans h) out m n k t rfl

theorem sendRequest_eq (libc : Libc) (env : InitEnv) (c : TCPClient) (k : Kernel)
    (outMsgBuf : Option (List Byte)) (outMsgLen : Int) :
    TCPClient.sendRequest libc env c k outMsgBuf outMsgLen =
      match TCPClient.connected libc env c k with
      | .error e => .error e
      | .ok (c0, k0) => TCPClient.writeRequest libc c0 k0 outMsgBuf outMsgLen := by
  unfold TCPClient.sendRequest TCPClient.connected TCPClient.writeRequest
  by_cases h1 : c.d_init = true
  · by_cases h2 : (k.fcntl c.d_fd).1 = -1
    · by_cases h3 : (TCPClient.init libc env c (k.fcntl c.d_fd).2 (c.d_serverName.getD "")
          c.d_serverPort c.d_recvTimeout c.d_bdp).1 = -1
      · simp [h1, h2, h3]
      · simp only [h1, h2, h3, Bool.not_true, Bool.false_eq_true, ↓reduceIte]
    · simp only [h1, h2, Bool.not_true, Bool.false_eq_true, ↓reduceIte]
      have : ¬ ((0 : Int) = -1) := by decide
      simp only [this, ↓reduceIte]
  · simp [h1]

theorem sendAndReceive_eq (libc : Libc) (env : InitEnv) (c : TCPClient) (k : Kernel)
    (outMsgBuf : Option (List Byte)) (outMsgLen : Int)
    (inMsgBuf : Option (List Byte)) (inBufLen v : Int) :
    TCPClient.sendAndReceive libc env c k outMsgBuf outMsgLen inMsgBuf inBufLen v =
      match TCPClient.connected libc env c k with
      | .error (c1, k1) => ⟨-1, inMsgBuf, v, c1, k1⟩
      | .ok (c0, k0) => TCPClient.exchange libc c0 k0 outMsgBuf outMsgLen inMsgBuf inBufLen v := by
  unfold TCPClient.sendAndReceive
  rw [sendRequest_eq]
  cases hc : TCPClient.connected libc env c k with
  | error e => rfl
  | ok p => rfl

theorem connected_probe_ok (libc : Libc) (env : InitEnv) (c : TCPClient) (k : Kernel)
    (hinit : c.d_init = true) (hopen : k.isOpen c.d_fd = true) :
    TCPClient.connected libc env c k = .ok (c, { k with trace := .fcntl c.d_fd 0 :: k.trace }) := by
  have hf : k.fcntl c.d_fd = (0, { k with trace := .fcntl c.d_fd 0 :: k.trace }) := by
    simp [Kernel.fcntl, hopen]
  simp [TCPClient.connected, hinit, hf]

theorem connected_probe_fails (libc : Libc) (env : InitEnv) (c : TCPClient) (k : Kernel)
    (hinit : c.d_init = true) (hprobe : (k.fcntl c.d_fd).1 = -1) :
    TCPClient.connected libc env c k =
      if (TCPClient.init libc env c (k.fcntl c.d_fd).2 (c.d_serverName.getD "")
          c.d_serverPort c.d_recvTimeout c.d_bdp).1 = -1
      then .error ((TCPClient.init libc env c (k.fcntl c.d_fd).2 (c.d_serverName.getD "")
          c.d_serverPort c.d_recvTimeout c.d_bdp).2.1,
        (TCPClient.init libc env c (k.fcntl c.d_fd).2 (c.d_serverName.getD "")
          c.d_serverPort c.d_recvTimeout c.d_bdp).2.2)
      else .ok ((TCPClient.init libc env c (k.fcntl c.d_fd).2 (c.d_serverName.getD "")
          c.d_serverPort c.d_recvTimeout c.d_bdp).2.1,
        (TCPClient.init libc env c (k.fcntl c.d_fd).2 (c.d_serverName.getD "")
          c.d_serverPort c.d_recvTimeout c.d_bdp).2.2) := by
  simp [TCPClient.connected, hinit, hprobe]

theorem Kernel.fcntl_closed (k : Kernel) (fd : Int) (h : k.isOpen fd = false) :
    k.fcntl fd = (-1, { k with errno := EBADF, trace := .fcntl fd (-1) :: k.trace }) := by
  simp [Kernel.fcntl, h]

theorem Kernel.fcntl_fails_iff (k : Kernel) (fd : Int) :
    (k.fcntl fd).1 = -1 ↔ k.isOpen fd = false := by
  unfold Kernel.fcntl
  by_cases h : k.isOpen fd = true
  · simp [h]
  · simp [h]

theorem Kernel.setsockopt_spec (k : Kernel) (fd : Int) (opt : String) (r : Option Int) :
    ((k.setsockopt fd opt r).1 = -1 ∨ (k.setsockopt fd opt r).1 = 0) ∧
    (k.setsockopt fd opt r).2.fds = k.fds ∧
    (k.setsockopt fd opt r).2.trace.filter Syscall.isSend = k.trace.filter Syscall.isSend := by
  cases r <;> simp [Kernel.setsockopt, Syscall.isSend]

theorem Kernel.setsockopt_if_spec (k : Kernel) (fd : Int) (opt : String) (r : Option Int)
    (b : Prop) [Decidable b] :
    ((if b then k.setsockopt fd opt r else (0, k)).1 = -1 ∨
      (if b then k.setsockopt fd opt r else (0, k)).1 = 0) ∧
    (if b then k.setsockopt fd opt r else (0, k)).2.fds = k.fds ∧
    (if b then k.setsockopt fd opt r else (0, k)).2.trace.filter Syscall.isSend
      = k.trace.filter Syscall.isSend := by
  by_cases hb : b
  · simp only [hb, ↓reduceIte]; exact Kernel.setsockopt_spec k fd opt r
  · simp [hb]

theorem Kernel.connect_spec (k : Kernel) (fd : Int) (r : Option Int) :
    ((k.connect fd r).1 = -1 ∨ (k.connect fd r).1 = 0) ∧
    (k.connect fd r).2.fds = k.fds ∧
    (k.connect fd r).2.trace.filter Syscall.isSend = k.trace.filter Syscall.isSend := by
  cases r <;> simp [Kernel.connect, Syscall.isSend]

/-- What `TCPClient::init` guarantees once the socket exists. -/
theorem TCPClient.initSocket_spec (libc : Libc) (env : InitEnv) (c : TCPClient) (k : Kernel)
    (port : Int) (addr : Nat) :
    ((TCPClient.initSocket libc env c k port addr).1 = -1 ∧
        (TCPClient.initSocket libc env c k port addr).2.1.d_init = c.d_init ∧
        (TCPClient.initSocket libc env c k port addr).2.1.d_fd = -1 ∨
      (TCPClient.initSocket libc env c k port addr).1 = 0 ∧
        (TCPClient.initSocket libc env c k port addr).2.1.d_init = true ∧
        (TCPClient.initSocket libc env c k port addr).2.1.d_fd = c.d_fd ∧
        (TCPClient.initSocket libc env c k port addr).2.1.d_server.sin_port = port ∧
        (TCPClient.initSocket libc env c k port addr).2.2.fds = k.fds) ∧
    (TCPClient.initSocket libc env c k port addr).2.1.d_serverName = c.d_serverName ∧
    (TCPClient.initSocket libc env c k port addr).2.1.d_serverPort = c.d_serverPort ∧
    (TCPClient.initSocket libc env c k port addr).2.1.d_recvTimeout = c.d_recvTimeout ∧
    (TCPClient.initSocket libc env c k port addr).2.1.d_bdp = c.d_bdp ∧
    (TCPClient.initSocket libc env c k port addr).2.2.trace.filter Syscall.isSend
      = k.trace.filter Syscall.isSend := by
  simp only [TCPClient.initSocket, TCPClient.initFail]
  obtain ⟨-, a1, b1⟩ := Kernel.setsockopt_spec k c.d_fd "TCP_NODELAY" (env.setsockopt "TCP_NODELAY")
  generalize k.setsockopt c.d_fd "TCP_NODELAY" (env.setsockopt "TCP_NODELAY") = o1 at a1 b1 ⊢
  obtain ⟨-, a2, b2⟩ := Kernel.setsockopt_if_spec o1.2 c.d_fd "SO_SNDBUF"
    (env.setsockopt "SO_SNDBUF") (int32 (c.d_bdp * 1024) ≠ 0)
  generalize (if int32 (c.d_bdp * 1024) ≠ 0 then o1.2.setsockopt c.d_fd "SO_SNDBUF"
    (env.setsockopt "SO_SNDBUF") else (0, o1.2)) = o2 at a2 b2 ⊢
  obtain ⟨-, a3, b3⟩ := Kernel.setsockopt_if_spec o2.2 c.d_fd "SO_RCVBUF"
    (env.setsockopt "SO_RCVBUF") (int32 (c.d_bdp * 1024) ≠ 0)
  generalize (if int32 (c.d_bdp * 1024) ≠ 0 then o2.2.setsockopt c.d_fd "SO_RCVBUF"
    (env.setsockopt "SO_RCVBUF") else (0, o2.2)) = o3 at a3 b3 ⊢
  obtain ⟨-, a4, b4⟩ := Kernel.setsockopt_spec o3.2 c.d_fd "SO_RCVTIMEO" (env.setsockopt "SO_RCVTIMEO")
  generalize o3.2.setsockopt c.d_fd "SO_RCVTIMEO" (env.setsockopt "SO_RCVTIMEO") = o4 at a4 b4 ⊢
  obtain ⟨z5, a5, b5⟩ := Kernel.connect_spec o4.2 c.d_fd env.connect
  generalize o4.2.connect c.d_fd env.connect = o5 at z5 a5 b5 ⊢
  have t1 := b1
  have t2 := b2.trans t1
  have t3 := b3.trans t2
  have t4 := b4.trans t3
  have t5 := b5.trans t4
  have f5 : o5.2.fds = k.fds := by rw [a5, a4, a3, a2, a1]
  split_ifs with h1 h2 h3 h4 h5
  · exact ⟨Or.inl ⟨rfl, rfl, rfl⟩, rfl, rfl, rfl, rfl, by rw [Kernel.close_filter_isSend]; exact t1⟩
  · exact ⟨Or.inl ⟨rfl, rfl, rfl⟩, rfl, rfl, rfl, rfl, by rw [Kernel.close_filter_isSend]; exact t2⟩
  · exact ⟨Or.inl ⟨rfl, rfl, rfl⟩, rfl, rfl, rfl, rfl, by rw [Kernel.close_filter_isSend]; exact t3⟩
  · exact ⟨Or.inl ⟨rfl, rfl, rfl⟩, rfl, rfl, rfl, rfl, by rw [Kernel.close_filter_isSend]; exact t4⟩
  · exact ⟨Or.inl ⟨rfl, rfl, rfl⟩, rfl, rfl, rfl, rfl, by rw [Kernel.close_filter_isSend]; exact t5⟩
  · exact ⟨Or.inr ⟨rfl, rfl, rfl, rfl, f5⟩, rfl, rfl, rfl, rfl, t5⟩

theorem Kernel.socket_spec (k : Kernel) (r : Except Int Int) (s : Sock) :
    (k.socket r s).2.trace.filter Syscall.isSend = k.trace.filter Syscall.isSend ∧
    ((k.socket r s).1 = -1 ∨
      r = .ok (k.socket r s).1 ∧ (k.socket r s).2.fds (k.socket r s).1 = some s) ∧
    ∀ e ∈ k.trace, e ∈ (k.socket r s).2.trace := by
  cases r with
  | error e =>
    refine ⟨by simp [Kernel.socket, Syscall.isSend], Or.inl rfl, ?_⟩
    intro x hx
    exact List.mem_cons_of_mem _ hx
  | ok fd =>
    refine ⟨by simp [Kernel.socket, Syscall.isSend], Or.inr ⟨rfl, by simp [Kernel.socket]⟩, ?_⟩
    intro x hx
    exact List.mem_cons_of_mem _ hx

theorem Kernel.gethostbyname_spec (k : Kernel) (name : String) (r : Except Int Nat) :
    (k.gethostbyname name r).trace.filter Syscall.isSend = k.trace.filter Syscall.isSend ∧
    (k.gethostbyname name r).fds = k.fds ∧
    ∃ found, (k.gethostbyname name r).trace = .gethostbyname name found :: k.trace := by
  cases r <;> simp [Kernel.gethostbyname, Syscall.isSend]

theorem take_length_toList (s : String) : s.toList.take s.length = s.toList := by
  have : s.length = s.toList.length := rfl
  rw [this, List.take_length]

/-- A run of `TCPClient::init` either fails before it has a socket or goes on with
`initSocket` on a fresh descriptor. -/
theorem TCPClient.init_cases (libc : Libc) (env : InitEnv) (c : TCPClient) (k : Kernel)
    (serverIp : String) (port : Int) (timeout : Timeval) (bdp : Int) :
    ((TCPClient.init libc env c k serverIp port timeout bdp).1 = -1 ∧
      (TCPClient.init libc env c k serverIp port timeout bdp).2.1.d_init = false ∧
      (TCPClient.init libc env c k serverIp port timeout bdp).2.2.trace.filter Syscall.isSend
        = k.trace.filter Syscall.isSend ∧
      (TCPClient.init libc env c k serverIp port timeout bdp).2.1.d_recvTimeout = timeout ∧
      (TCPClient.init libc env c k serverIp port timeout bdp).2.1.d_bdp = bdp ∧
      (c.d_serverName = some serverIp →
        (TCPClient.init libc env c k serverIp port timeout bdp).2.1.d_serverName = some serverIp ∧
        (TCPClient.init libc env c k serverIp port timeout bdp).2.1.d_serverPort = port ∧
        ∃ found, Syscall.gethostbyname serverIp found ∈
          (TCPClient.init libc env c k serverIp port timeout bdp).2.2.trace)) ∨
    ∃ (c1 : TCPClient) (k1 : Kernel) (addr : Nat),
      TCPClient.init libc env c k serverIp port timeout bdp
        = TCPClient.initSocket libc env c1 k1 port addr ∧
      c1.d_init = false ∧ env.socket = .ok c1.d_fd ∧ k1.fds c1.d_fd = some env.conn ∧
      k1.trace.filter Syscall.isSend = k.trace.filter Syscall.isSend ∧
      c1.d_recvTimeout = timeout ∧ c1.d_bdp = bdp ∧ c1.d_serverPort = port ∧
      (c.d_serverName = some serverIp →
        c1.d_serverName = some serverIp ∧
        ∃ found, Syscall.gethostbyname serverIp found ∈ k1.trace) := by
  have hk0 : (if c.d_fd ≠ 0 then k.close c.d_fd else k).trace.filter Syscall.isSend
      = k.trace.filter Syscall.isSend := by
    split_ifs
    · exact Kernel.close_filter_isSend k c.d_fd
    · rfl
  unfold TCPClient.init
  simp only []
  generalize (if c.d_fd ≠ 0 then k.close c.d_fd else k) = k0 at hk0 ⊢
  obtain ⟨g1, -, g3⟩ := Kernel.gethostbyname_spec k0 serverIp env.gethostbyname
  generalize k0.gethostbyname serverIp env.gethostbyname = kg at g1 g3 ⊢
  obtain ⟨s1, s2, s3⟩ := Kernel.socket_spec kg env.socket env.conn
  generalize kg.socket env.socket env.conn = so at s1 s2 s3 ⊢
  obtain ⟨found, g3⟩ := g3
  have hmem : Syscall.gethostbyname serverIp found ∈ kg.trace := by rw [g3]; simp
  have hg' := g1.trans hk0
  have hs' := s1.trans hg'
  by_cases hfd : c.d_fd ≠ 0
  all_goals first | simp only [if_pos hfd] | simp only [if_neg hfd]
  all_goals rcases hc : c.d_serverName with _ | old
  all_goals cases hre : env.realloc <;> cases hg : env.gethostbyname <;>
    by_cases hso : so.1 = -1 <;>
    by_cases hdec : List.take serverIp.length (c.d_serverName.getD "").toList = serverIp.toList
  all_goals simp only [hc, Option.getD_some, Option.getD_none] at hdec
  all_goals simp only [Bool.not_true, Bool.not_false, Bool.and_true, Bool.and_false,
    Bool.false_eq_true, ↓reduceIte, hso, hdec, ne_eq, not_true_eq_false, not_false_eq_true,
    decide_True, decide_False]
  all_goals first
    | refine Or.inl ⟨trivial, trivial, ?_, trivial, trivial, ?_⟩
    | refine Or.inr ⟨_, _, _, rfl, rfl, (s2.resolve_left hso).1, (s2.resolve_left hso).2, hs',
        rfl, rfl, rfl, ?_⟩
  all_goals first
    | exact hk0
    | exact hg'
    | exact hs'
    | skip
  all_goals intro h
  all_goals first
    | (cases h; done)
    | (cases h; exact absurd (take_length_toList _) hdec)
    | exact ⟨h, trivial, found, hmem⟩
    | exact ⟨trivial, trivial, found, hmem⟩
    | exact ⟨h, trivial, found, s3 _ hmem⟩
    | exact ⟨trivial, trivial, found, s3 _ hmem⟩
    | exact ⟨h, found, s3 _ hmem⟩

theorem Kernel.close_isOpen (k : Kernel) (fd : Int) : (k.close fd).isOpen fd = false := by
  by_cases h : k.isOpen fd = true
  · simp only [Kernel.close, h, ↓reduceIte]
    simp [Kernel.isOpen]
  · simp only [Kernel.close, h]
    simpa [Kernel.isOpen] using h

theorem Kernel.close_trace_filter (k : Kernel) (fd : Int) (p : Syscall → Bool)
    (hp : ∀ r, p (.close fd r) = false) :
    (k.close fd).trace.filter p = k.trace.filter p := by
  unfold Kernel.close
  split <;> simp [hp]

theorem snprintf80_other_source :
    snprintf80 "sendAndReceive(recv): Received message from some other source"
      = "sendAndReceive(recv): Received message from some other source" := by
  decide

theorem Kernel.sendto_lossless (k : Kernel) (fd : Int) (data : List Byte) (len : Int)
    (addr : SockAddr) (d : DSock) (h : k.udp fd = some d) (hp : d.sendPlan = []) :
    k.sendto fd data len addr =
      (((data.take len.toNat).length : Int),
        { k with udp := Function.update k.udp fd
                    (some { d with sent := ⟨addr.s_addr, addr.sin_port, data.take len.toNat⟩ :: d.sent })
                 trace := .sendto fd len (data.take len.toNat).length :: k.trace }) := by
  simp only [Kernel.sendto, h, hp]

theorem Kernel.recvfrom_datagram (k : Kernel) (fd : Int) (len : Int) (d : DSock) (g : Datagram)
    (more : List Datagram) (h : k.udp fd = some d) (hp : d.recvPlan = [])
    (hin : d.inbox = g :: more) :
    k.recvfrom fd len =
      (((g.payload.take len.toNat).length : Int), g.payload.take len.toNat,
        some ⟨g.sin_port, g.s_addr⟩,
        { k with udp := Function.update k.udp fd (some { d with inbox := more, recvPlan := [] })
                 trace := .recvfrom fd len (g.payload.take len.toNat).length :: k.trace }) := by
  simp only [Kernel.recvfrom, h, hp, hin, List.tail_nil]

theorem Kernel.close_trace (k : Kernel) (fd : Int) :
    ∃ r, (k.close fd).trace = .close fd r :: k.trace := by
  unfold Kernel.close
  split
  · exact ⟨0, rfl⟩
  · exact ⟨-1, rfl⟩

theorem Kernel.setsockopt_cases (k : Kernel) (fd : Int) (opt : String) (r : Option Int) :
    (r = none ∧ (k.setsockopt fd opt r).1 = 0) ∨
    (∃ e, r = some e ∧ (k.setsockopt fd opt r).1 = -1 ∧ (k.setsockopt fd opt r).2.errno = e) := by
  cases r <;> simp [Kernel.setsockopt]

theorem Kernel.setsockopt_if_cases (k : Kernel) (fd : Int) (opt : String) (r : Option Int)
    (b : Prop) [Decidable b] :
    ((if b then r else none) = none ∧ (if b then k.setsockopt fd opt r else (0, k)).1 = 0) ∨
    (∃ e, (if b then r else none) = some e ∧
      (if b then k.setsockopt fd opt r else (0, k)).1 = -1 ∧
      (if b then k.setsockopt fd opt r else (0, k)).2.errno = e) := by
  by_cases hb : b
  · simp only [hb, ↓reduceIte]; exact Kernel.setsockopt_cases k fd opt r
  · simp [hb]

theorem Kernel.bind_cases (k : Kernel) (fd : Int) (r : Option Int) :
    (r = none ∧ (k.bind fd r).1 = 0) ∨
    (∃ e, r = some e ∧ (k.bind fd r).1 = -1 ∧ (k.bind fd r).2.errno = e) := by
  cases r <;> simp [Kernel.bind]

theorem Kernel.listen_cases (k : Kernel) (fd : Int) (r : Option Int) :
    (r = none ∧ (k.listen fd r).1 = 0) ∨
    (∃ e, r = some e ∧ (k.listen fd r).1 = -1 ∧ (k.listen fd r).2.errno = e) := by
  cases r <;> simp [Kernel.listen]

/-- When the environment makes a step after `socket` fail, `TCPServer::init` takes the
failure exit of that step. -/
theorem TCPServer.initSocket_fails (libc : Libc) (env : ListenEnv) (s : TCPServer) (k : Kernel)
    (bufSize bdp : Int) (step : InitStep) (code : Int) (fd : Int) (hso : env.socket = .ok fd)
    (h : env.tcpFailure bdp = some (step, code)) :
    (TCPServer.initSocket libc env s k bufSize (int32 (bdp * 1024))).1 = -1 ∧
    (TCPServer.initSocket libc env s k bufSize (int32 (bdp * 1024))).2.1.d_init = s.d_init ∧
    (TCPServer.initSocket libc env s k bufSize (int32 (bdp * 1024))).2.1.d_fd = -1 ∧
    (TCPServer.initSocket libc env s k bufSize (int32 (bdp * 1024))).2.1.d_status
      = setError libc s.d_status code step.tcpText := by
  simp only [TCPServer.initSocket, TCPServer.initFail]
  have A1 := Kernel.setsockopt_cases k s.d_fd "SO_REUSEADDR" (env.setsockopt "SO_REUSEADDR")
  generalize k.setsockopt s.d_fd "SO_REUSEADDR" (env.setsockopt "SO_REUSEADDR") = o1 at A1 ⊢
  have A2 := Kernel.setsockopt_cases o1.2 s.d_fd "TCP_NODELAY" (env.setsockopt "TCP_NODELAY")
  generalize o1.2.setsockopt s.d_fd "TCP_NODELAY" (env.setsockopt "TCP_NODELAY") = o2 at A2 ⊢
  have A3 := Kernel.setsockopt_if_cases o2.2 s.d_fd "SO_SNDBUF" (env.setsockopt "SO_SNDBUF")
    (int32 (bdp * 1024) ≠ 0)
  generalize (if int32 (bdp * 1024) ≠ 0 then o2.2.setsockopt s.d_fd "SO_SNDBUF"
    (env.setsockopt "SO_SNDBUF") else (0, o2.2)) = o3 at A3 ⊢
  have A4 := Kernel.setsockopt_if_cases o3.2 s.d_fd "SO_RCVBUF" (env.setsockopt "SO_RCVBUF")
    (int32 (bdp * 1024) ≠ 0)
  generalize (if int32 (bdp * 1024) ≠ 0 then o3.2.setsockopt s.d_fd "SO_RCVBUF"
    (env.setsockopt "SO_RCVBUF") else (0, o3.2)) = o4 at A4 ⊢
  have A5 := Kernel.bind_cases o4.2 s.d_fd env.bind
  generalize o4.2.bind s.d_fd env.bind = o5 at A5 ⊢
  have A6 := Kernel.listen_cases o5.2 s.d_fd env.listen
  generalize o5.2.listen s.d_fd env.listen = o6 at A6 ⊢
  simp only [ListenEnv.tcpFailure, hso] at h
  split_ifs with h1 h2 h3 h4 h5 h6 h7
  · rcases A1 with ⟨-, z1⟩ | ⟨e1, r1, -, w1⟩
    · omega
    simp only [r1, Option.some.injEq, Prod.mk.injEq] at h
    obtain ⟨rfl, rfl⟩ := h
    exact ⟨rfl, rfl, rfl, by rw [w1]; rfl⟩
  · rcases A1 with ⟨r1, -⟩ | ⟨e1, -, z1, -⟩
    swap
    · omega
    rcases A2 with ⟨-, z2⟩ | ⟨e2, r2, -, w2⟩
    · omega
    simp only [r1, r2, Option.some.injEq, Prod.mk.injEq] at h
    obtain ⟨rfl, rfl⟩ := h
    exact ⟨rfl, rfl, rfl, by rw [w2]; rfl⟩
  · rcases A1 with ⟨r1, -⟩ | ⟨e1, -, z1, -⟩
    swap
    · omega
    rcases A2 with ⟨r2, -⟩ | ⟨e2, -, z2, -⟩
    swap
    · omega
    rcases A3 with ⟨-, z3⟩ | ⟨e3, r3, -, w3⟩
    · omega
    simp only [r1, r2, r3, Option.some.injEq, Prod.mk.injEq] at h
    obtain ⟨rfl, rfl⟩ := h
    exact ⟨rfl, rfl, rfl, by rw [w3]; rfl⟩
  · rcases A1 with ⟨r1, -⟩ | ⟨e1, -, z1, -⟩
    swap
    · omega
    rcases A2 with ⟨r2, -⟩ | ⟨e2, -, z2, -⟩
    swap
    · omega
    rcases A3 with ⟨r3, -⟩ | ⟨e3, -, z3, -⟩
    swap
    · omega
    rcases A4 with ⟨-, z4⟩ | ⟨e4, r4, -, w4⟩
    · omega
    simp only [r1, r2, r3, r4, Option.some.injEq, Prod.mk.injEq] at h
    obtain ⟨rfl, rfl⟩ := h
    exact ⟨rfl, rfl, rfl, by rw [w4]; rfl⟩
  · rcases A1 with ⟨r1, -⟩ | ⟨e1, -, z1, -⟩
    swap
    · omega
    rcases A2 with ⟨r2, -⟩ | ⟨e2, -, z2, -⟩
    swap
    · omega
    rcases A3 with ⟨r3, -⟩ | ⟨e3, -, z3, -⟩
    swap
    · omega
    rcases A4 with ⟨r4, -⟩ | ⟨e4, -, z4, -⟩
    swap
    · omega
    rcases A5 with ⟨-, z5⟩ | ⟨e5, r5, -, w5⟩
    · omega
    simp only [r1, r2, r3, r4, r5, Option.some.injEq, Prod.mk.injEq] at h
    obtain ⟨rfl, rfl⟩ := h
    exact ⟨rfl, rfl, rfl, by rw [w5]; rfl⟩
  · rcases A1 with ⟨r1, -⟩ | ⟨e1, -, z1, -⟩
    swap
    · omega
    rcases A2 with ⟨r2, -⟩ | ⟨e2, -, z2, -⟩
    swap
    · omega
    rcases A3 with ⟨r3, -⟩ | ⟨e3, -, z3, -⟩
    swap
    · omega
    rcases A4 with ⟨r4, -⟩ | ⟨e4, -, z4, -⟩
    swap
    · omega
    rcases A5 with ⟨r5, -⟩ | ⟨e5, -, z5, -⟩
    swap
    · omega
    rcases A6 with ⟨-, z6⟩ | ⟨e6, r6, -, w6⟩
    · omega
    simp only [r1, r2, r3, r4, r5, r6, Option.some.injEq, Prod.mk.injEq] at h
    obtain ⟨rfl, rfl⟩ := h
    exact ⟨rfl, rfl, rfl, by rw [w6]; rfl⟩
  all_goals rcases A1 with ⟨r1, -⟩ | ⟨e1, -, z1, -⟩
  all_goals first | omega | skip
  all_goals rcases A2 with ⟨r2, -⟩ | ⟨e2, -, z2, -⟩
  all_goals first | omega | skip
  all_goals rcases A3 with ⟨r3, -⟩ | ⟨e3, -, z3, -⟩
  all_goals first | omega | skip
  all_goals rcases A4 with ⟨r4, -⟩ | ⟨e4, -, z4, -⟩
  all_goals first | omega | skip
  all_goals rcases A5 with ⟨r5, -⟩ | ⟨e5, -, z5, -⟩
  all_goals first | omega | skip
  all_goals rcases A6 with ⟨r6, -⟩ | ⟨e6, -, z6, -⟩
  all_goals first | omega | skip
  all_goals simp only [r1, r2, r3, r4, r5, r6] at h
  · have hr : env.realloc = false := by simpa using h7
    simp only [hr, Bool.false_eq_true, ↓reduceIte, Option.some.injEq, Prod.mk.injEq] at h
    obtain ⟨rfl, rfl⟩ := h
    exact ⟨rfl, rfl, rfl, rfl⟩
  · have hr : env.realloc = true := by simpa using h7
    simp [hr] at h

/-- When the environment makes a step after `socket` fail, `UDPServer::init` takes the
failure exit of that step. -/
theorem UDPServer.initSocket_fails_udp (libc : Libc) (env : ListenEnv) (s : UDPServer) (k : Kernel)
    (maxMsgSize bdp : Int) (step : InitStep) (code : Int) (fd : Int) (hso : env.socket = .ok fd)
    (h : env.udpFailure bdp = some (step, code)) :
    (UDPServer.initSocket libc env s k maxMsgSize (int32 (bdp * 1024))).1 = -1 ∧
    (UDPServer.initSocket libc env s k maxMsgSize (int32 (bdp * 1024))).2.1.d_init = s.d_init ∧
    (UDPServer.initSocket libc env s k maxMsgSize (int32 (bdp * 1024))).2.1.d_fd = -1 ∧
    (UDPServer.initSocket libc env s k maxMsgSize (int32 (bdp * 1024))).2.1.d_status
      = setError libc s.d_status code step.udpText := by
  simp only [UDPServer.initSocket, UDPServer.initFail]
  have A1 := Kernel.setsockopt_cases k s.d_fd "SO_REUSEADDR" (env.setsockopt "SO_REUSEADDR")
  generalize k.setsockopt s.d_fd "SO_REUSEADDR" (env.setsockopt "SO_REUSEADDR") = o1 at A1 ⊢
  have A3 := Kernel.setsockopt_if_cases o1.2 s.d_fd "SO_SNDBUF" (env.setsockopt "SO_SNDBUF")
    (int32 (bdp * 1024) ≠ 0)
  generalize (if int32 (bdp * 1024) ≠ 0 then o1.2.setsockopt s.d_fd "SO_SNDBUF"
    (env.setsockopt "SO_SNDBUF") else (0, o1.2)) = o3 at A3 ⊢
  have A4 := Kernel.setsockopt_if_cases o3.2 s.d_fd "SO_RCVBUF" (env.setsockopt "SO_RCVBUF")
    (int32 (bdp * 1024) ≠ 0)
  generalize (if int32 (bdp * 1024) ≠ 0 then o3.2.setsockopt s.d_fd "SO_RCVBUF"
    (env.setsockopt "SO_RCVBUF") else (0, o3.2)) = o4 at A4 ⊢
  have A5 := Kernel.bind_cases o4.2 s.d_fd env.bind
  generalize o4.2.bind s.d_fd env.bind = o5 at A5 ⊢
  simp only [ListenEnv.udpFailure, hso] at h
  split_ifs with h1 h3 h4 h5 h7
  · rcases A1 with ⟨-, z1⟩ | ⟨e1, r1, -, w1⟩
    · omega
    simp only [r1, Option.some.injEq, Prod.mk.injEq] at h
    obtain ⟨rfl, rfl⟩ := h
    exact ⟨rfl, rfl, rfl, by rw [w1]; rfl⟩
  · rcases A1 with ⟨r1, -⟩ | ⟨e1, -, z1, -⟩
    swap
    · omega
    rcases A3 with ⟨-, z3⟩ | ⟨e3, r3, -, w3⟩
    · omega
    simp only [r1, r3, Option.some.injEq, Prod.mk.injEq] at h
    obtain ⟨rfl, rfl⟩ := h
    exact ⟨rfl, rfl, rfl, by rw [w3]; rfl⟩
  · rcases A1 with ⟨r1, -⟩ | ⟨e1, -, z1, -⟩
    swap
    · omega
    rcases A3 with ⟨r3, -⟩ | ⟨e3, -, z3, -⟩
    swap
    · omega
    rcases A4 with ⟨-, z4⟩ | ⟨e4, r4, -, w4⟩
    · omega
    simp only [r1, r3, r4, Option.some.injEq, Prod.mk.injEq] at h
    obtain ⟨rfl, rfl⟩ := h
    exact ⟨rfl, rfl, rfl, by rw [w4]; rfl⟩
  · rcases A1 with ⟨r1, -⟩ | ⟨e1, -, z1, -⟩
    swap
    · omega
    rcases A3 with ⟨r3, -⟩ | ⟨e3, -, z3, -⟩
    swap
    · omega
    rcases A4 with ⟨r4, -⟩ | ⟨e4, -, z4, -⟩
    swap
    · omega
    rcases A5 with ⟨-, z5⟩ | ⟨e5, r5, -, w5⟩
    · omega
    simp only [r1, r3, r4, r5, Option.some.injEq, Prod.mk.injEq] at h
    obtain ⟨rfl, rfl⟩ := h
    exact ⟨rfl, rfl, rfl, by rw [w5]; rfl⟩
  all_goals rcases A1 with ⟨r1, -⟩ | ⟨e1, -, z1, -⟩
  all_goals first | omega | skip
  all_goals rcases A3 with ⟨r3, -⟩ | ⟨e3, -, z3, -⟩
  all_goals first | omega | skip
  all_goals rcases A4 with ⟨r4, -⟩ | ⟨e4, -, z4, -⟩
  all_goals first | omega | skip
  all_goals rcases A5 with ⟨r5, -⟩ | ⟨e5, -, z5, -⟩
  all_goals first | omega | skip
  all_goals simp only [r1, r3, r4, r5] at h
  · have hr : env.realloc = false := by simpa using h7
    simp only [hr, Bool.false_eq_true, ↓reduceIte, Option.some.injEq, Prod.mk.injEq] at h
    obtain ⟨rfl, rfl⟩ := h
    exact ⟨rfl, rfl, rfl, rfl⟩
  · have hr : env.realloc = true := by simpa using h7
    simp [hr] at h

/-- A failing step makes `TCPServer::init` return `-1` with `d_init` false, `d_fd` equal to
`-1` and a report that names the step. -/
theorem TCPServer.init_fails (libc : Libc) (env : ListenEnv) (s : TCPServer) (k : Kernel)
    (port bufSize bdp : Int) (step : InitStep) (code : Int)
    (hfd : env.socket ≠ .ok (-1)) (h : env.tcpFailure bdp = some (step, code)) :
    (TCPServer.init libc env s k port bufSize bdp).1 = -1 ∧
    (TCPServer.init libc env s k port bufSize bdp).2.1.d_init = false ∧
    (TCPServer.init libc env s k port bufSize bdp).2.1.d_fd = -1 ∧
    (TCPServer.init libc env s k port bufSize bdp).2.1.d_status
      = setError libc s.d_status code step.tcpText := by
  unfold TCPServer.init
  simp only []
  generalize (if s.d_fd ≠ 0 then k.close s.d_fd else k) = k0
  have hs1 : (if s.d_fd ≠ 0 then
      ({ ({ s with d_init := false } : TCPServer) with d_fd := -1 } : TCPServer)
      else ({ s with d_init := false } : TCPServer)).d_status = s.d_status := by
    split_ifs <;> rfl
  have hs2 : (if s.d_fd ≠ 0 then
      ({ ({ s with d_init := false } : TCPServer) with d_fd := -1 } : TCPServer)
      else ({ s with d_init := false } : TCPServer)).d_init = false := by
    split_ifs <;> rfl
  generalize (if s.d_fd ≠ 0 then
      ({ ({ s with d_init := false } : TCPServer) with d_fd := -1 } : TCPServer)
      else ({ s with d_init := false } : TCPServer)) = s1 at hs1 hs2
  rcases hso : env.socket with e | fd
  · simp only [ListenEnv.tcpFailure, hso, Option.some.injEq, Prod.mk.injEq] at h
    obtain ⟨rfl, rfl⟩ := h
    simp [Kernel.socket, hs1, hs2, InitStep.tcpText]
  · have hne : fd ≠ -1 := by
      intro hc
      exact hfd (by rw [hso, hc])
    obtain ⟨g1, g2, g3, g4⟩ := TCPServer.initSocket_fails libc env
      ({ s1 with d_fd := fd } : TCPServer)
      ({ k0 with fds := Function.update k0.fds fd (some env.sock), trace := .socket fd :: k0.trace })
      bufSize bdp step code fd hso h
    simp only [Kernel.socket, hne, ↓reduceIte]
    exact ⟨g1, g2.trans hs2, g3, g4.trans (by rw [hs1])⟩

/-- A failing step makes `UDPServer::init` return `-1` with `d_init` false, `d_fd` equal to
`-1` and a report that names the step. -/
theorem UDPServer.init_fails_udp (libc : Libc) (env : ListenEnv) (s : UDPServer) (k : Kernel)
    (port maxMsgSize bdp : Int) (step : InitStep) (code : Int)
    (hfd : env.socket ≠ .ok (-1)) (h : env.udpFailure bdp = some (step, code)) :
    (UDPServer.init libc env s k port maxMsgSize bdp).1 = -1 ∧
    (UDPServer.init libc env s k port maxMsgSize bdp).2.1.d_init = false ∧
    (UDPServer.init libc env s k port maxMsgSize bdp).2.1.d_fd = -1 ∧
    (UDPServer.init libc env s k port maxMsgSize bdp).2.1.d_status
      = setError libc s.d_status code step.udpText := by
  unfold UDPServer.init
  simp only []
  generalize (if (s.d_init && decide (s.d_fd ≠ 0)) = true then k.close s.d_fd else k) = k0
  have hs1 : (if (s.d_init && decide (s.d_fd ≠ 0)) = true then
      ({ s with d_fd := -1 } : UDPServer) else s).d_status = s.d_status := by
    split_ifs <;> rfl
  generalize (if (s.d_init && decide (s.d_fd ≠ 0)) = true then
      ({ s with d_fd := -1 } : UDPServer) else s) = s1 at hs1
  rcases hso : env.socket with e | fd
  · simp only [ListenEnv.udpFailure, hso, Option.some.injEq, Prod.mk.injEq] at h
    obtain ⟨rfl, rfl⟩ := h
    simp [Kernel.socketDgram, hs1, InitStep.udpText]
  · have hne : fd ≠ -1 := by
      intro hc
      exact hfd (by rw [hso, hc])
    obtain ⟨g1, g2, g3, g4⟩ := UDPServer.initSocket_fails_udp libc env
      ({ ({ s1 with d_init := false } : UDPServer) with d_fd := fd } : UDPServer)
      ({ k0 with udp := Function.update k0.udp fd (some env.dsock), trace := .socket fd :: k0.trace })
      maxMsgSize bdp step code fd hso h
    simp only [Kernel.socketDgram, hne, ↓reduceIte]
    exact ⟨g1, g2, g3, g4.trans (by rw [hs1])⟩

theorem TCPServer.listener_negative (srv : TCPServer) (h : srv.d_fd < 0) :
    TCPServer.listener srv = none := by
  have hn : ¬ (0 ≤ srv.d_fd) := by omega
  simp [TCPServer.listener, FD_SET, hn]

theorem TCPServer.listener_valid (srv : TCPServer) (h : 0 ≤ srv.d_fd) :
    TCPServer.listener srv = some ({srv.d_fd}, srv.d_fd) := by
  simp [TCPServer.listener, FD_SET, h]

/-- With a negative `d_fd`, `TCPServer::doMessageCycle` leaves defined behaviour in its
`FD_SET`, whatever `d_init` is. -/
theorem TCPServer.doMessageCycle_negative (libc : Libc) (handler : Handler)
    (selects : List (Except Int Ready)) (srv : TCPServer) (k : Kernel) (h : srv.d_fd < 0) :
    TCPServer.doMessageCycle libc handler selects srv k = none := by
  simp only [TCPServer.doMessageCycle, TCPServer.listener_negative srv h]

theorem TCPServer.doMessageCycle_not_init (libc : Libc) (handler : Handler)
    (selects : List (Except Int Ready)) (srv : TCPServer) (k : Kernel) (hfd : 0 ≤ srv.d_fd)
    (h : srv.d_init = false) :
    TCPServer.doMessageCycle libc handler selects srv k =
      some (⟨⟨{ srv with
          d_status := setReport srv.d_status (-1) "sendAndReceive: server not initialized" },
          k, {srv.d_fd}, []⟩, srv.d_fd⟩, true) := by
  simp [TCPServer.doMessageCycle, TCPServer.listener_valid srv hfd, h]

theorem TCPServer.doMessageCycle_init (libc : Libc) (handler : Handler)
    (selects : List (Except Int Ready)) (srv : TCPServer) (k : Kernel) (hfd : 0 ≤ srv.d_fd)
    (h : srv.d_init = true) :
    TCPServer.doMessageCycle libc handler selects srv k =
      some (TCPServer.loop libc handler selects ⟨⟨srv, k, {srv.d_fd}, []⟩, srv.d_fd⟩) := by
  simp [TCPServer.doMessageCycle, TCPServer.listener_valid srv hfd, h]

theorem UDPServer.doMessageCycle_not_init_udp (libc : Libc) (handler : Handler)
    (cancels : List Bool) (srv : UDPServer) (k : Kernel) (h : srv.d_init = false) :
    UDPServer.doMessageCycle libc handler cancels srv k =
      (⟨{ srv with d_status := setReport srv.d_status (-1) "doMessageCycle: server not initialized" },
        k, []⟩, true) := by
  simp [UDPServer.doMessageCycle, h]

theorem TCPServer.readMessage_master (libc : Libc) (c : Cycle) (i : Int) :
    match TCPServer.readMessage libc c i with
    | .error c1 => c1.master = c.master.erase i ∧ c1.srv.d_fd = c.srv.d_fd
    | .ok (_, c1) => c1.master = c.master ∧ c1.srv.d_fd = c.srv.d_fd := by
  unfold TCPServer.readMessage
  simp only []
  split_ifs <;> exact ⟨rfl, rfl⟩

theorem TCPServer.reply_master (libc : Libc) (c : Cycle) (i : Int) (out : Option (List Byte))
    (len : Int) :
    ((TCPServer.reply libc c i out len).master = c.master ∨
      (TCPServer.reply libc c i out len).master = c.master.erase i) ∧
    (TCPServer.reply libc c i out len).srv.d_fd = c.srv.d_fd := by
  unfold TCPServer.reply
  cases out with
  | none => exact ⟨Or.inl rfl, rfl⟩
  | some o =>
    simp only []
    split_ifs
    · exact ⟨Or.inr rfl, rfl⟩
    · exact ⟨Or.inr rfl, rfl⟩
    · exact ⟨Or.inl rfl, rfl⟩

theorem TCPServer.clientMessage_master (libc : Libc) (handler : Handler) (c : Cycle) (i : Int) :
    ((TCPServer.clientMessage libc handler c i).master = c.master ∨
      (TCPServer.clientMessage libc handler c i).master = c.master.erase i) ∧
    (TCPServer.clientMessage libc handler c i).srv.d_fd = c.srv.d_fd := by
  have hr := TCPServer.readMessage_master libc c i
  unfold TCPServer.clientMessage
  cases hm : TCPServer.readMessage libc c i with
  | error c1 =>
    rw [hm] at hr
    exact ⟨Or.inr hr.1, hr.2⟩
  | ok p =>
    obtain ⟨m, c1⟩ := p
    rw [hm] at hr
    simp only []
    obtain ⟨g1, g2⟩ := TCPServer.reply_master libc
      { c1 with calls := (c1.srv.d_rcvBuf, m) :: c1.calls } i
      (handler c1.srv.d_rcvBuf m).1 (handler c1.srv.d_rcvBuf m).2
    refine ⟨?_, g2.trans hr.2⟩
    rcases g1 with g1 | g1
    · exact Or.inl (g1.trans hr.1)
    · exact Or.inr (g1.trans (by rw [← hr.1]))

theorem TCPServer.acceptClient_master (libc : Libc) (r : Ready) (st : Loop) :
    (TCPServer.acceptClient libc r st).c.srv.d_fd = st.c.srv.d_fd ∧
    st.c.master ⊆ (TCPServer.acceptClient libc r st).c.master := by
  unfold TCPServer.acceptClient
  simp only []
  by_cases h1 : (st.c.k.accept st.c.srv.d_fd r.accept).1 = -1
  · rw [if_pos h1]
    exact ⟨rfl, Finset.Subset.refl _⟩
  · rw [if_neg h1]
    exact ⟨rfl, Finset.subset_insert _ _⟩

theorem TCPServer.serveDescriptor_listening (libc : Libc) (handler : Handler)
    (readFds : Finset Int) (r : Ready) (st : Loop) (i : Int)
    (h : st.c.srv.d_fd ∈ st.c.master) :
    (TCPServer.serveDescriptor libc handler readFds r st i).c.srv.d_fd = st.c.srv.d_fd ∧
    st.c.srv.d_fd ∈ (TCPServer.serveDescriptor libc handler readFds r st i).c.master := by
  unfold TCPServer.serveDescriptor
  split_ifs with h1 h2
  · obtain ⟨g1, g2⟩ := TCPServer.acceptClient_master libc r st
    exact ⟨g1, g2 h⟩
  · obtain ⟨g1, g2⟩ := TCPServer.clientMessage_master libc handler st.c i
    refine ⟨g2, ?_⟩
    show st.c.srv.d_fd ∈ (TCPServer.clientMessage libc handler st.c i).master
    rcases g1 with g1 | g1
    · rw [g1]; exact h
    · rw [g1]; exact Finset.mem_erase.mpr ⟨fun hc => h2 hc.symm, h⟩
  · exact ⟨rfl, h⟩

theorem TCPServer.scan_listening (libc : Libc) (handler : Handler)
    (readFds : Finset Int) (r : Ready) (n : Nat) :
    ∀ (i : Int) (st : Loop), st.c.srv.d_fd ∈ st.c.master →
      (TCPServer.scan libc handler readFds r n i st).c.srv.d_fd = st.c.srv.d_fd ∧
      st.c.srv.d_fd ∈ (TCPServer.scan libc handler readFds r n i st).c.master := by
  induction n with
  | zero => intro i st h; exact ⟨rfl, h⟩
  | succ n ih =>
    intro i st h
    obtain ⟨g1, g2⟩ := TCPServer.serveDescriptor_listening libc handler readFds r st i h
    obtain ⟨e1, e2⟩ := ih (i + 1) (TCPServer.serveDescriptor libc handler readFds r st i)
      (by rw [g1]; exact g2)
    show (TCPServer.scan libc handler readFds r n (i + 1)
        (TCPServer.serveDescriptor libc handler readFds r st i)).c.srv.d_fd = _ ∧
      _ ∈ (TCPServer.scan libc handler readFds r n (i + 1)
        (TCPServer.serveDescriptor libc handler readFds r st i)).c.master
    exact ⟨e1.trans g1, by rw [← g1]; exact e2⟩

theorem TCPServer.loop_listening (libc : Libc) (handler : Handler)
    (selects : List (Except Int Ready)) :
    ∀ (st : Loop), st.c.srv.d_fd ∈ st.c.master →
      (TCPServer.loop libc handler selects st).1.c.srv.d_fd = st.c.srv.d_fd ∧
      st.c.srv.d_fd ∈ (TCPServer.loop libc handler selects st).1.c.master := by
  induction selects with
  | nil => intro st h; exact ⟨rfl, h⟩
  | cons a rest ih =>
    intro st h
    cases a with
    | error e => exact ⟨rfl, h⟩
    | ok r =>
      obtain ⟨g1, g2⟩ := TCPServer.scan_listening libc handler (r.fds ∩ st.c.master) r
        (st.fdMax + 1).toNat 0 { st with c := { st.c with k := (st.c.k.select none).2 } } h
      obtain ⟨e1, e2⟩ := ih _ (by rw [g1]; exact g2)
      show (TCPServer.loop libc handler rest _).1.c.srv.d_fd = _ ∧
        _ ∈ (TCPServer.loop libc handler rest _).1.c.master
      exact ⟨e1.trans g1, by
        have := e2
        rw [g1] at this
        exact this⟩

theorem TCPServer.loop_left (libc : Libc) (handler : Handler)
    (selects : List (Except Int Ready)) :
    ∀ (st : Loop), (TCPServer.loop libc handler selects st).2 = true ↔
      ∃ e, Except.error e ∈ selects := by
  induction selects with
  | nil => intro st; simp [TCPServer.loop]
  | cons a rest ih =>
    intro st
    cases a with
    | error e =>
      simp only [TCPServer.loop, true_iff]
      exact ⟨e, List.mem_cons_self _ _⟩
    | ok r =>
      simp only [TCPServer.loop]
      rw [ih]
      constructor
      · rintro ⟨e, he⟩
        exact ⟨e, List.mem_cons_of_mem _ he⟩
      · rintro ⟨e, he⟩
        rcases List.mem_cons.mp he with h | h
        · cases h
        · exact ⟨e, h⟩

/-- A run of `TCPClient::init` either returns `-1` with `d_init` false and without a `send`,
or returns `0` with `d_init` true, a fresh descriptor for the connection handed out by the
environment, and the configuration it was given. -/
theorem TCPClient.init_spec (libc : Libc) (env : InitEnv) (c : TCPClient) (k : Kernel)
    (serverIp : String) (port : Int) (timeout : Timeval) (bdp : Int) :
    ((TCPClient.init libc env c k serverIp port timeout bdp).1 = -1 ∧
      (TCPClient.init libc env c k serverIp port timeout bdp).2.1.d_init = false ∧
      (TCPClient.init libc env c k serverIp port timeout bdp).2.2.trace.filter Syscall.isSend
        = k.trace.filter Syscall.isSend) ∨
    ((TCPClient.init libc env c k serverIp port timeout bdp).1 = 0 ∧
      (TCPClient.init libc env c k serverIp port timeout bdp).2.1.d_init = true ∧
      env.socket = .ok (TCPClient.init libc env c k serverIp port timeout bdp).2.1.d_fd ∧
      (TCPClient.init libc env c k serverIp port timeout bdp).2.2.fds
        (TCPClient.init libc env c k serverIp port timeout bdp).2.1.d_fd = some env.conn ∧
      (TCPClient.init libc env c k serverIp port timeout bdp).2.2.trace.filter Syscall.isSend
        = k.trace.filter Syscall.isSend ∧
      (TCPClient.init libc env c k serverIp port timeout bdp).2.1.d_recvTimeout = timeout ∧
      (TCPClient.init libc env c k serverIp port timeout bdp).2.1.d_bdp = bdp ∧
      (TCPClient.init libc env c k serverIp port timeout bdp).2.1.d_serverPort = port ∧
      (c.d_serverName = some serverIp →
        (TCPClient.init libc env c k serverIp port timeout bdp).2.1.d_serverName
          = some serverIp)) := by
  rcases TCPClient.init_cases libc env c k serverIp port timeout bdp with
    ⟨h1, h2, h3, -⟩ | ⟨c1, k1, addr, heq, hinit, hsock, hfds, hsend, ht, hb, hp, hname⟩
  · exact Or.inl ⟨h1, h2, h3⟩
  · rw [heq]
    obtain ⟨hcase, g1, g2, g3, g4, g5⟩ := TCPClient.initSocket_spec libc env c1 k1 port addr
    rcases hcase with ⟨a1, a2, -⟩ | ⟨a1, a2, a3, -, a5⟩
    · exact Or.inl ⟨a1, a2.trans hinit, g5.trans hsend⟩
    · refine Or.inr ⟨a1, a2, by rw [a3]; exact hsock, by rw [a3, a5]; exact hfds,
        g5.trans hsend, g3.trans ht, g4.trans hb, g2.trans hp, ?_⟩
      intro hn
      exact g1.trans (hname hn).1

theorem TCPClient.sendAndReceive_not_init (libc : Libc) (env : InitEnv) (c : TCPClient)
    (k : Kernel) (outMsgBuf : Option (List Byte)) (outMsgLen : Int)
    (inMsgBuf : Option (List Byte)) (inBufLen v : Int) (h : c.d_init = false) :
    TCPClient.sendAndReceive libc env c k outMsgBuf outMsgLen inMsgBuf inBufLen v =
      ⟨-1, inMsgBuf, v,
        { c with d_status := setReport c.d_status (-1) "sendAndReceive: client not initialized" },
        k⟩ := by
  rw [sendAndReceive_eq]
  simp [TCPClient.connected, h]

theorem TCPClient.sendAndReceive_connected (libc : Libc) (env : InitEnv) (c : TCPClient)
    (k : Kernel) (outMsgBuf : Option (List Byte)) (outMsgLen : Int)
    (inMsgBuf : Option (List Byte)) (inBufLen v : Int)
    (hinit : c.d_init = true) (hopen : k.isOpen c.d_fd = true) :
    TCPClient.sendAndReceive libc env c k outMsgBuf outMsgLen inMsgBuf inBufLen v =
      TCPClient.exchange libc c { k with trace := .fcntl c.d_fd 0 :: k.trace }
        outMsgBuf outMsgLen inMsgBuf inBufLen v := by
  rw [sendAndReceive_eq, connected_probe_ok libc env c k hinit hopen]

theorem TCPClient.sendAndReceive_reconnect (libc : Libc) (env : InitEnv) (c : TCPClient)
    (k : Kernel) (outMsgBuf : Option (List Byte)) (outMsgLen : Int)
    (inMsgBuf : Option (List Byte)) (inBufLen v : Int)
    (hinit : c.d_init = true) (hprobe : k.isOpen c.d_fd = false) :
    TCPClient.sendAndReceive libc env c k outMsgBuf outMsgLen inMsgBuf inBufLen v =
      if (TCPClient.init libc env c (k.fcntl c.d_fd).2 (c.d_serverName.getD "")
          c.d_serverPort c.d_recvTimeout c.d_bdp).1 = -1
      then ⟨-1, inMsgBuf, v,
        (TCPClient.init libc env c (k.fcntl c.d_fd).2 (c.d_serverName.getD "")
          c.d_serverPort c.d_recvTimeout c.d_bdp).2.1,
        (TCPClient.init libc env c (k.fcntl c.d_fd).2 (c.d_serverName.getD "")
          c.d_serverPort c.d_recvTimeout c.d_bdp).2.2⟩
      else TCPClient.exchange libc
        (TCPClient.init libc env c (k.fcntl c.d_fd).2 (c.d_serverName.getD "")
          c.d_serverPort c.d_recvTimeout c.d_bdp).2.1
        (TCPClient.init libc env c (k.fcntl c.d_fd).2 (c.d_serverName.getD "")
          c.d_serverPort c.d_recvTimeout c.d_bdp).2.2
        outMsgBuf outMsgLen inMsgBuf inBufLen v := by
  rw [sendAndReceive_eq,
    connected_probe_fails libc env c k hinit ((Kernel.fcntl_fails_iff k c.d_fd).mpr hprobe)]
  split_ifs <;> rfl

theorem TCPClient.connected_ok_init (libc : Libc) (env : InitEnv) (c : TCPClient) (k : Kernel)
    (c0 : TCPClient) (k0 : Kernel) (h : TCPClient.connected libc env c k = .ok (c0, k0)) :
    c0.d_init = true := by
  unfold TCPClient.connected at h
  by_cases h1 : c.d_init = true
  · by_cases h2 : (k.fcntl c.d_fd).1 = -1
    · simp only [h1, h2, Bool.not_true, Bool.false_eq_true, ↓reduceIte] at h
      rcases TCPClient.init_spec libc env c (k.fcntl c.d_fd).2 (c.d_serverName.getD "")
        c.d_serverPort c.d_recvTimeout c.d_bdp with ⟨a1, -⟩ | ⟨a1, a2, -⟩
      · simp [a1] at h
      · have hne : ¬ ((0 : Int) = -1) := by decide
        simp only [a1, hne, ↓reduceIte, Except.ok.injEq, Prod.mk.injEq] at h
        rw [← h.1]; exact a2
    · simp only [h1, h2, Bool.not_true, Bool.false_eq_true, ↓reduceIte, Except.ok.injEq,
        Prod.mk.injEq] at h
      rw [← h.1]; exact h1
  · simp [h1] at h

theorem Kernel.send_filter_isConnect (k : Kernel) (fd : Int) (src : Mem) (data : List Byte)
    (len : Int) :
    (k.send fd src data len).2.trace.filter Syscall.isConnect
      = k.trace.filter Syscall.isConnect := by
  rw [Kernel.send_trace]; simp [Syscall.isConnect]

theorem Kernel.recv_filter_isConnect (k : Kernel) (fd : Int) (dst : Mem) (len : Int) :
    (k.recv fd dst len).2.2.trace.filter Syscall.isConnect
      = k.trace.filter Syscall.isConnect := by
  rw [Kernel.recv_trace]; simp [Syscall.isConnect]

theorem Kernel.close_filter_isConnect (k : Kernel) (fd : Int) :
    (k.close fd).trace.filter Syscall.isConnect = k.trace.filter Syscall.isConnect :=
  Kernel.close_trace_filter k fd Syscall.isConnect (fun _ => rfl)

theorem writeLoop_filter_isConnect (n : Nat) (k : Kernel) (fd : Int) (out : List Byte)
    (m t : Int) :
    (writeLoop n k fd out m t).2.trace.filter Syscall.isConnect
      = k.trace.filter Syscall.isConnect :=
  writeLoop_preserves
    (fun k1 => k1.trace.filter Syscall.isConnect = k.trace.filter Syscall.isConnect) fd
    (fun k1 src data len h => (Kernel.send_filter_isConnect k1 fd src data len).trans h)
    out m n k t rfl

theorem readLoop_filter_isConnect (n : Nat) (k : Kernel) (fd : Int) (buf : List Byte)
    (m t : Int) :
    (readLoop n k fd buf m t).2.2.trace.filter Syscall.isConnect
      = k.trace.filter Syscall.isConnect :=
  readLoop_preserves
    (fun k1 => k1.trace.filter Syscall.isConnect = k.trace.filter Syscall.isConnect) fd
    (fun k1 dst len h => (Kernel.recv_filter_isConnect k1 fd dst len).trans h)
    m n k buf t rfl

/-- No part of the exchange after the probe issues a `socket` or a `connect`. -/
theorem TCPClient.exchange_filter_isConnect (libc : Libc) (c : TCPClient) (k : Kernel)
    (outMsgBuf : Option (List Byte)) (outMsgLen : Int)
    (inMsgBuf : Option (List Byte)) (inBufLen v : Int) :
    (TCPClient.exchange libc c k outMsgBuf outMsgLen inMsgBuf inBufLen v).k.trace.filter
      Syscall.isConnect = k.trace.filter Syscall.isConnect := by
  unfold TCPClient.exchange TCPClient.writeRequest
  cases outMsgBuf with
  | none => rfl
  | some out =>
    simp only []
    have e1 := Kernel.send_filter_isConnect k c.d_fd .var (intBytes outMsgLen) 4
    generalize k.send c.d_fd .var (intBytes outMsgLen) 4 = s at e1 ⊢
    have e2 := (writeLoop_filter_isConnect 3 s.2 c.d_fd out outMsgLen 0).trans e1
    generalize writeLoop 3 s.2 c.d_fd out outMsgLen 0 = w at e2 ⊢
    by_cases h1 : s.1 < 4
    · simp only [h1, ↓reduceIte]
      exact (Kernel.close_filter_isConnect _ _).trans e1
    · by_cases h2 : w.1 < outMsgLen
      · simp only [h1, h2, ↓reduceIte]
        exact (Kernel.close_filter_isConnect _ _).trans e2
      · simp only [h1, h2, ↓reduceIte]
        cases inMsgBuf with
        | none => exact e2
        | some inBuf =>
          simp only [TCPClient.receiveReply]
          have e3 := (Kernel.recv_filter_isConnect w.2 c.d_fd .var 4).trans e2
          generalize w.2.recv c.d_fd .var 4 = h at e3 ⊢
          have e4 := fun m => (readLoop_filter_isConnect 3 h.2.2 c.d_fd inBuf m 0).trans e3
          split_ifs
          · exact (Kernel.close_filter_isConnect _ _).trans e3
          · exact (Kernel.close_filter_isConnect _ _).trans e3
          · exact (Kernel.close_filter_isConnect _ _).trans (e4 _)
          · exact e4 _

/-- Every failure of a `send` or `recv` in the exchange ends it with `-1` and with the
descriptor closed; the object is changed in `d_status` only. -/
theorem TCPClient.exchange_io_failure (libc : Libc) (c : TCPClient) (k : Kernel)
    (out : List Byte) (outMsgLen : Int) (inMsgBuf : Option (List Byte)) (inBufLen v : Int)
    (hfail : (k.send c.d_fd .var (intBytes outMsgLen) 4).1 < 4 ∨
      (writeLoop 3 (k.send c.d_fd .var (intBytes outMsgLen) 4).2 c.d_fd out outMsgLen 0).1
        < outMsgLen ∨
      (∃ inBuf, inMsgBuf = some inBuf ∧
        ((writeLoop 3 (k.send c.d_fd .var (intBytes outMsgLen) 4).2 c.d_fd out outMsgLen 0).2.recv
          c.d_fd .var 4).1 < 4) ∨
      (∃ inBuf, inMsgBuf = some inBuf ∧
        (readLoop 3
          ((writeLoop 3 (k.send c.d_fd .var (intBytes outMsgLen) 4).2 c.d_fd out outMsgLen 0).2.recv
            c.d_fd .var 4).2.2 c.d_fd inBuf
          (bytesInt (((writeLoop 3 (k.send c.d_fd .var (intBytes outMsgLen) 4).2 c.d_fd out
              outMsgLen 0).2.recv c.d_fd .var 4).2.1 ++
            (intBytes v).drop ((writeLoop 3 (k.send c.d_fd .var (intBytes outMsgLen) 4).2 c.d_fd
              out outMsgLen 0).2.recv c.d_fd .var 4).2.1.length)) 0).1
        < bytesInt (((writeLoop 3 (k.send c.d_fd .var (intBytes outMsgLen) 4).2 c.d_fd out
              outMsgLen 0).2.recv c.d_fd .var 4).2.1 ++
            (intBytes v).drop ((writeLoop 3 (k.send c.d_fd .var (intBytes outMsgLen) 4).2 c.d_fd
              out outMsgLen 0).2.recv c.d_fd .var 4).2.1.length))) :
    (TCPClient.exchange libc c k (some out) outMsgLen inMsgBuf inBufLen v).ret = -1 ∧
    (TCPClient.exchange libc c k (some out) outMsgLen inMsgBuf inBufLen v).k.isOpen c.d_fd
      = false ∧
    (∃ st, (TCPClient.exchange libc c k (some out) outMsgLen inMsgBuf inBufLen v).client
      = { c with d_status := st }) := by
  unfold TCPClient.exchange TCPClient.writeRequest
  simp only []
  generalize k.send c.d_fd .var (intBytes outMsgLen) 4 = s at hfail ⊢
  generalize writeLoop 3 s.2 c.d_fd out outMsgLen 0 = w at hfail ⊢
  by_cases h1 : s.1 < 4
  · simp only [h1, ↓reduceIte]
    exact ⟨trivial, Kernel.close_isOpen _ _, _, rfl⟩
  · by_cases h2 : w.1 < outMsgLen
    · simp only [h1, h2, ↓reduceIte]
      exact ⟨trivial, Kernel.close_isOpen _ _, _, rfl⟩
    · simp only [h1, h2, ↓reduceIte]
      rcases hfail with hf | hf | ⟨inBuf, rfl, hf⟩ | ⟨inBuf, rfl, hf⟩
      · exact absurd hf h1
      · exact absurd hf h2
      · simp only [TCPClient.receiveReply, hf, ↓reduceIte]
        exact ⟨trivial, Kernel.close_isOpen _ _, _, rfl⟩
      · simp only [TCPClient.receiveReply]
        generalize w.2.recv c.d_fd .var 4 = h at hf ⊢
        by_cases h3 : h.1 < 4
        · simp only [h3, ↓reduceIte]
          exact ⟨trivial, Kernel.close_isOpen _ _, _, rfl⟩
        · by_cases h4 : bytesInt (h.2.1 ++ (intBytes v).drop h.2.1.length) > inBufLen
          · simp only [h3, h4, ↓reduceIte]
            exact ⟨trivial, Kernel.close_isOpen _ _, _, rfl⟩
          · simp only [h3, h4, hf, ↓reduceIte]
            exact ⟨trivial, Kernel.close_isOpen _ _, _, rfl⟩

theorem TCPClient.writeRequest_lossless (libc : Libc) (c : TCPClient) (k : Kernel)
    (s : Sock) (out : List Byte) (h : k.fds c.d_fd = some s) (hp : s.sendPlan = []) :
    ∃ k1, TCPClient.writeRequest libc c k (some out) out.length = .ok (c, k1) ∧
      k1.fds c.d_fd = some { s with tx := s.tx ++ intBytes out.length ++ out } ∧
      k1 = (writeLoop 3 (k.send c.d_fd .var (intBytes out.length) 4).2 c.d_fd out out.length 0).2 := by
  have hs := Kernel.send_lossless k c.d_fd .var (intBytes out.length) 4 s h hp
  have h4 : (intBytes (out.length : Int)).take (4 : Int).toNat = intBytes out.length := rfl
  rw [h4] at hs
  simp only [intBytes_length] at hs
  generalize hk1 : ({ k with
      fds := Function.update k.fds c.d_fd (some { s with tx := s.tx ++ intBytes out.length })
      trace := Syscall.send c.d_fd Mem.var 4 ((4 : Nat) : Int) :: k.trace } : Kernel) = k1 at hs
  have hk1i : k1.fds c.d_fd = some { s with tx := s.tx ++ intBytes out.length } := by
    rw [← hk1]; simp
  obtain ⟨hw1, hw2⟩ := writeLoop_lossless 2 k1 c.d_fd out _ hk1i hp
  refine ⟨(writeLoop 3 k1 c.d_fd out out.length 0).2, ?_, ?_, ?_⟩
  · simp only [TCPClient.writeRequest, hs]
    simp [hw1]
  · simpa using hw2
  · rw [hs]

/-- The exchange over a transport that moves every byte requested, with a peer that answers
the request `P` with the reply `R`. -/
theorem TCPClient.exchange_lossless (libc : Libc) (c : TCPClient) (k : Kernel) (s : Sock)
    (P R rest inBuf : List Byte) (inBufLen v : Int)
    (h : k.fds c.d_fd = some s) (hsp : s.sendPlan = []) (hrp : s.recvPlan = [])
    (hrx : (s.peer (s.tx ++ intBytes P.length ++ P)).drop s.rxPos = intBytes R.length ++ R ++ rest)
    (hcap : (R.length : Int) ≤ inBufLen) (hint : (R.length : Int) < 2147483648) :
    (TCPClient.exchange libc c k (some P) P.length (some inBuf) inBufLen v).ret = 0 ∧
    (TCPClient.exchange libc c k (some P) P.length (some inBuf) inBufLen v).inMsgLen = R.length ∧
    (∃ b, (TCPClient.exchange libc c k (some P) P.length (some inBuf) inBufLen v).inMsgBuf = some b ∧
      b.take R.length = R) ∧
    (TCPClient.exchange libc c k (some P) P.length (some inBuf) inBufLen v).client = c := by
  obtain ⟨k1, hw, hk1, -⟩ := TCPClient.writeRequest_lossless libc c k s P h hsp
  obtain ⟨g1, g2, g3, g4, -⟩ := receiveReply_lossless libc c k1
    { s with tx := s.tx ++ intBytes P.length ++ P } R rest inBuf inBufLen v hk1 hrp hrx hcap hint
  simp only [TCPClient.exchange, hw]
  exact ⟨g1, g2, g3, g4⟩

theorem Kernel.fcntl_filter_isSend (k : Kernel) (fd : Int) :
    (k.fcntl fd).2.trace.filter Syscall.isSend = k.trace.filter Syscall.isSend := by
  unfold Kernel.fcntl
  split <;> simp [Syscall.isSend]

/-- On a connection on which no further byte arrives, with the request written in full, the
`recv` of the reply length returns `0`. -/
theorem TCPClient.reply_length_after_peer_close (libc : Libc) (c : TCPClient) (k : Kernel)
    (s : Sock)
    (out : List Byte) (h : k.fds c.d_fd = some s) (hsp : s.sendPlan = [])
    (hrp : s.recvPlan = []) (hclosed : ∀ t, (s.peer t).drop s.rxPos = []) :
    ((writeLoop 3 (k.send c.d_fd .var (intBytes out.length) 4).2 c.d_fd out out.length 0).2.recv
      c.d_fd .var 4).1 < 4 := by
  obtain ⟨k1, -, hk1, hk1eq⟩ := TCPClient.writeRequest_lossless libc c k s out h hsp
  rw [← hk1eq]
  have hr := Kernel.recv_lossless k1 c.d_fd .var 4 _ hk1 hrp
  rw [hr]
  show (((List.drop s.rxPos (s.peer (s.tx ++ intBytes out.length ++ out))).take
    (4 : Int).toNat).length : Int) < 4
  rw [hclosed]
  decide

theorem RecursiveMutex.run_append (t : Nat) (a b : List RecursiveMutex.Act) :
    ∀ m : RecursiveMutex, RecursiveMutex.run t m (a ++ b)
      = (RecursiveMutex.run t m a).bind (fun m1 => RecursiveMutex.run t m1 b) := by
  induction a with
  | nil => intro m; rfl
  | cons x rest ih =>
    intro m
    cases x with
    | lock =>
      simp only [List.cons_append, RecursiveMutex.run]
      cases m.lock t with
      | none => rfl
      | some m1 => exact ih m1
    | tryLock =>
      simp only [List.cons_append, RecursiveMutex.run]
      split_ifs
      · exact ih _
      · rfl
    | unlock =>
      simp only [List.cons_append, RecursiveMutex.run]
      exact ih _

/-- Nested `lock` calls of the owner add to the recursion count modulo `UINT`. -/
theorem RecursiveMutex.run_locks_owner (t : Nat) (n : Nat) :
    ∀ c : Nat, RecursiveMutex.run t ⟨c, t⟩ (List.replicate n .lock) = some ⟨(c + n) % UINT, t⟩ ∨
      (n = 0 ∧ RecursiveMutex.run t ⟨c, t⟩ (List.replicate n .lock) = some ⟨c, t⟩) := by
  induction n with
  | zero => intro c; exact Or.inr ⟨rfl, rfl⟩
  | succ n ih =>
    intro c
    left
    simp only [List.replicate_succ, RecursiveMutex.run, RecursiveMutex.lock, ↓reduceIte]
    rcases ih ((c + 1) % UINT) with h | ⟨h0, h⟩
    · rw [h]
      have e : ((c + 1) % UINT + n) % UINT = (c + (n + 1)) % UINT := by
        rw [Nat.mod_add_mod, Nat.add_assoc, Nat.add_comm 1 n]
      first
        | done
        | rw [e]
    · subst h0
      rw [h]

theorem RecursiveMutex.locks_append (a b : List RecursiveMutex.Act) :
    RecursiveMutex.locks (a ++ b) = RecursiveMutex.locks a + RecursiveMutex.locks b := by
  simp [RecursiveMutex.locks]

theorem RecursiveMutex.unlocks_append (a b : List RecursiveMutex.Act) :
    RecursiveMutex.unlocks (a ++ b) = RecursiveMutex.unlocks a + RecursiveMutex.unlocks b := by
  simp [RecursiveMutex.unlocks]

/-- The state after a balanced run of one thread on a new mutex: the recursion count is the
number of acquisitions still to be undone, and the owner is the thread unless that number
is zero. -/
theorem RecursiveMutex.run_balanced (t : Nat) (ht : t ≠ 0) (acts : List RecursiveMutex.Act) :
    (∀ k, RecursiveMutex.unlocks (acts.take k) ≤ RecursiveMutex.locks (acts.take k) ∧
      RecursiveMutex.locks (acts.take k) - RecursiveMutex.unlocks (acts.take k) < UINT) →
    RecursiveMutex.run t RecursiveMutex.new acts
      = some ⟨RecursiveMutex.locks acts - RecursiveMutex.unlocks acts,
          if RecursiveMutex.locks acts - RecursiveMutex.unlocks acts = 0 then 0 else t⟩ := by
  induction acts using List.reverseRecOn with
  | nil => intro _; rfl
  | append_singleton l a ih =>
    intro h
    have hl : ∀ k, RecursiveMutex.unlocks (l.take k) ≤ RecursiveMutex.locks (l.take k) ∧
        RecursiveMutex.locks (l.take k) - RecursiveMutex.unlocks (l.take k) < UINT := by
      intro k
      by_cases hk : k ≤ l.length
      · have := h k
        rwa [List.take_append_of_le_length hk] at this
      · have := h l.length
        rw [List.take_append_of_le_length (le_refl _), List.take_length] at this
        rw [List.take_of_length_le (by omega)]
        exact this
    have hprev := hl l.length
    rw [List.take_length] at hprev
    have hall := h (l ++ [a]).length
    rw [List.take_length, RecursiveMutex.locks_append, RecursiveMutex.unlocks_append] at hall
    rw [RecursiveMutex.run_append, ih hl, RecursiveMutex.locks_append,
      RecursiveMutex.unlocks_append]
    generalize RecursiveMutex.locks l = n at hprev hall ⊢
    generalize RecursiveMutex.unlocks l = m at hprev hall ⊢
    have hu : UINT = 4294967296 := rfl
    cases a with
    | lock =>
      have e1 : RecursiveMutex.locks [RecursiveMutex.Act.lock] = 1 := rfl
      have e2 : RecursiveMutex.unlocks [RecursiveMutex.Act.lock] = 0 := rfl
      rw [e1, e2] at hall ⊢
      simp only [Option.some_bind, RecursiveMutex.run, RecursiveMutex.lock, Nat.add_zero]
      by_cases hz : n - m = 0
      · have hne : ¬ ((0 : Nat) = t) := fun hc => ht hc.symm
        have h1 : n + 1 - m = 1 := by omega
        simp [hz, hne, h1]
      · have h1 : ¬ (n + 1 - m = 0) := by omega
        have h2 : (n - m + 1) % UINT = n + 1 - m := by
          rw [Nat.mod_eq_of_lt (by omega)]; omega
        simp [hz, h1, h2]
    | tryLock =>
      have e1 : RecursiveMutex.locks [RecursiveMutex.Act.tryLock] = 1 := rfl
      have e2 : RecursiveMutex.unlocks [RecursiveMutex.Act.tryLock] = 0 := rfl
      rw [e1, e2] at hall ⊢
      simp only [Option.some_bind, RecursiveMutex.run, RecursiveMutex.tryLock, Nat.add_zero]
      by_cases hz : n - m = 0
      · have hne : ¬ ((0 : Nat) = t) := fun hc => ht hc.symm
        have h1 : n + 1 - m = 1 := by omega
        simp [hz, hne, h1]
      · have h1 : ¬ (n + 1 - m = 0) := by omega
        have h2 : (n - m + 1) % UINT = n + 1 - m := by
          rw [Nat.mod_eq_of_lt (by omega)]; omega
        simp [hz, h1, h2]
    | unlock =>
      have e1 : RecursiveMutex.locks [RecursiveMutex.Act.unlock] = 0 := rfl
      have e2 : RecursiveMutex.unlocks [RecursiveMutex.Act.unlock] = 1 := rfl
      rw [e1, e2] at hall ⊢
      simp only [Option.some_bind, RecursiveMutex.run, RecursiveMutex.unlock, Nat.add_zero]
      have hz : ¬ (n - m = 0) := by omega
      have h2 : (n - m + UINT - 1) % UINT = n - (m + 1) := by
        have : n - m + UINT - 1 = (n - (m + 1)) + UINT := by omega
        rw [this, Nat.add_mod_right, Nat.mod_eq_of_lt (by omega)]
      simp only [hz, ↓reduceIte, h2]
      by_cases hz2 : n - (m + 1) = 0
      · simp [hz2]
      · simp [hz2]

theorem StatusReport.allocated_iff (s : StatusReport) :
    s.allocated = true ↔
      s.d_maxNumMsgs < 2147483648 ∧ s.d_reportNum < UINT ∧
      s.d_maxNumMsgs ≤ s.d_messages.length ∧
      ∀ i, i < s.d_maxNumMsgs →
        ∃ slot, s.d_messages.get? i = some slot ∧ slot.message.isSome = true := by
  unfold StatusReport.allocated
  simp only [Bool.and_eq_true, decide_eq_true_eq, List.all_eq_true, List.get?_eq_getElem?]
  constructor
  · rintro ⟨⟨⟨h1, h2⟩, h3⟩, h4⟩
    refine ⟨h1, h2, h3, ?_⟩
    intro i hi
    have hlt : i < s.d_messages.length := by omega
    refine ⟨s.d_messages[i], List.getElem?_eq_getElem hlt, ?_⟩
    apply h4
    rw [List.mem_iff_getElem?]
    exact ⟨i, by rw [List.getElem?_take_of_lt hi, List.getElem?_eq_getElem hlt]⟩
  · rintro ⟨h1, h2, h3, h4⟩
    refine ⟨⟨⟨h1, h2⟩, h3⟩, ?_⟩
    intro x hx
    rw [List.mem_iff_getElem?] at hx
    obtain ⟨n, hn⟩ := hx
    by_cases hlt : n < s.d_maxNumMsgs
    · rw [List.getElem?_take_of_lt hlt] at hn
      obtain ⟨slot, g1, g2⟩ := h4 n hlt
      rw [hn] at g1
      cases g1
      exact g2
    · rw [List.getElem?_take_eq_none (by omega)] at hn
      cases hn

/-- The element that `setReport` writes is number `d_reportNum % d_maxNumMsgs`, counted with
the value of `d_reportNum` before the call. -/
theorem StatusReport.setIndex_incremented (s : StatusReport) (h2 : s.d_reportNum < UINT)
    (h1 : s.d_maxNumMsgs < 2147483648) (hmax : 1 ≤ s.d_maxNumMsgs) :
    ({ s with d_reportNum := (s.d_reportNum + 1) % UINT } : StatusReport).setIndex
      = some ((s.d_reportNum % s.d_maxNumMsgs : Nat) : Int) := by
  have hu : UINT = 4294967296 := rfl
  have hne : ¬ s.d_maxNumMsgs = 0 := by omega
  have hr : ((s.d_reportNum + 1) % UINT + UINT - 1) % UINT = s.d_reportNum := by
    by_cases hw : s.d_reportNum + 1 < UINT
    · rw [Nat.mod_eq_of_lt hw]
      have : s.d_reportNum + 1 + UINT - 1 = s.d_reportNum + UINT := by omega
      rw [this, Nat.add_mod_right, Nat.mod_eq_of_lt h2]
    · have he : s.d_reportNum + 1 = UINT := by omega
      rw [he, Nat.mod_self, Nat.zero_add, Nat.mod_eq_of_lt (by omega)]
      omega
  have hlt : s.d_reportNum % s.d_maxNumMsgs < s.d_maxNumMsgs := Nat.mod_lt _ (by omega)
  simp only [StatusReport.setIndex, hne, ↓reduceIte, hr, toInt32]
  have : s.d_reportNum % s.d_maxNumMsgs < 2147483648 := by omega
  simp [this]

/-- A call of `setReport` that is not discarded writes its element and nothing else. -/
theorem StatusReport.setReport_stores (s : StatusReport) (code : Int) (message : Option String)
    (now : Timespec) (h : s.allocated = true) (hmax : 1 ≤ s.d_maxNumMsgs)
    (hlen : 0 ≤ s.d_maxMsgLen)
    (hkeep : ¬ (s.d_bufferType = .SR_LINEAR ∧ (s.d_reportNum + 1) % UINT > s.d_maxNumMsgs)) :
    s.setReport code message now =
      .ok { s with d_reportNum := (s.d_reportNum + 1) % UINT
                   d_messages := s.d_messages.set (s.d_reportNum % s.d_maxNumMsgs)
                     ⟨now, some (s.stored message), code⟩ } := by
  obtain ⟨h1, h2, h3, h4⟩ := (StatusReport.allocated_iff s).mp h
  have hidx := StatusReport.setIndex_incremented s h2 h1 hmax
  have hlt : s.d_reportNum % s.d_maxNumMsgs < s.d_maxNumMsgs := Nat.mod_lt _ (by omega)
  obtain ⟨slot, g1, g2⟩ := h4 _ hlt
  have hnn : ¬ (((s.d_reportNum % s.d_maxNumMsgs : Nat) : Int) < 0) := by omega
  have hlen2 : ¬ s.d_maxMsgLen < 0 := by omega
  have g3 : slot.message.isNone = false := by
    cases hs : slot.message with
    | none => rw [hs] at g2; cases g2
    | some _ => rfl
  unfold StatusReport.setReport
  simp only [hkeep, ↓reduceIte, hidx, hnn, Int.toNat_ofNat, g1, g3, Bool.false_eq_true, hlen2]
  rfl

/-- In the same situation with a negative `d_maxMsgLen` the call writes outside the block. -/
theorem StatusReport.setReport_outside_block (s : StatusReport) (code : Int)
    (message : Option String) (now : Timespec) (h : s.allocated = true)
    (hmax : 1 ≤ s.d_maxNumMsgs) (hlen : s.d_maxMsgLen < 0)
    (hkeep : ¬ (s.d_bufferType = .SR_LINEAR ∧ (s.d_reportNum + 1) % UINT > s.d_maxNumMsgs)) :
    s.setReport code message now = .error .outsideBlock := by
  obtain ⟨h1, h2, h3, h4⟩ := (StatusReport.allocated_iff s).mp h
  have hidx := StatusReport.setIndex_incremented s h2 h1 hmax
  have hlt : s.d_reportNum % s.d_maxNumMsgs < s.d_maxNumMsgs := Nat.mod_lt _ (by omega)
  obtain ⟨slot, g1, g2⟩ := h4 _ hlt
  have hnn : ¬ (((s.d_reportNum % s.d_maxNumMsgs : Nat) : Int) < 0) := by omega
  have g3 : slot.message.isNone = false := by
    cases hs : slot.message with
    | none => rw [hs] at g2; cases g2
    | some _ => rfl
  unfold StatusReport.setReport
  simp only [hkeep, ↓reduceIte, hidx, hnn, Int.toNat_ofNat, g1, g3, Bool.false_eq_true, hlen]

/-- A call of `setReport` on a full `SR_LINEAR` buffer changes `d_reportNum` only. -/
theorem StatusReport.setReport_discards (s : StatusReport) (code : Int)
    (message : Option String) (now : Timespec)
    (hfull : s.d_bufferType = .SR_LINEAR ∧ (s.d_reportNum + 1) % UINT > s.d_maxNumMsgs) :
    s.setReport code message now = .ok { s with d_reportNum := (s.d_reportNum + 1) % UINT } := by
  unfold StatusReport.setReport
  simp only [hfull, and_self, ↓reduceIte]

theorem StatusReport.allocated_set (s : StatusReport) (n i : Nat) (m : StatusMessage)
    (h : s.allocated = true) (hn : n < UINT) (hm : m.message.isSome = true) :
    ({ s with d_reportNum := n, d_messages := s.d_messages.set i m } : StatusReport).allocated
      = true := by
  obtain ⟨h1, h2, h3, h4⟩ := (StatusReport.allocated_iff s).mp h
  rw [StatusReport.allocated_iff]
  refine ⟨h1, hn, by simpa using h3, ?_⟩
  intro j hj
  have hj' : j < s.d_maxNumMsgs := hj
  obtain ⟨slot, g1, g2⟩ := h4 j hj'
  simp only [List.get?_eq_getElem?] at g1 ⊢
  by_cases hij : i = j
  · subst hij
    have hil : i < s.d_messages.length := by omega
    refine ⟨m, ?_, hm⟩
    show (s.d_messages.set i m)[i]? = some m
    rw [List.getElem?_set_self hil]
  · refine ⟨slot, ?_, g2⟩
    show (s.d_messages.set i m)[j]? = some slot
    rw [List.getElem?_set_ne hij]
    exact g1

theorem StatusReport.allocated_count (s : StatusReport) (n : Nat)
    (h : s.allocated = true) (hn : n < UINT) :
    ({ s with d_reportNum := n } : StatusReport).allocated = true := by
  obtain ⟨h1, h2, h3, h4⟩ := (StatusReport.allocated_iff s).mp h
  rw [StatusReport.allocated_iff]
  exact ⟨h1, hn, h3, h4⟩

theorem Nat.mod_ne_of_lt_gap (a d m : Nat) (h0 : 0 < d) (hd : d < m) :
    (a + d) % m ≠ a % m := by
  intro h
  have h1 := Nat.sub_mod_eq_zero_of_mod_eq h
  rw [Nat.add_sub_cancel_left, Nat.mod_eq_of_lt hd] at h1
  omega

/-- One more report in a ring buffer that holds a log. -/
theorem StatusReport.holds_setReport (s : StatusReport) (log : List StatusMessage) (c : StatusReport.Call)
    (hc : s.d_bufferType ≠ .SR_LINEAR) (ha : s.allocated = true) (hmax : 1 ≤ s.d_maxNumMsgs)
    (hlen : 0 ≤ s.d_maxMsgLen) (hh : s.holds log) (hn : log.length + 1 < UINT) :
    ∃ s1, s.setReport c.code c.message c.now = .ok s1 ∧ s1.holds (s.entry c :: log) ∧
      s1.allocated = true ∧ s1.d_bufferType = s.d_bufferType ∧
      s1.d_maxNumMsgs = s.d_maxNumMsgs ∧ s1.d_maxMsgLen = s.d_maxMsgLen := by
  obtain ⟨hnum, hslots⟩ := hh
  obtain ⟨h1, h2, h3, h4⟩ := (StatusReport.allocated_iff s).mp ha
  have hkeep : ¬ (s.d_bufferType = .SR_LINEAR ∧ (s.d_reportNum + 1) % UINT > s.d_maxNumMsgs) :=
    fun h => hc h.1
  have hmod : (s.d_reportNum + 1) % UINT = log.length + 1 := by
    rw [hnum, Nat.mod_eq_of_lt hn]
  have hlt : log.length % s.d_maxNumMsgs < s.d_messages.length :=
    lt_of_lt_of_le (Nat.mod_lt _ (by omega)) h3
  refine ⟨_, StatusReport.setReport_stores s c.code c.message c.now ha hmax hlen hkeep, ?_,
    StatusReport.allocated_set s _ _ _ ha (Nat.mod_lt _ (by decide)) rfl, rfl, rfl, rfl⟩
  refine ⟨by rw [hmod]; rfl, ?_⟩
  intro j hj hjm
  have hjm' : j < s.d_maxNumMsgs := hjm
  show (s.d_messages.set (s.d_reportNum % s.d_maxNumMsgs)
      ⟨c.now, some (s.stored c.message), c.code⟩).get?
        (((s.entry c :: log).length - 1 - j) % s.d_maxNumMsgs) = (s.entry c :: log).get? j
  simp only [List.get?_eq_getElem?, List.length_cons, Nat.add_sub_cancel, hnum]
  cases j with
  | zero =>
    rw [Nat.sub_zero, List.getElem?_set_self hlt]
    simp [StatusReport.entry]
  | succ i =>
    have hi : i < log.length := by simpa using hj
    have hne : log.length % s.d_maxNumMsgs ≠ (log.length - (i + 1)) % s.d_maxNumMsgs := by
      have := Nat.mod_ne_of_lt_gap (log.length - (i + 1)) (i + 1) s.d_maxNumMsgs (by omega) hjm'
      have he : log.length - (i + 1) + (i + 1) = log.length := by omega
      rw [he] at this
      exact this
    rw [List.getElem?_set_ne hne]
    have hold := hslots i hi (by omega)
    simp only [List.get?_eq_getElem?] at hold
    have he2 : log.length - (i + 1) = log.length - 1 - i := by omega
    rw [he2, hold]
    simp

theorem StatusReport.entry_congr (s s1 : StatusReport) (c : StatusReport.Call)
    (h : s1.d_maxMsgLen = s.d_maxMsgLen) : s1.entry c = s.entry c := by
  simp only [StatusReport.entry, StatusReport.stored, h]

/-- Successive reports in a ring buffer that holds a log. -/
theorem StatusReport.holds_report (calls : List StatusReport.Call) :
    ∀ (s : StatusReport) (log : List StatusMessage),
      s.d_bufferType ≠ .SR_LINEAR → s.allocated = true → 1 ≤ s.d_maxNumMsgs →
      0 ≤ s.d_maxMsgLen → s.holds log → log.length + calls.length < UINT →
      ∃ s1, s.report calls = .ok s1 ∧ s1.holds ((calls.map s.entry).reverse ++ log) ∧
        s1.allocated = true ∧ s1.d_bufferType = s.d_bufferType ∧
        s1.d_maxNumMsgs = s.d_maxNumMsgs ∧ s1.d_maxMsgLen = s.d_maxMsgLen := by
  induction calls with
  | nil =>
    intro s log _ ha _ _ hh _
    exact ⟨s, rfl, by simpa using hh, ha, rfl, rfl, rfl⟩
  | cons c rest ih =>
    intro s log hc ha hmax hlen hh hn
    simp only [List.length_cons] at hn
    obtain ⟨s1, e1, hh1, ha1, t1, m1, l1⟩ :=
      StatusReport.holds_setReport s log c hc ha hmax hlen hh (by omega)
    obtain ⟨s2, e2, hh2, ha2, t2, m2, l2⟩ := ih s1 (s.entry c :: log) (by rw [t1]; exact hc) ha1
      (by rw [m1]; exact hmax) (by rw [l1]; exact hlen) hh1
      (by simp only [List.length_cons]; omega)
    refine ⟨s2, ?_, ?_, ha2, t2.trans t1, m2.trans m1, l2.trans l1⟩
    · simp only [StatusReport.report, e1]
      exact e2
    · have hent : List.map s1.entry rest = List.map s.entry rest :=
        List.map_congr_left (fun x _ => StatusReport.entry_congr s s1 x l1)
      rw [hent] at hh2
      simpa using hh2

/-- What the getters read in a ring buffer that holds a log. -/
theorem StatusReport.holds_query (s : StatusReport) (log : List StatusMessage) (rN : Nat)
    (hc : s.d_bufferType ≠ .SR_LINEAR) (ha : s.allocated = true) (hh : s.holds log)
    (h1 : 1 ≤ rN) (h2 : rN ≤ s.getNumReports) :
    s.getNumReports = min log.length s.d_maxNumMsgs ∧
    ∃ m, log.get? (rN - 1) = some m ∧ (∃ i, s.getIndex rN = some i ∧ s.element i = .ok m) := by
  obtain ⟨hnum, hslots⟩ := hh
  obtain ⟨a1, a2, a3, a4⟩ := (StatusReport.allocated_iff s).mp ha
  have hu : UINT = 4294967296 := rfl
  have hg : s.getNumReports = min log.length s.d_maxNumMsgs := by
    unfold StatusReport.getNumReports
    rw [hnum]
    split_ifs with h
    · exact (Nat.min_eq_left h).symm
    · exact (Nat.min_eq_right (by omega)).symm
  refine ⟨hg, ?_⟩
  rw [hg] at h2
  have hr1 : rN ≤ log.length := le_trans h2 (Nat.min_le_left _ _)
  have hr2 : rN ≤ s.d_maxNumMsgs := le_trans h2 (Nat.min_le_right _ _)
  have hlt : rN - 1 < log.length := by omega
  refine ⟨log[rN - 1], by simp [List.getElem?_eq_getElem hlt], ?_⟩
  have hrange : ¬ (rN > s.getNumReports ∨ rN < 1) := by rw [hg]; omega
  have hidx : (s.d_reportNum + UINT - rN % UINT) % UINT = log.length - 1 - (rN - 1) := by
    rw [hnum, Nat.mod_eq_of_lt (by omega : rN < UINT)]
    have : log.length + UINT - rN = (log.length - rN) + UINT := by omega
    rw [this, Nat.add_mod_right, Nat.mod_eq_of_lt (by rw [← hnum] at hr1 ⊢; omega)]
    omega
  refine ⟨(log.length - 1 - (rN - 1)) % s.d_maxNumMsgs, ?_, ?_⟩
  · simp only [StatusReport.getIndex, hrange, ↓reduceIte, hc, hidx]
  · have hold := hslots (rN - 1) hlt (by omega)
    simp only [StatusReport.element, hold, List.get?_eq_getElem?, List.getElem?_eq_getElem hlt]

theorem StatusReport.getNumReports_le (s : StatusReport) :
    s.getNumReports ≤ s.d_maxNumMsgs ∧ s.getNumReports ≤ s.d_reportNum := by
  unfold StatusReport.getNumReports
  split_ifs <;> omega

/-- The getters read inside the allocated part of the array. -/
theorem StatusReport.getIndex_lt (s : StatusReport) (rN i : Nat) (ha : s.allocated = true)
    (h : s.getIndex rN = some i) :
    i < s.d_maxNumMsgs ∧ ∃ m, s.element i = .ok m := by
  obtain ⟨a1, a2, a3, a4⟩ := (StatusReport.allocated_iff s).mp ha
  obtain ⟨g1, g2⟩ := StatusReport.getNumReports_le s
  have hu : UINT = 4294967296 := rfl
  have hlt : i < s.d_maxNumMsgs := by
    unfold StatusReport.getIndex at h
    by_cases hr : rN > s.getNumReports ∨ rN < 1
    · rw [if_pos hr] at h
      cases h
    · rw [if_neg hr] at h
      by_cases hl : s.d_bufferType = .SR_LINEAR
      · simp only [hl, ↓reduceIte, Option.some.injEq] at h
        rw [Nat.mod_eq_of_lt (by omega : rN < UINT)] at h
        have : s.getNumReports + UINT - rN = (s.getNumReports - rN) + UINT := by omega
        rw [this, Nat.add_mod_right, Nat.mod_eq_of_lt (by omega)] at h
        omega
      · simp only [hl, ↓reduceIte, Option.some.injEq] at h
        rw [← h]
        exact Nat.mod_lt _ (by omega)
  refine ⟨hlt, ?_⟩
  obtain ⟨slot, e1, -⟩ := a4 i hlt
  exact ⟨slot, by simp only [StatusReport.element, e1]⟩

/-- A query out of range reads no element. -/
theorem StatusReport.getIndex_out_of_range (s : StatusReport) (rN : Nat)
    (h : rN < 1 ∨ rN > s.getNumReports) : s.getIndex rN = none := by
  have : rN > s.getNumReports ∨ rN < 1 := h.symm
  rw [StatusReport.getIndex, if_pos this]

/-- One call on an object whose elements are allocated has no undefined behaviour other
than the one of a negative `d_maxMsgLen`. -/
theorem StatusReport.step_allocated (s : StatusReport) (op : StatusReport.Op)
    (ha : s.allocated = true) (hmax : 1 ≤ s.d_maxNumMsgs) :
    (∃ s1, s.step op = .ok s1 ∧ s1.allocated = true ∧ s1.d_maxNumMsgs = s.d_maxNumMsgs ∧
      s1.d_maxMsgLen = s.d_maxMsgLen) ∨
    (s.d_maxMsgLen < 0 ∧ s.step op = .error .outsideBlock) := by
  cases op with
  | setReport code message now =>
    by_cases hfull : s.d_bufferType = .SR_LINEAR ∧ (s.d_reportNum + 1) % UINT > s.d_maxNumMsgs
    · left
      exact ⟨_, StatusReport.setReport_discards s code message now hfull,
        StatusReport.allocated_count s _ ha (Nat.mod_lt _ (by decide)), rfl, rfl⟩
    · by_cases hlen : 0 ≤ s.d_maxMsgLen
      · left
        exact ⟨_, StatusReport.setReport_stores s code message now ha hmax hlen hfull,
          StatusReport.allocated_set s _ _ _ ha (Nat.mod_lt _ (by decide)) rfl, rfl, rfl⟩
      · right
        exact ⟨by omega,
          StatusReport.setReport_outside_block s code message now ha hmax (by omega) hfull⟩
  | clearReports =>
    left
    exact ⟨_, rfl, StatusReport.allocated_count s 0 ha (by decide), rfl, rfl⟩
  | getReportCode rN =>
    left
    refine ⟨s, ?_, ha, rfl, rfl⟩
    simp only [StatusReport.step, StatusReport.getReportCode]
    cases hi : s.getIndex rN with
    | none => rfl
    | some i =>
      obtain ⟨-, m, hm⟩ := StatusReport.getIndex_lt s rN i ha hi
      simp only [hm]
      rfl
  | getReportMessage rN =>
    left
    refine ⟨s, ?_, ha, rfl, rfl⟩
    simp only [StatusReport.step, StatusReport.getReportMessage]
    cases hi : s.getIndex rN with
    | none => rfl
    | some i =>
      obtain ⟨-, m, hm⟩ := StatusReport.getIndex_lt s rN i ha hi
      simp only [hm]
      rfl
  | getReportTimestamp rN =>
    left
    refine ⟨s, ?_, ha, rfl, rfl⟩
    simp only [StatusReport.step, StatusReport.getReportTimestamp]
    cases hi : s.getIndex rN with
    | none => rfl
    | some i =>
      obtain ⟨-, m, hm⟩ := StatusReport.getIndex_lt s rN i ha hi
      simp only [hm]
      rfl

theorem StatusReport.exec_allocated (ops : List StatusReport.Op) :
    ∀ (s : StatusReport), s.allocated = true → 1 ≤ s.d_maxNumMsgs →
    (∃ s1, s.exec ops = .ok s1 ∧ s1.allocated = true ∧ s1.d_maxNumMsgs = s.d_maxNumMsgs ∧
      s1.d_maxMsgLen = s.d_maxMsgLen) ∨
    (s.d_maxMsgLen < 0 ∧ s.exec ops = .error .outsideBlock) := by
  induction ops with
  | nil => intro s ha _; exact Or.inl ⟨s, rfl, ha, rfl, rfl⟩
  | cons op rest ih =>
    intro s ha hmax
    rcases StatusReport.step_allocated s op ha hmax with ⟨s1, e1, a1, m1, l1⟩ | ⟨hl, e1⟩
    · rcases ih s1 a1 (by rw [m1]; exact hmax) with ⟨s2, e2, a2, m2, l2⟩ | ⟨hl, e2⟩
      · left
        refine ⟨s2, ?_, a2, m2.trans m1, l2.trans l1⟩
        simp only [StatusReport.exec, e1]
        exact e2
      · right
        refine ⟨by rw [← l1]; exact hl, ?_⟩
        simp only [StatusReport.exec, e1]
        exact e2
    · right
      refine ⟨hl, ?_⟩
      simp only [StatusReport.exec, e1]

/-- The object that `init` leaves has its first `d_maxNumMsgs` elements allocated. -/
theorem StatusReport.init_allocated (maxMsgLen maxNumMsgs : Int) (type : SR_buffer_type)
    (avail : Nat) (h : maxNumMsgs < 2147483648) :
    (StatusReport.init maxMsgLen maxNumMsgs type avail).allocated = true := by
  unfold StatusReport.init
  by_cases h1 : maxNumMsgs < 0 ∨ avail = 0
  · simp only [h1, ↓reduceIte]
    rfl
  · simp only [h1, ↓reduceIte]
    generalize hg : (if maxMsgLen + 1 < 0 then 0 else min maxNumMsgs.toNat (avail - 1)) = got
    have hgot : got ≤ maxNumMsgs.toNat := by
      rw [← hg]
      split_ifs
      · omega
      · exact Nat.min_le_left _ _
    have hu : UINT = 4294967296 := rfl
    have hmod : got % UINT = got := Nat.mod_eq_of_lt (by omega)
    rw [StatusReport.allocated_iff]
    simp only [hmod]
    refine ⟨by omega, by decide, by simp, ?_⟩
    intro i hi
    refine ⟨⟨⟨0, 0⟩, some "", 0⟩, ?_, rfl⟩
    simp only [List.get?_eq_getElem?]
    rw [List.getElem?_append_left (by simpa using hi)]
    simp [hi]

theorem Kernel.recvfrom_trace (k : Kernel) (fd : Int) (len : Int) :
    (k.recvfrom fd len).2.2.2.trace = .recvfrom fd len (k.recvfrom fd len).1 :: k.trace := by
  unfold Kernel.recvfrom
  split
  · rfl
  · split <;> rfl

theorem UDPServer.loop_left_udp (libc : Libc) (handler : Handler) (cancels : List Bool) :
    ∀ c : UCycle, (UDPServer.loop libc handler cancels c).2 = true ↔ true ∈ cancels := by
  induction cancels with
  | nil => intro c; simp [UDPServer.loop]
  | cons b rest ih =>
    intro c
    cases b with
    | true => simp [UDPServer.loop]
    | false =>
      simp only [UDPServer.loop, List.mem_cons]
      rw [ih]
      constructor
      · intro h; exact Or.inr h
      · rintro (h | h)
        · cases h
        · exact h

/-- What `sendto` returns and the `errno` it leaves depend on the plan of the socket and on
the `errno` before; the datagrams waiting and the plan for `recvfrom` are not touched. -/
theorem Kernel.sendto_agree (k1 k2 : Kernel) (fd : Int) (data : List Byte) (len : Int)
    (addr : SockAddr) (d1 d2 : DSock)
    (h1 : k1.udp fd = some d1) (h2 : k2.udp fd = some d2) (herr : k1.errno = k2.errno)
    (hs : d1.sendPlan = d2.sendPlan) :
    (k1.sendto fd data len addr).1 = (k2.sendto fd data len addr).1 ∧
    (k1.sendto fd data len addr).2.errno = (k2.sendto fd data len addr).2.errno ∧
    (∃ e1, (k1.sendto fd data len addr).2.udp fd = some e1 ∧ e1.recvPlan = d1.recvPlan ∧
      e1.inbox = d1.inbox) ∧
    (∃ e2, (k2.sendto fd data len addr).2.udp fd = some e2 ∧ e2.recvPlan = d2.recvPlan ∧
      e2.inbox = d2.inbox) := by
  unfold Kernel.sendto
  rw [h1, h2]
  simp only []
  rw [← hs]
  rcases hp : d1.sendPlan with _ | ⟨(e | n), rest⟩
  · exact ⟨rfl, herr, ⟨_, Function.update_same _ _ _, rfl, rfl⟩, ⟨_, Function.update_same _ _ _, rfl, rfl⟩⟩
  · exact ⟨rfl, rfl, ⟨_, Function.update_same _ _ _, rfl, rfl⟩, ⟨_, Function.update_same _ _ _, rfl, rfl⟩⟩
  · exact ⟨rfl, herr, ⟨_, Function.update_same _ _ _, rfl, rfl⟩, ⟨_, Function.update_same _ _ _, rfl, rfl⟩⟩

/-- What `recvfrom` returns, stores and leaves in `errno` depends on the plan of the socket,
on the `errno` before, and on the payload of the datagram that is waiting; of the address of
its sender only the host address and the port are handed out. -/
theorem Kernel.recvfrom_agree (k1 k2 : Kernel) (fd : Int) (len : Int) (d1 d2 : DSock)
    (g1 g2 : Datagram) (m1 m2 : List Datagram)
    (h1 : k1.udp fd = some d1) (h2 : k2.udp fd = some d2) (herr : k1.errno = k2.errno)
    (hr : d1.recvPlan = d2.recvPlan) (hi1 : d1.inbox = g1 :: m1) (hi2 : d2.inbox = g2 :: m2)
    (ha : g1.s_addr = g2.s_addr) (hp : g1.payload = g2.payload) :
    (k1.recvfrom fd len).1 = (k2.recvfrom fd len).1 ∧
    (k1.recvfrom fd len).2.1 = (k2.recvfrom fd len).2.1 ∧
    (k1.recvfrom fd len).2.2.1.map (fun a => a.s_addr)
      = (k2.recvfrom fd len).2.2.1.map (fun a => a.s_addr) ∧
    (k1.recvfrom fd len).2.2.2.errno = (k2.recvfrom fd len).2.2.2.errno := by
  unfold Kernel.recvfrom
  rw [h1, h2]
  simp only []
  rw [← hr, hi1, hi2]
  rcases hpl : d1.recvPlan with _ | ⟨(e | n), rest⟩
  · simp only [hp]
    exact ⟨trivial, trivial, by simp [ha], herr⟩
  · exact ⟨rfl, rfl, rfl, rfl⟩
  · simp only [hp]
    exact ⟨trivial, trivial, by simp [ha], herr⟩

theorem storeAt_length (buf : List Byte) (off : Nat) (data : List Byte)
    (h : off + data.length ≤ buf.length) : (storeAt buf off data).length = buf.length := by
  simp only [storeAt, List.length_append, List.length_take, List.length_drop]
  omega

theorem storeAt_drop (buf : List Byte) (off : Nat) (data : List Byte) (cap : Nat)
    (h : off + data.length ≤ cap) (hc : cap ≤ buf.length) :
    (storeAt buf off data).drop cap = buf.drop cap := by
  have hl : (buf.take off ++ data).length = off + data.length := by
    simp only [List.length_append, List.length_take]
    omega
  unfold storeAt
  rw [List.drop_append_eq_append_drop, hl]
  have h1 : List.drop cap (buf.take off ++ data) = [] :=
    List.drop_eq_nil_of_le (by rw [hl]; exact h)
  rw [h1, List.nil_append, List.drop_drop]
  congr 1
  omega

/-- The `recv` calls of the read loop stay inside the first `m` bytes of the buffer. -/
theorem readLoop_bounds (fd : Int) (m : Int) :
    ∀ (n : Nat) (k : Kernel) (buf : List Byte) (t : Int),
    0 ≤ t → t ≤ m → m.toNat ≤ buf.length →
    ∃ calls : List Syscall,
      (readLoop n k fd buf m t).2.2.trace = calls ++ k.trace ∧
      (∀ e ∈ calls, ∃ off ret, e = Syscall.recv fd (.buf off) (m - off) ret ∧
        0 ≤ off ∧ off < m ∧ ret ≤ m - off) ∧
      (readLoop n k fd buf m t).2.1.length = buf.length ∧
      (readLoop n k fd buf m t).2.1.drop m.toNat = buf.drop m.toNat := by
  intro n
  induction n with
  | zero =>
    intro k buf t _ _ _
    exact ⟨[], by simp [readLoop], by simp, by simp [readLoop], by simp [readLoop]⟩
  | succ n ih =>
    intro k buf t h0 h1 h2
    by_cases hlt : t < m
    · have htr := Kernel.recv_trace k fd (.buf t) (m - t)
      have hret := Kernel.recv_ret k fd (.buf t) (m - t)
      by_cases hf : (k.recv fd (.buf t) (m - t)).1 = -1
      · refine ⟨[Syscall.recv fd (.buf t) (m - t) (-1)], ?_, ?_, ?_, ?_⟩
        · simp only [readLoop, hlt, hf, ↓reduceIte]
          rw [htr, hf]; rfl
        · intro e he
          simp only [List.mem_singleton] at he
          exact ⟨t, -1, he, h0, hlt, by omega⟩
        · simp only [readLoop, hlt, hf, ↓reduceIte]
        · simp only [readLoop, hlt, hf, ↓reduceIte]
      · have hdata : (k.recv fd (.buf t) (m - t)).1 = ((k.recv fd (.buf t) (m - t)).2.1.length : Int) ∧
            (k.recv fd (.buf t) (m - t)).2.1.length ≤ (m - t).toNat := by
          rcases hret with ⟨hr, -⟩ | ⟨hr1, hr2, -⟩
          · exact absurd hr hf
          · exact ⟨hr1, hr2⟩
        have hw : readLoop (n + 1) k fd buf m t
            = readLoop n (k.recv fd (.buf t) (m - t)).2.2 fd
                (storeAt buf t.toNat (k.recv fd (.buf t) (m - t)).2.1) m
                (t + (k.recv fd (.buf t) (m - t)).1) := by
          simp [readLoop, hlt, hf]
        have hfit : t.toNat + (k.recv fd (.buf t) (m - t)).2.1.length ≤ m.toNat := by omega
        have hlen := storeAt_length buf t.toNat (k.recv fd (.buf t) (m - t)).2.1 (by omega)
        have hdrop := storeAt_drop buf t.toNat (k.recv fd (.buf t) (m - t)).2.1 m.toNat hfit h2
        obtain ⟨calls, c1, c2, c3, c4⟩ := ih (k.recv fd (.buf t) (m - t)).2.2
          (storeAt buf t.toNat (k.recv fd (.buf t) (m - t)).2.1)
          (t + (k.recv fd (.buf t) (m - t)).1) (by omega) (by omega) (by rw [hlen]; exact h2)
        refine ⟨calls ++ [Syscall.recv fd (.buf t) (m - t) (k.recv fd (.buf t) (m - t)).1],
          ?_, ?_, ?_, ?_⟩
        · rw [hw, c1, htr]; simp
        · intro e he
          simp only [List.mem_append, List.mem_singleton] at he
          rcases he with he | he
          · exact c2 e he
          · exact ⟨t, _, he, h0, hlt, by omega⟩
        · rw [hw, c3, hlen]
        · rw [hw, c4, hdrop]
    · refine ⟨[], by simp [readLoop, hlt], by simp, by simp [readLoop, hlt],
        by simp [readLoop, hlt]⟩

theorem resized_length (buf : List Byte) (size : Int) : (resized buf size).length = size.toNat := by
  simp only [resized, List.length_append, List.length_take, List.length_replicate]
  omega

/-- A `TCPServer::init` that returns `0` has allocated `bufSize + 4` bytes and has set
`d_rcvBufSize` to `bufSize`. -/
theorem TCPServer.init_buffer (libc : Libc) (env : ListenEnv) (s : TCPServer) (k : Kernel)
    (port bufSize bdp : Int) (h : (TCPServer.init libc env s k port bufSize bdp).1 = 0) :
    (TCPServer.init libc env s k port bufSize bdp).2.1.d_rcvBufSize = bufSize ∧
    (TCPServer.init libc env s k port bufSize bdp).2.1.d_rcvBuf.length = (bufSize + 4).toNat := by
  revert h
  unfold TCPServer.init
  simp only []
  generalize (if s.d_fd ≠ 0 then k.close s.d_fd else k) = k0
  have hb : (if s.d_fd ≠ 0 then
      ({ ({ s with d_init := false } : TCPServer) with d_fd := -1 } : TCPServer)
      else ({ s with d_init := false } : TCPServer)).d_rcvBuf = s.d_rcvBuf := by
    split_ifs <;> rfl
  generalize (if s.d_fd ≠ 0 then
      ({ ({ s with d_init := false } : TCPServer) with d_fd := -1 } : TCPServer)
      else ({ s with d_init := false } : TCPServer)) = s1 at hb
  generalize k0.socket env.socket env.sock = so
  by_cases hso : so.1 = -1
  · simp only [hso, ↓reduceIte]
    intro h
    simp at h
  · simp only [hso, ↓reduceIte, TCPServer.initSocket, TCPServer.initFail]
    generalize so.2.setsockopt so.1 "SO_REUSEADDR" (env.setsockopt "SO_REUSEADDR") = o1
    generalize o1.2.setsockopt so.1 "TCP_NODELAY" (env.setsockopt "TCP_NODELAY") = o2
    generalize (if int32 (bdp * 1024) ≠ 0 then o2.2.setsockopt so.1 "SO_SNDBUF"
      (env.setsockopt "SO_SNDBUF") else (0, o2.2)) = o3
    generalize (if int32 (bdp * 1024) ≠ 0 then o3.2.setsockopt so.1 "SO_RCVBUF"
      (env.setsockopt "SO_RCVBUF") else (0, o3.2)) = o4
    generalize o4.2.bind so.1 env.bind = o5
    generalize o5.2.listen so.1 env.listen = o6
    split_ifs
    all_goals intro h
    all_goals first
      | (simp at h; done)
      | exact ⟨rfl, resized_length _ _⟩

/-- Claim C1. Over a transport that moves every byte requested, a request `P` with
`len(P) ≤ maxMsgSize` sent by `TCPClient::sendAndReceive` to a server whose handler answers
`(P, len(P))` with a non-null reply `R`, `len(R) ≤ inBufLen`, makes the server invoke the
handler exactly once, with a buffer that starts with `P` and with length `len(P)`, and makes
the client return `0` with `*inMsgLen = len(R)` and `R` at the start of `inMsgBuf`. -/
theorem round_trip (libc : Libc) (env : InitEnv) (handler : Handler) (srv : Cycle) (i : Int)
    (c : TCPClient) (k : Kernel) (P R inBuf : List Byte) (inBufLen v : Int)
    (hinit : c.d_init = true)
    (hP : (P.length : Int) ≤ srv.srv.d_rcvBufSize) (hmax : srv.srv.d_rcvBufSize < 2147483648)
    (hR : (R.length : Int) ≤ inBufLen) (hin : inBufLen < 2147483648)
    (hH : ∀ buf : List Byte, buf.take P.length = P →
      handler buf P.length = (some R, (R.length : Int))) :
    let x := TCPClient.sendAndReceive libc env c
      (k.withSock c.d_fd (Sock.lossless fun sent => (TCPServer.serve libc handler srv i sent).k.sentOn i))
      (some P) P.length (some inBuf) inBufLen v
    x.ret = 0 ∧ x.inMsgLen = R.length ∧ (∃ b, x.inMsgBuf = some b ∧ b.take R.length = R) ∧
    x.k.sentOn c.d_fd = intBytes P.length ++ P ∧
    (∃ buf, (TCPServer.serve libc handler srv i (x.k.sentOn c.d_fd)).calls
        = (buf, (P.length : Int)) :: srv.calls ∧ buf.take P.length = P) := by
  intro x
  have hsrv : ∀ sent : List Byte, sent = intBytes P.length ++ P →
      (∃ buf, (TCPServer.serve libc handler srv i sent).calls = (buf, (P.length : Int)) :: srv.calls ∧
        buf.take P.length = P) ∧
      (TCPServer.serve libc handler srv i sent).k.sentOn i = intBytes R.length ++ R := by
    intro sent hsent
    have := clientMessage_lossless libc handler
      { srv with k := srv.k.withSock i (Sock.scripted sent [] []) } i (Sock.scripted sent [] [])
      P R [] (by simp [Kernel.withSock]) rfl rfl (by simp [Sock.scripted, hsent]) hP (by omega) hH
    obtain ⟨h1, h2, -⟩ := this
    exact ⟨h1, by simpa [Sock.scripted] using h2⟩
  obtain ⟨k1, hk1, hk1i⟩ := sendRequest_lossless libc env c
    (k.withSock c.d_fd (Sock.lossless fun sent => (TCPServer.serve libc handler srv i sent).k.sentOn i))
    (Sock.lossless fun sent => (TCPServer.serve libc handler srv i sent).k.sentOn i)
    P hinit (by simp [Kernel.withSock]) rfl
  have hrx := (hsrv (intBytes P.length ++ P) rfl).2
  obtain ⟨g1, g2, g3, -, g5⟩ := receiveReply_lossless libc c k1 _ R [] inBuf inBufLen v hk1i rfl
    (by simpa [Sock.lossless] using hrx) hR (by omega)
  have hx : x = TCPClient.receiveReply libc c k1 inBuf inBufLen v := by
    simp only [x, TCPClient.sendAndReceive, hk1]
  have hsent : x.k.sentOn c.d_fd = intBytes P.length ++ P := by
    rw [hx]; simp [Kernel.sentOn, g5, Sock.lossless]
  refine ⟨by rw [hx]; exact g1, by rw [hx]; exact g2, by rw [hx]; exact g3, hsent, ?_⟩
  rw [hsent]
  exact (hsrv _ rfl).1

/-- Claim C1, concrete scenario: `maxMsgSize = 64`, request "ping", echo handler; the client
gets back length 4 and the bytes "ping". -/
theorem round_trip_ping :
    (TCPClient.sendAndReceive Example.libc Example.env Example.client
      (Kernel.boot.withSock 4 (Sock.lossless fun sent =>
        (TCPServer.serve Example.libc Example.echo (Example.server [] [] []) 5 sent).k.sentOn 5))
      (some Example.ping) 4 (some (List.replicate 16 0)) 16 0).ret = 0 ∧
    (TCPClient.sendAndReceive Example.libc Example.env Example.client
      (Kernel.boot.withSock 4 (Sock.lossless fun sent =>
        (TCPServer.serve Example.libc Example.echo (Example.server [] [] []) 5 sent).k.sentOn 5))
      (some Example.ping) 4 (some (List.replicate 16 0)) 16 0).inMsgLen = 4 ∧
    (∃ b, (TCPClient.sendAndReceive Example.libc Example.env Example.client
      (Kernel.boot.withSock 4 (Sock.lossless fun sent =>
        (TCPServer.serve Example.libc Example.echo (Example.server [] [] []) 5 sent).k.sentOn 5))
      (some Example.ping) 4 (some (List.replicate 16 0)) 16 0).inMsgBuf = some b ∧
      b.take 4 = Example.ping) :=
  have h := round_trip Example.libc Example.env Example.echo (Example.server [] [] []) 5
    Example.client Kernel.boot Example.ping Example.ping (List.replicate 16 0) 16 0 rfl
    (by decide) (by decide) (by decide) (by decide)
    (fun buf hb => by
      have h4 : Example.ping.length = 4 := rfl
      rw [h4] at hb
      simp [Example.echo, hb, h4])
  ⟨h.1, h.2.1, h.2.2.1⟩

/-- Claim C2. When the length field read from connection `i` is larger than `d_rcvBufSize`,
the client message processing does not invoke `receiveAndReply`, issues no `send`, closes
`i`, removes it from `master`, and reports `-1` with the text
"doMessageCycle: buffer not large enough.". -/
theorem oversized_request_dropped (libc : Libc) (handler : Handler) (c : Cycle) (i : Int)
    (hhdr : 4 ≤ (c.k.recv i .var 4).1)
    (hbig : c.srv.d_rcvBufSize < bytesInt (c.k.recv i .var 4).2.1) :
    (TCPServer.clientMessage libc handler c i).calls = c.calls ∧
    (TCPServer.clientMessage libc handler c i).k.trace.filter Syscall.isSend
      = c.k.trace.filter Syscall.isSend ∧
    (TCPServer.clientMessage libc handler c i).k.sentOn i = c.k.sentOn i ∧
    (TCPServer.clientMessage libc handler c i).k.fds i = none ∧
    (TCPServer.clientMessage libc handler c i).master = c.master.erase i ∧
    (TCPServer.clientMessage libc handler c i).srv.d_status
      = ⟨-1, "doMessageCycle: buffer not large enough."⟩ :: c.srv.d_status := by
  have h1 : ¬ (c.k.recv i .var 4).1 < 4 := not_lt.mpr hhdr
  have hstep : TCPServer.clientMessage libc handler c i =
      { c.drop (drainLoop 3 (c.k.recv i .var 4).2.2 i (bytesInt (c.k.recv i .var 4).2.1) 0).2 i with
        srv := { c.srv with
          d_status := setReport c.srv.d_status (-1) "doMessageCycle: buffer not large enough." } } := by
    simp only [TCPServer.clientMessage, TCPServer.readMessage, h1, ↓reduceIte, gt_iff_lt, hbig]
  obtain ⟨f1, f2, f3⟩ := drainLoop_frame 3 (c.k.recv i .var 4).2.2 i
    (bytesInt (c.k.recv i .var 4).2.1) 0
  rw [hstep]
  refine ⟨rfl, ?_, ?_, ?_, rfl, rfl⟩
  · show (Kernel.close _ i).trace.filter Syscall.isSend = _
    rw [Kernel.close_filter_isSend, f3, Kernel.recv_filter_isSend]
  · show (Kernel.close _ i).sentOn i = _
    rw [Kernel.close_sentOn]
    exact Kernel.sentOn_congr _ _ i ((f1 i).trans (Kernel.recv_fds _ _ _ _ _))
      (f2.trans (Kernel.recv_closed _ _ _ _))
  · exact Kernel.close_fds_self _ i

/-- Claim C2, concrete scenario: a length field of 100 against `maxMsgSize = 64`. -/
theorem oversized_request_dropped_100 :
    (TCPServer.clientMessage Example.libc Example.echo
      (Example.server (intBytes 100 ++ List.replicate 100 7) [] []) 5).calls = [] ∧
    (TCPServer.clientMessage Example.libc Example.echo
      (Example.server (intBytes 100 ++ List.replicate 100 7) [] []) 5).k.fds 5 = none ∧
    (TCPServer.clientMessage Example.libc Example.echo
      (Example.server (intBytes 100 ++ List.replicate 100 7) [] []) 5).srv.d_status
      = [⟨-1, "doMessageCycle: buffer not large enough."⟩] :=
  have h := oversized_request_dropped Example.libc Example.echo
    (Example.server (intBytes 100 ++ List.replicate 100 7) [] []) 5 (by decide) (by decide)
  ⟨h.1, h.2.2.2.1, h.2.2.2.2.2⟩

/-- Claim C3, evaluated on the code: the length field `ff ff ff ff` decodes to `-1`, passes
the test `msgSize > d_rcvBufSize`, and `receiveAndReply` is invoked with `inMsgLen = -1`. -/
theorem negative_length_reaches_handler :
    bytesInt (intBytes (-1)) = -1 ∧
    (TCPServer.clientMessage Example.libc Example.echo
      (Example.server (intBytes (-1)) [] []) 5).calls.map Prod.snd = [-1] := by
  decide

/-- Claim C5 fails as stated: when the first attempt returns `0` with four bytes
outstanding, the write loop and the read loop both issue a second attempt, and the transfer
is not reported as failed. -/
theorem zero_result_is_retried :
    (writeLoop 3 Example.stallingNet 5 Example.ping 4 0).2.trace
      = [.send 5 (.buf 0) 4 4, .send 5 (.buf 0) 4 0] ∧
    ¬ (writeLoop 3 Example.stallingNet 5 Example.ping 4 0).1 < 4 ∧
    (readLoop 3 Example.stallingNet 5 [] 4 0).2.2.trace
      = [.recv 5 (.buf 0) 4 4, .recv 5 (.buf 0) 4 0] ∧
    ¬ (readLoop 3 Example.stallingNet 5 [] 4 0).1 < 4 := by
  decide

/-- Claim C5 as amended. In the payload write and read loops an attempt that returns `-1`
is the last attempt issued and the transfer is then reported as failed; an attempt that
returns `0` does not end the loop, which stops only after a `-1`, after the third attempt,
or once the failure test `tillNow < n` is false. -/
theorem failed_attempt_aborts_transfer (k : Kernel) (fd : Int) (buf : List Byte) (n : Int) :
    (∃ calls : List Syscall,
      (writeLoop 3 k fd buf n 0).2.trace = calls ++ k.trace ∧
      (∀ x ∈ calls.tail, x.ret ≠ -1) ∧
      ((∃ x ∈ calls, x.ret = -1) → (writeLoop 3 k fd buf n 0).1 < n) ∧
      (calls.length = 3 ∨ (∃ x, calls.head? = some x ∧ x.ret = -1) ∨
        ¬ (writeLoop 3 k fd buf n 0).1 < n)) ∧
    (∃ calls : List Syscall,
      (readLoop 3 k fd buf n 0).2.2.trace = calls ++ k.trace ∧
      (∀ x ∈ calls.tail, x.ret ≠ -1) ∧
      ((∃ x ∈ calls, x.ret = -1) → (readLoop 3 k fd buf n 0).1 < n) ∧
      (calls.length = 3 ∨ (∃ x, calls.head? = some x ∧ x.ret = -1) ∨
        ¬ (readLoop 3 k fd buf n 0).1 < n)) := by
  by_cases hn : 0 ≤ n
  · constructor
    · obtain ⟨calls, h1, -, h3⟩ := writeLoop_attempts fd buf n 3 k 0
      obtain ⟨-, -, -, -, g5, g6, g7⟩ := h3 hn
      exact ⟨calls, h1, g5, g6, g7⟩
    · obtain ⟨calls, h1, -, h3⟩ := readLoop_attempts fd n 3 k buf 0
      obtain ⟨-, -, -, -, g5, g6, g7⟩ := h3 hn
      exact ⟨calls, h1, g5, g6, g7⟩
  · have h0 : ¬ (0 : Int) < n := by omega
    constructor
    · exact ⟨[], by simp [writeLoop, h0], by simp, by simp, by simp [writeLoop, h0]⟩
    · exact ⟨[], by simp [readLoop, h0], by simp, by simp, by simp [readLoop, h0]⟩

/-- Claim C6 fails as stated: when the `send` of the length field moves 2 of its 4 bytes
and the transport would accept the rest, the server closes the connection after that single
`send` with only those 2 bytes written, and the client returns `-1` with its connection
closed. -/
theorem short_length_send_closes :
    (TCPServer.clientMessage Example.libc Example.echo
      (Example.server (intBytes 4 ++ Example.ping) [.count 2] []) 5).k.isOpen 5 = false ∧
    (TCPServer.clientMessage Example.libc Example.echo
      (Example.server (intBytes 4 ++ Example.ping) [.count 2] []) 5).k.sentOn 5 = [4, 0] ∧
    (TCPServer.clientMessage Example.libc Example.echo
      (Example.server (intBytes 4 ++ Example.ping) [.count 2] []) 5).k.trace.filter Syscall.isSend
      = [.send 5 .var 4 2] ∧
    (TCPClient.sendAndReceive Example.libc Example.env Example.client
      (Kernel.boot.withSock 4 (Sock.scripted [] [.count 2] [])) (some Example.ping) 4 none 0 0).ret = -1 ∧
    (TCPClient.sendAndReceive Example.libc Example.env Example.client
      (Kernel.boot.withSock 4 (Sock.scripted [] [.count 2] [])) (some Example.ping) 4 none 0 0).k.isOpen 4
      = false ∧
    (TCPClient.sendAndReceive Example.libc Example.env Example.client
      (Kernel.boot.withSock 4 (Sock.scripted [] [.count 2] [])) (some Example.ping) 4 none 0 0).k.sentOn 4
      = [4, 0] := by
  decide

/-- Claim C6 as amended. The length field is written with a single `send`, on the server
reply path and on the client request path: when that `send` moves fewer than 4 bytes, no
further `send` is issued, the payload is not written and the connection is closed (the
server also removes it from `master` and reports `EIO`; the client returns `-1`). -/
theorem length_send_not_retried (libc : Libc) (env : InitEnv) :
    (∀ (c : Cycle) (i : Int) (s : Sock) (R : List Byte) (m : Int) (j : Nat) (rest : List Outcome),
      c.k.fds i = some s → s.sendPlan = .count j :: rest → j < 4 →
      (TCPServer.reply libc c i (some R) m).k.trace
          = .close i 0 :: .send i .var 4 j :: c.k.trace ∧
        (TCPServer.reply libc c i (some R) m).k.fds i = none ∧
        (TCPServer.reply libc c i (some R) m).k.sentOn i = s.tx ++ (intBytes m).take j ∧
        (TCPServer.reply libc c i (some R) m).master = c.master.erase i ∧
        (TCPServer.reply libc c i (some R) m).srv.d_status
          = setError libc c.srv.d_status EIO "doMessageCycle(send)") ∧
    (∀ (c : TCPClient) (k : Kernel) (s : Sock) (out : List Byte) (outMsgLen : Int)
      (inMsgBuf : Option (List Byte)) (inBufLen v : Int) (j : Nat) (rest : List Outcome),
      c.d_init = true → k.fds c.d_fd = some s → s.sendPlan = .count j :: rest → j < 4 →
      (TCPClient.sendAndReceive libc env c k (some out) outMsgLen inMsgBuf inBufLen v).ret = -1 ∧
        (TCPClient.sendAndReceive libc env c k (some out) outMsgLen inMsgBuf inBufLen v).k.trace
          = .close c.d_fd 0 :: .send c.d_fd .var 4 j :: .fcntl c.d_fd 0 :: k.trace ∧
        (TCPClient.sendAndReceive libc env c k (some out) outMsgLen inMsgBuf inBufLen v).k.fds c.d_fd
          = none ∧
        (TCPClient.sendAndReceive libc env c k (some out) outMsgLen inMsgBuf inBufLen v).k.sentOn c.d_fd
          = s.tx ++ (intBytes outMsgLen).take j) := by
  constructor
  · intro c i s R m j rest h hp hj
    have hs := Kernel.send_short c.k i .var (intBytes m) s j rest h hp hj rfl
    generalize hk1 : ({ c.k with
      fds := Function.update c.k.fds i (some { s with tx := s.tx ++ (intBytes m).take j, sendPlan := rest })
      trace := Syscall.send i Mem.var 4 (j : Int) :: c.k.trace } : Kernel) = k1 at hs
    have hk1i : k1.fds i = some { s with tx := s.tx ++ (intBytes m).take j, sendPlan := rest } := by
      rw [← hk1]; simp
    have hk1t : k1.trace = Syscall.send i Mem.var 4 (j : Int) :: c.k.trace := by
      rw [← hk1]
    have hlt : (j : Int) < 4 := by omega
    have hstep : TCPServer.reply libc c i (some R) m =
        { c.drop k1 i with
          srv := { c.srv with d_status := setError libc c.srv.d_status EIO "doMessageCycle(send)" } } := by
      simp only [TCPServer.reply, hs, hlt, ↓reduceIte]
    rw [hstep]
    refine ⟨?_, Kernel.close_fds_self _ _, ?_, rfl, rfl⟩
    · show (k1.close i).trace = _
      rw [Kernel.close_open k1 i _ hk1i, hk1t]
    · show (k1.close i).sentOn i = _
      rw [Kernel.close_sentOn, Kernel.sentOn_open k1 i _ hk1i]
  · intro c k s out outMsgLen inMsgBuf inBufLen v j rest hinit h hp hj
    have hf := Kernel.fcntl_open k c.d_fd s h
    generalize hk0 : ({ k with trace := Syscall.fcntl c.d_fd 0 :: k.trace } : Kernel) = k0 at hf
    have hk0i : k0.fds c.d_fd = some s := by rw [← hk0]; exact h
    have hk0t : k0.trace = Syscall.fcntl c.d_fd 0 :: k.trace := by rw [← hk0]
    have hs := Kernel.send_short k0 c.d_fd .var (intBytes outMsgLen) s j rest hk0i hp hj rfl
    generalize hk1 : ({ k0 with
      fds := Function.update k0.fds c.d_fd
        (some { s with tx := s.tx ++ (intBytes outMsgLen).take j, sendPlan := rest })
      trace := Syscall.send c.d_fd Mem.var 4 (j : Int) :: k0.trace } : Kernel) = k1 at hs
    have hk1i : k1.fds c.d_fd
        = some { s with tx := s.tx ++ (intBytes outMsgLen).take j, sendPlan := rest } := by
      rw [← hk1]; simp
    have hk1t : k1.trace = Syscall.send c.d_fd Mem.var 4 (j : Int) :: k0.trace := by
      rw [← hk1]
    have hlt : (j : Int) < 4 := by omega
    have hstep : TCPClient.sendAndReceive libc env c k (some out) outMsgLen inMsgBuf inBufLen v =
        ⟨-1, inMsgBuf, v,
          { c with d_status := setError libc c.d_status k1.errno "sendAndReceive(send)" },
          k1.close c.d_fd⟩ := by
      simp only [TCPClient.sendAndReceive, TCPClient.sendRequest, hinit, hf]
      simp [hs, hlt, hinit]
    rw [hstep]
    refine ⟨rfl, ?_, Kernel.close_fds_self _ _, ?_⟩
    · show (k1.close c.d_fd).trace = _
      rw [Kernel.close_open k1 _ _ hk1i, hk1t, hk0t]
    · show (k1.close c.d_fd).sentOn c.d_fd = _
      rw [Kernel.close_sentOn, Kernel.sentOn_open k1 _ _ hk1i]

/-- Claim C6 as amended, concrete scenario: the `send` of the length field moves 2 bytes. -/
theorem length_send_not_retried_two_bytes :
    (TCPServer.reply Example.libc (Example.server [] [.count 2] []) 5 (some Example.ping) 4).k.trace
      = [.close 5 0, .send 5 .var 4 2] ∧
    (TCPClient.sendAndReceive Example.libc Example.env Example.client
      (Kernel.boot.withSock 4 (Sock.scripted [] [.count 2] [])) (some Example.ping) 4 none 0 0).ret
      = -1 :=
  ⟨((length_send_not_retried Example.libc Example.env).1 (Example.server [] [.count 2] []) 5
      (Sock.scripted [] [.count 2] []) Example.ping 4 2 [] rfl rfl (by decide)).1,
    ((length_send_not_retried Example.libc Example.env).2 Example.client
      (Kernel.boot.withSock 4 (Sock.scripted [] [.count 2] [])) (Sock.scripted [] [.count 2] [])
      Example.ping 4 none 0 0 2 [] rfl rfl rfl (by decide)).1⟩

/-- Claim C7. Over a transport that accepts every byte offered, the bytes
`TCPClient::sendAndReceive` puts on the connection for a request buffer of length `L` are the
4 bytes of `L` followed by the `L` message bytes and nothing else, and the bytes the server
puts on the connection for a non-null reply of length `L'` are the 4 bytes of `L'` followed by
the `L'` reply bytes. -/
theorem wire_format (libc : Libc) (env : InitEnv) (handler : Handler) :
    (∀ (c : TCPClient) (k : Kernel) (s : Sock) (out : List Byte)
      (inMsgBuf : Option (List Byte)) (inBufLen v : Int),
      c.d_init = true → k.fds c.d_fd = some s → s.sendPlan = [] →
      (TCPClient.sendAndReceive libc env c k (some out) out.length inMsgBuf inBufLen v).k.sentOn c.d_fd
        = s.tx ++ intBytes out.length ++ out) ∧
    (∀ (c : Cycle) (i : Int) (s : Sock) (msgSize : Int) (c1 : Cycle) (R : List Byte),
      c.k.fds i = some s → s.sendPlan = [] →
      TCPServer.readMessage libc c i = .ok (msgSize, c1) →
      handler c1.srv.d_rcvBuf msgSize = (some R, (R.length : Int)) →
      (TCPServer.clientMessage libc handler c i).k.sentOn i
        = s.tx ++ intBytes R.length ++ R) := by
  constructor
  · intro c k s out inMsgBuf inBufLen v hinit h hp
    obtain ⟨k1, hk1, hk1i⟩ := sendRequest_lossless libc env c k s out hinit h hp
    have hsent : k1.sentOn c.d_fd = s.tx ++ intBytes out.length ++ out := by
      rw [Kernel.sentOn_open k1 _ _ hk1i]
    cases inMsgBuf with
    | none => simpa only [TCPClient.sendAndReceive, hk1] using hsent
    | some inBuf =>
      simp only [TCPClient.sendAndReceive, hk1]
      rw [receiveReply_sentOn, hsent]
  · intro c i s msgSize c1 R h hp hread hout
    obtain ⟨-, -, -, f4, -, -, -⟩ := readMessage_ok_frame libc c i msgSize c1 hread
    have hs1 := f4 i
    rw [h] at hs1
    cases hc1 : c1.k.fds i with
    | none => simp [hc1] at hs1
    | some s1 =>
      simp only [hc1, Option.map_some', Option.some.injEq, Prod.mk.injEq] at hs1
      obtain ⟨ht, hq, -⟩ := hs1
      obtain ⟨g1, -⟩ := reply_lossless libc
        { c1 with calls := (c1.srv.d_rcvBuf, msgSize) :: c1.calls } i s1 R hc1 (hq.trans hp)
      simp only [TCPServer.clientMessage, hread, hout]
      rw [Kernel.sentOn_open _ _ _ g1, ht]

/-- Claim C7, concrete scenario: the request "ping" and its echo on the wire. -/
theorem wire_format_ping :
    (TCPClient.sendAndReceive Example.libc Example.env Example.client
      (Kernel.boot.withSock 4 (Sock.lossless fun _ => [])) (some Example.ping) 4 none 0 0).k.sentOn 4
      = [4, 0, 0, 0, 112, 105, 110, 103] ∧
    (TCPServer.clientMessage Example.libc Example.echo
      (Example.server (intBytes 4 ++ Example.ping) [] []) 5).k.sentOn 5
      = [4, 0, 0, 0, 112, 105, 110, 103] :=
  ⟨(wire_format Example.libc Example.env Example.echo).1 Example.client
      (Kernel.boot.withSock 4 (Sock.lossless fun _ => [])) (Sock.lossless fun _ => [])
      Example.ping none 0 0 rfl rfl rfl,
    (wire_format Example.libc Example.env Example.echo).2
      (Example.server (intBytes 4 ++ Example.ping) [] []) 5
      (Sock.scripted (intBytes 4 ++ Example.ping) [] [])
      (Example.received (intBytes 4 ++ Example.ping)).1
      (Example.received (intBytes 4 ++ Example.ping)).2 Example.ping rfl rfl rfl rfl⟩

/-- Claim C8. The base class `TCPServer::receiveAndReply` returns `NULL` and sets
`*outMsgLen` to `0`; and whenever a message has been received in full and the handler returns
`NULL`, the server issues no `send`, and the connection stays open and in `master`. -/
theorem null_reply_sends_nothing (libc : Libc) (handler : Handler) :
    (∀ (buf : List Byte) (len : Int), TCPServer.receiveAndReply buf len = (none, 0)) ∧
    (∀ (c : Cycle) (i : Int) (msgSize : Int) (c1 : Cycle),
      TCPServer.readMessage libc c i = .ok (msgSize, c1) →
      (handler c1.srv.d_rcvBuf msgSize).1 = none →
      (TCPServer.clientMessage libc handler c i).k.trace.filter Syscall.isSend
          = c.k.trace.filter Syscall.isSend ∧
        (TCPServer.clientMessage libc handler c i).k.sentOn i = c.k.sentOn i ∧
        (TCPServer.clientMessage libc handler c i).master = c.master ∧
        ((TCPServer.clientMessage libc handler c i).k.fds i).isSome = true ∧
        (TCPServer.clientMessage libc handler c i).calls = (c1.srv.d_rcvBuf, msgSize) :: c.calls) := by
  refine ⟨fun _ _ => rfl, ?_⟩
  intro c i msgSize c1 hread hnull
  obtain ⟨f1, f2, -, f4, f5, f6, f7⟩ := readMessage_ok_frame libc c i msgSize c1 hread
  have hstep : TCPServer.clientMessage libc handler c i
      = { c1 with calls := (c1.srv.d_rcvBuf, msgSize) :: c1.calls } := by
    simp only [TCPServer.clientMessage, hread, hnull, TCPServer.reply]
  rw [hstep]
  refine ⟨f6, Kernel.sentOn_congr _ _ i (f4 i) f5, f1, ?_, by rw [f2]⟩
  have := congrArg Option.isSome (f4 i)
  simpa [f7] using this

/-- Claim C8, concrete scenario: the base class handler on the request "ping". -/
theorem null_reply_sends_nothing_ping :
    (TCPServer.clientMessage Example.libc TCPServer.receiveAndReply
      (Example.server (intBytes 4 ++ Example.ping) [] []) 5).k.sentOn 5 = [] ∧
    (TCPServer.clientMessage Example.libc TCPServer.receiveAndReply
      (Example.server (intBytes 4 ++ Example.ping) [] []) 5).master = {3, 5} :=
  have h := (null_reply_sends_nothing Example.libc TCPServer.receiveAndReply).2
    (Example.server (intBytes 4 ++ Example.ping) [] []) 5
    (Example.received (intBytes 4 ++ Example.ping)).1
    (Example.received (intBytes 4 ++ Example.ping)).2 rfl rfl
  ⟨h.2.1, h.2.2.1⟩

/-- Claim C9. For an initialised client with an open descriptor and a request whose send
completes, `TCPClient::sendAndReceive` and `UDPClient::sendAndReceive` called with
`inMsgBuf = NULL` return `0`, issue no `recv`/`recvfrom`, and leave `*inMsgLen` as it was. -/
theorem fire_and_forget (libc : Libc) (env : InitEnv) :
    (∀ (c : TCPClient) (k : Kernel) (out : List Byte) (outMsgLen inBufLen v : Int),
      c.d_init = true → k.isOpen c.d_fd = true →
      4 ≤ ((k.fcntl c.d_fd).2.send c.d_fd .var (intBytes outMsgLen) 4).1 →
      outMsgLen ≤ (writeLoop 3 ((k.fcntl c.d_fd).2.send c.d_fd .var (intBytes outMsgLen) 4).2
        c.d_fd out outMsgLen 0).1 →
      (TCPClient.sendAndReceive libc env c k (some out) outMsgLen none inBufLen v).ret = 0 ∧
        (TCPClient.sendAndReceive libc env c k (some out) outMsgLen none inBufLen v).inMsgLen = v ∧
        (TCPClient.sendAndReceive libc env c k (some out) outMsgLen none inBufLen v).k.trace.filter
          Syscall.isRecv = k.trace.filter Syscall.isRecv) ∧
    (∀ (c : UDPClient) (k : Kernel) (out : List Byte) (outMsgLen inBufLen v : Int),
      c.d_init = true → k.isOpen c.d_fd = true →
      outMsgLen ≤ ((k.fcntl c.d_fd).2.sendto c.d_fd out outMsgLen c.d_server).1 →
      (UDPClient.sendAndReceive libc env c k (some out) outMsgLen none inBufLen v).ret = 0 ∧
        (UDPClient.sendAndReceive libc env c k (some out) outMsgLen none inBufLen v).inMsgLen = v ∧
        (UDPClient.sendAndReceive libc env c k (some out) outMsgLen none inBufLen v).k.trace.filter
          Syscall.isRecv = k.trace.filter Syscall.isRecv) := by
  constructor
  · intro c k out outMsgLen inBufLen v hinit hopen hhdr hpay
    have hf := Kernel.fcntl_isOpen k c.d_fd hopen
    rw [hf] at hhdr hpay
    have h1 : ¬ (Kernel.send { k with trace := .fcntl c.d_fd 0 :: k.trace } c.d_fd .var
        (intBytes outMsgLen) 4).1 < 4 := not_lt.mpr hhdr
    have h2 : ¬ (writeLoop 3 (Kernel.send { k with trace := .fcntl c.d_fd 0 :: k.trace } c.d_fd .var
        (intBytes outMsgLen) 4).2 c.d_fd out outMsgLen 0).1 < outMsgLen := not_lt.mpr hpay
    have hstep : TCPClient.sendAndReceive libc env c k (some out) outMsgLen none inBufLen v =
        ⟨0, none, v, c, (writeLoop 3 (Kernel.send { k with trace := .fcntl c.d_fd 0 :: k.trace }
          c.d_fd .var (intBytes outMsgLen) 4).2 c.d_fd out outMsgLen 0).2⟩ := by
      simp only [TCPClient.sendAndReceive, TCPClient.sendRequest, hinit, hf]
      simp [h1, h2]
    rw [hstep]
    refine ⟨rfl, rfl, ?_⟩
    show (writeLoop 3 _ c.d_fd out outMsgLen 0).2.trace.filter Syscall.isRecv = _
    rw [writeLoop_filter_isRecv, Kernel.send_filter_isRecv]
    simp [Syscall.isRecv]
  · intro c k out outMsgLen inBufLen v hinit hopen hsend
    have hf := Kernel.fcntl_isOpen k c.d_fd hopen
    rw [hf] at hsend
    have h1 : ¬ (Kernel.sendto { k with trace := .fcntl c.d_fd 0 :: k.trace } c.d_fd out outMsgLen
        c.d_server).1 < outMsgLen := not_lt.mpr hsend
    have hstep : UDPClient.sendAndReceive libc env c k (some out) outMsgLen none inBufLen v =
        ⟨0, none, v, c, (Kernel.sendto { k with trace := .fcntl c.d_fd 0 :: k.trace } c.d_fd out
          outMsgLen c.d_server).2⟩ := by
      simp only [UDPClient.sendAndReceive, hinit, hf]
      simp [h1]
    rw [hstep]
    refine ⟨rfl, rfl, ?_⟩
    show (Kernel.sendto _ c.d_fd out outMsgLen c.d_server).2.trace.filter Syscall.isRecv = _
    rw [Kernel.sendto_trace]
    simp [Syscall.isRecv]

/-- Claim C9, concrete scenario: the request "ping" sent without a reply buffer. -/
theorem fire_and_forget_ping :
    (TCPClient.sendAndReceive Example.libc Example.env Example.client
      (Kernel.boot.withSock 4 (Sock.lossless fun _ => [])) (some Example.ping) 4 none 0 7).ret = 0 ∧
    (UDPClient.sendAndReceive Example.libc Example.env Example.udpClient
      Example.udpNet (some Example.ping) 4 none 0 7).ret = 0 :=
  ⟨((fire_and_forget Example.libc Example.env).1 Example.client
      (Kernel.boot.withSock 4 (Sock.lossless fun _ => [])) Example.ping 4 0 7 rfl (by decide)
      (by decide) (by decide)).1,
    ((fire_and_forget Example.libc Example.env).2 Example.udpClient Example.udpNet Example.ping
      4 0 7 rfl (by decide) (by decide)).1⟩

/-- Claim C10. When the reply length field received by `TCPClient::sendAndReceive` is larger
than `inBufLen`, the call returns `-1`, reports `-1` with the text
"sendAndReceive: buffer not large enough.", closes the connection right after the `recv` of
the length field, and leaves `inMsgBuf` untouched. -/
theorem oversized_reply_rejected (libc : Libc) (env : InitEnv) (c : TCPClient) (k : Kernel)
    (outMsgBuf : Option (List Byte)) (outMsgLen : Int) (inBuf : List Byte) (inBufLen v : Int)
    (c1 : TCPClient) (k1 : Kernel)
    (hreq : TCPClient.sendRequest libc env c k outMsgBuf outMsgLen = .ok (c1, k1))
    (hhdr : (k1.recv c1.d_fd .var 4).1 = 4)
    (hbig : inBufLen < bytesInt (k1.recv c1.d_fd .var 4).2.1) :
    (TCPClient.sendAndReceive libc env c k outMsgBuf outMsgLen (some inBuf) inBufLen v).ret = -1 ∧
    (TCPClient.sendAndReceive libc env c k outMsgBuf outMsgLen (some inBuf) inBufLen v).client.d_status
      = ⟨-1, "sendAndReceive: buffer not large enough."⟩ :: c1.d_status ∧
    (TCPClient.sendAndReceive libc env c k outMsgBuf outMsgLen (some inBuf) inBufLen v).k.trace
      = .close c1.d_fd 0 :: .recv c1.d_fd .var 4 4 :: k1.trace ∧
    (TCPClient.sendAndReceive libc env c k outMsgBuf outMsgLen (some inBuf) inBufLen v).k.fds c1.d_fd
      = none ∧
    (TCPClient.sendAndReceive libc env c k outMsgBuf outMsgLen (some inBuf) inBufLen v).inMsgBuf
      = some inBuf := by
  have hlen : (k1.recv c1.d_fd .var 4).2.1.length = 4 := by
    rcases Kernel.recv_ret k1 c1.d_fd .var 4 with ⟨hr, -⟩ | ⟨hr, -, -⟩
    · rw [hr] at hhdr; exact absurd hhdr (by decide)
    · rw [hr] at hhdr; exact_mod_cast hhdr
  have hopen : ∃ s2, (k1.recv c1.d_fd .var 4).2.2.fds c1.d_fd = some s2 := by
    rcases Kernel.recv_ret k1 c1.d_fd .var 4 with ⟨hr, -⟩ | ⟨-, -, hr⟩
    · rw [hr] at hhdr; exact absurd hhdr (by decide)
    · have := congrArg Option.isSome (Kernel.recv_fds k1 c1.d_fd .var 4 c1.d_fd)
      simp only [Option.isSome_map', hr] at this
      exact Option.isSome_iff_exists.mp this
  obtain ⟨s2, hs2⟩ := hopen
  have hdrop : (k1.recv c1.d_fd .var 4).2.1 ++
      (intBytes v).drop (k1.recv c1.d_fd .var 4).2.1.length = (k1.recv c1.d_fd .var 4).2.1 := by
    rw [hlen]; simp [intBytes]
  have h1 : ¬ (k1.recv c1.d_fd .var 4).1 < 4 := by rw [hhdr]; decide
  have hstep : TCPClient.sendAndReceive libc env c k outMsgBuf outMsgLen (some inBuf) inBufLen v =
      ⟨-1, some inBuf, bytesInt (k1.recv c1.d_fd .var 4).2.1,
        { c1 with d_status :=
            setReport c1.d_status (-1) "sendAndReceive: buffer not large enough." },
        (k1.recv c1.d_fd .var 4).2.2.close c1.d_fd⟩ := by
    simp only [TCPClient.sendAndReceive, hreq, TCPClient.receiveReply, hdrop, h1, ↓reduceIte,
      gt_iff_lt, hbig]
  rw [hstep]
  refine ⟨rfl, rfl, ?_, Kernel.close_fds_self _ _, rfl⟩
  show (Kernel.close _ c1.d_fd).trace = _
  rw [Kernel.close_open _ _ s2 hs2, Kernel.recv_trace, hhdr]

/-- Claim C10, concrete scenario: a reply length field of 100 against `inBufLen = 16`. -/
theorem oversized_reply_rejected_100 :
    (TCPClient.sendAndReceive Example.libc Example.env Example.client
      (Kernel.boot.withSock 4 (Sock.scripted (intBytes 100 ++ List.replicate 100 7) [] []))
      (some Example.ping) 4 (some (List.replicate 16 0)) 16 0).ret = -1 ∧
    (TCPClient.sendAndReceive Example.libc Example.env Example.client
      (Kernel.boot.withSock 4 (Sock.scripted (intBytes 100 ++ List.replicate 100 7) [] []))
      (some Example.ping) 4 (some (List.replicate 16 0)) 16 0).inMsgBuf
      = some (List.replicate 16 0) :=
  have h := oversized_reply_rejected Example.libc Example.env Example.client
    (Kernel.boot.withSock 4 (Sock.scripted (intBytes 100 ++ List.replicate 100 7) [] []))
    (some Example.ping) 4 (List.replicate 16 0) 16 0
    (Example.requested
      (Kernel.boot.withSock 4 (Sock.scripted (intBytes 100 ++ List.replicate 100 7) [] []))).1
    (Example.requested
      (Kernel.boot.withSock 4 (Sock.scripted (intBytes 100 ++ List.replicate 100 7) [] []))).2
    (by rfl) (by decide) (by decide)
  ⟨h.1, h.2.2.2.2⟩

/-- Claim C11. The reply length field is only tested against `inBufLen`: when the server
sends the length `-1`, `TCPClient::sendAndReceive` returns `0` with `*inMsgLen = -1`, after a
single `recv` (of the length field) and with nothing stored in the reply buffer. -/
theorem negative_reply_length_accepted :
    (TCPClient.sendAndReceive Example.libc Example.env Example.client
      (Kernel.boot.withSock 4 (Sock.scripted (intBytes (-1)) [] [])) (some Example.ping) 4
      (some (List.replicate 8 0)) 8 0).ret = 0 ∧
    (TCPClient.sendAndReceive Example.libc Example.env Example.client
      (Kernel.boot.withSock 4 (Sock.scripted (intBytes (-1)) [] [])) (some Example.ping) 4
      (some (List.replicate 8 0)) 8 0).inMsgLen = -1 ∧
    (TCPClient.sendAndReceive Example.libc Example.env Example.client
      (Kernel.boot.withSock 4 (Sock.scripted (intBytes (-1)) [] [])) (some Example.ping) 4
      (some (List.replicate 8 0)) 8 0).inMsgBuf = some (List.replicate 8 0) ∧
    (TCPClient.sendAndReceive Example.libc Example.env Example.client
      (Kernel.boot.withSock 4 (Sock.scripted (intBytes (-1)) [] [])) (some Example.ping) 4
      (some (List.replicate 8 0)) 8 0).k.trace.filter Syscall.isRecv = [.recv 4 .var 4 4] := by
  decide

/-- Claim C16. Two calls of `TCPClient::sendAndReceive` that return `-1` with a report whose
code is `0`: the peer has closed the connection, so that the `recv` of the reply length
returns `0` and leaves `errno` at `0`; and the `send` of the request length moves 2 of its 4
bytes, which leaves `errno` at `0` as well. -/
theorem io_failure_reported_with_code_zero :
    (TCPClient.sendAndReceive Example.libc Example.env Example.client
      (Kernel.boot.withSock 4 (Sock.scripted [] [] [])) (some Example.ping) 4
      (some (List.replicate 8 0)) 8 0).ret = -1 ∧
    (TCPClient.sendAndReceive Example.libc Example.env Example.client
      (Kernel.boot.withSock 4 (Sock.scripted [] [] [])) (some Example.ping) 4
      (some (List.replicate 8 0)) 8 0).k.trace.filter Syscall.isRecv = [.recv 4 .var 4 0] ∧
    (TCPClient.sendAndReceive Example.libc Example.env Example.client
      (Kernel.boot.withSock 4 (Sock.scripted [] [] [])) (some Example.ping) 4
      (some (List.replicate 8 0)) 8 0).client.d_status.map Report.code = [0] ∧
    (TCPClient.sendAndReceive Example.libc Example.env Example.client
      (Kernel.boot.withSock 4 (Sock.scripted [] [.count 2] [])) (some Example.ping) 4
      (some (List.replicate 8 0)) 8 0).ret = -1 ∧
    (TCPClient.sendAndReceive Example.libc Example.env Example.client
      (Kernel.boot.withSock 4 (Sock.scripted [] [.count 2] [])) (some Example.ping) 4
      (some (List.replicate 8 0)) 8 0).client.d_status.map Report.code = [0] := by
  decide

/-- Claim C20. When the datagram that `UDPClient::sendAndReceive` receives as the reply
comes from a host address other than the one of the configured server, the call returns
`-1`, reports code `-1` with the text "Received message from some other source", closes
the socket and sets `d_fd` to `-1`, whatever the payload of the datagram. -/
theorem foreign_reply_rejected (libc : Libc) (env : InitEnv) (c : UDPClient) (k : Kernel)
    (d : DSock) (g : Datagram) (more : List Datagram) (out inBuf : List Byte)
    (outMsgLen inBufLen v : Int)
    (hinit : c.d_init = true) (hfd : k.udp c.d_fd = some d)
    (hsp : d.sendPlan = []) (hrp : d.recvPlan = [])
    (hlen : outMsgLen ≤ out.length)
    (hin : d.inbox = g :: more) (hsrc : g.s_addr ≠ c.d_server.s_addr) :
    (UDPClient.sendAndReceive libc env c k (some out) outMsgLen (some inBuf) inBufLen v).ret = -1 ∧
    (UDPClient.sendAndReceive libc env c k (some out) outMsgLen (some inBuf) inBufLen v).client.d_status
      = setReport c.d_status (-1) "sendAndReceive(recv): Received message from some other source" ∧
    (UDPClient.sendAndReceive libc env c k (some out) outMsgLen (some inBuf) inBufLen v).k.isOpen c.d_fd
      = false ∧
    (UDPClient.sendAndReceive libc env c k (some out) outMsgLen (some inBuf) inBufLen v).k.trace.head?
      = some (.close c.d_fd 0) ∧
    (UDPClient.sendAndReceive libc env c k (some out) outMsgLen (some inBuf) inBufLen v).client.d_fd
      = -1 := by
  have hopen : k.isOpen c.d_fd = true := by simp [Kernel.isOpen, hfd]
  have hf := Kernel.fcntl_isOpen k c.d_fd hopen
  generalize hk0 : ({ k with trace := Syscall.fcntl c.d_fd 0 :: k.trace } : Kernel) = k0 at hf
  have hk0u : k0.udp c.d_fd = some d := by rw [← hk0]; exact hfd
  have hs := Kernel.sendto_lossless k0 c.d_fd out outMsgLen c.d_server d hk0u hsp
  have hcount : ¬ (((out.take outMsgLen.toNat).length : Int) < outMsgLen) := by
    rw [List.length_take]; omega
  generalize out.take outMsgLen.toNat = taken at hs hcount
  generalize hk1 : ({ k0 with
      udp := Function.update k0.udp c.d_fd
        (some { d with sent := ⟨c.d_server.s_addr, c.d_server.sin_port, taken⟩ :: d.sent })
      trace := Syscall.sendto c.d_fd outMsgLen taken.length :: k0.trace }
      : Kernel) = k1 at hs
  have hk1u : k1.udp c.d_fd = some { d with
      sent := ⟨c.d_server.s_addr, c.d_server.sin_port, taken⟩ :: d.sent } := by
    rw [← hk1]; simp
  have hr := Kernel.recvfrom_datagram k1 c.d_fd inBufLen _ g more hk1u hrp hin
  generalize g.payload.take inBufLen.toNat = data at hr
  generalize hk2 : ({ k1 with
      udp := Function.update k1.udp c.d_fd
        (some { ({ d with sent := ⟨c.d_server.s_addr, c.d_server.sin_port, taken⟩ :: d.sent } : DSock) with
          inbox := more, recvPlan := [] })
      trace := Syscall.recvfrom c.d_fd inBufLen data.length :: k1.trace }
      : Kernel) = k2 at hr
  have hk2o : k2.isOpen c.d_fd = true := by rw [← hk2]; simp [Kernel.isOpen]
  have hne : ¬ ((data.length : Int) = -1) := by omega
  have hclose : (k2.close c.d_fd).trace.head? = some (.close c.d_fd 0) := by
    simp [Kernel.close, hk2o]
  simp only [UDPClient.sendAndReceive, hinit, hf, hs, hr]
  simp [hs, hr, hcount, hne, hsrc, Kernel.close_isOpen, hclose, snprintf80_other_source]

/-- Claim C20, concrete scenario: the reply to "ping" comes from host address 2 while the
server is at host address 1. -/
theorem foreign_reply_rejected_ping :
    (UDPClient.sendAndReceive Example.libc Example.env Example.udpClient Example.foreignNet
      (some Example.ping) 4 (some (List.replicate 8 0)) 8 0).ret = -1 ∧
    (UDPClient.sendAndReceive Example.libc Example.env Example.udpClient Example.foreignNet
      (some Example.ping) 4 (some (List.replicate 8 0)) 8 0).client.d_status
      = setReport Example.udpClient.d_status (-1)
          "sendAndReceive(recv): Received message from some other source" ∧
    (UDPClient.sendAndReceive Example.libc Example.env Example.udpClient Example.foreignNet
      (some Example.ping) 4 (some (List.replicate 8 0)) 8 0).k.isOpen Example.udpClient.d_fd
      = false ∧
    (UDPClient.sendAndReceive Example.libc Example.env Example.udpClient Example.foreignNet
      (some Example.ping) 4 (some (List.replicate 8 0)) 8 0).k.trace.head?
      = some (.close Example.udpClient.d_fd 0) ∧
    (UDPClient.sendAndReceive Example.libc Example.env Example.udpClient Example.foreignNet
      (some Example.ping) 4 (some (List.replicate 8 0)) 8 0).client.d_fd = -1 :=
  foreign_reply_rejected Example.libc Example.env Example.udpClient Example.foreignNet
    ⟨[⟨2, 9000, Example.ping⟩], [], [], []⟩ ⟨2, 9000, Example.ping⟩ [] Example.ping
    (List.replicate 8 0) 4 8 0 rfl (by rfl) rfl rfl (by decide) rfl (by decide)

/-- Claim C19. In the client message processing of `TCPServer::doMessageCycle`, when the
`recv` of the length field returns fewer than 4 bytes, or the length is within
`d_rcvBufSize` and the read loop ends with fewer bytes than that length, the descriptor is
closed and removed from `master`, `receiveAndReply` is not invoked, and no `send` is issued:
the bytes written to the connection are the ones written before. -/
theorem short_read_drops_connection (libc : Libc) (handler : Handler) (c : Cycle) (i : Int)
    (h : (c.k.recv i .var 4).1 < 4 ∨
      (¬ (c.k.recv i .var 4).1 < 4 ∧
        ¬ bytesInt (c.k.recv i .var 4).2.1 > c.srv.d_rcvBufSize ∧
        (readLoop 3 (c.k.recv i .var 4).2.2 i c.srv.d_rcvBuf
          (bytesInt (c.k.recv i .var 4).2.1) 0).1 < bytesInt (c.k.recv i .var 4).2.1)) :
    (TCPServer.clientMessage libc handler c i).k.isOpen i = false ∧
    (∃ r, (TCPServer.clientMessage libc handler c i).k.trace.head? = some (.close i r)) ∧
    (TCPServer.clientMessage libc handler c i).master = c.master.erase i ∧
    (TCPServer.clientMessage libc handler c i).calls = c.calls ∧
    (TCPServer.clientMessage libc handler c i).k.trace.filter Syscall.isSend
      = c.k.trace.filter Syscall.isSend ∧
    (TCPServer.clientMessage libc handler c i).k.sentOn i = c.k.sentOn i := by
  have hrecv : (c.k.recv i .var 4).2.2.sentOn i = c.k.sentOn i :=
    Kernel.sentOn_congr _ _ i (Kernel.recv_fds _ _ _ _ _) (Kernel.recv_closed _ _ _ _)
  have hrs := Kernel.recv_filter_isSend c.k i .var 4
  rcases h with h1 | ⟨h1, h2, h3⟩
  · have hcm : TCPServer.clientMessage libc handler c i = c.drop (c.k.recv i .var 4).2.2 i := by
      simp [TCPServer.clientMessage, TCPServer.readMessage, h1]
    rw [hcm]
    obtain ⟨r, hr⟩ := Kernel.close_trace (c.k.recv i .var 4).2.2 i
    refine ⟨Kernel.close_isOpen _ _, ⟨r, ?_⟩, rfl, rfl, ?_, ?_⟩
    · show (Kernel.close _ _).trace.head? = _
      rw [hr]; rfl
    · show (Kernel.close _ _).trace.filter _ = _
      rw [Kernel.close_filter_isSend, hrs]
    · show (Kernel.close _ _).sentOn i = _
      rw [Kernel.close_sentOn, hrecv]
  · obtain ⟨f1, f2, f3⟩ := readLoop_frame 3 (c.k.recv i .var 4).2.2 i c.srv.d_rcvBuf
      (bytesInt (c.k.recv i .var 4).2.1) 0
    have hloop := Kernel.sentOn_congr _ _ i (f1 i) f2
    generalize hrl : readLoop 3 (c.k.recv i .var 4).2.2 i c.srv.d_rcvBuf
      (bytesInt (c.k.recv i .var 4).2.1) 0 = rl at h3 f1 f2 f3 hloop
    have hcm : (TCPServer.clientMessage libc handler c i).k = rl.2.2.close i ∧
        (TCPServer.clientMessage libc handler c i).master = c.master.erase i ∧
        (TCPServer.clientMessage libc handler c i).calls = c.calls := by
      simp [TCPServer.clientMessage, TCPServer.readMessage, h1, h2, hrl, h3, Cycle.drop]
    obtain ⟨e1, e2, e3⟩ := hcm
    obtain ⟨r, hr⟩ := Kernel.close_trace rl.2.2 i
    rw [e1]
    refine ⟨Kernel.close_isOpen _ _, ⟨r, ?_⟩, e2, e3, ?_, ?_⟩
    · rw [hr]; rfl
    · rw [Kernel.close_filter_isSend, f3, hrs]
    · rw [Kernel.close_sentOn, hloop, hrecv]

/-- Claim C19, concrete scenario: only 2 bytes of a length field arrive; and a length
field of 4 arrives followed by 2 bytes. -/
theorem short_read_drops_connection_cut :
    ((TCPServer.clientMessage Example.libc Example.echo (Example.server [4, 0] [] []) 5).k.isOpen 5
      = false ∧
    (∃ r, (TCPServer.clientMessage Example.libc Example.echo
      (Example.server [4, 0] [] []) 5).k.trace.head? = some (.close 5 r)) ∧
    (TCPServer.clientMessage Example.libc Example.echo (Example.server [4, 0] [] []) 5).master
      = (Example.server [4, 0] [] []).master.erase 5 ∧
    (TCPServer.clientMessage Example.libc Example.echo (Example.server [4, 0] [] []) 5).calls
      = (Example.server [4, 0] [] []).calls ∧
    (TCPServer.clientMessage Example.libc Example.echo
      (Example.server [4, 0] [] []) 5).k.trace.filter Syscall.isSend
      = (Example.server [4, 0] [] []).k.trace.filter Syscall.isSend ∧
    (TCPServer.clientMessage Example.libc Example.echo (Example.server [4, 0] [] []) 5).k.sentOn 5
      = (Example.server [4, 0] [] []).k.sentOn 5) ∧
    (TCPServer.clientMessage Example.libc Example.echo
      (Example.server (intBytes 4 ++ [112, 105]) [] []) 5).calls = [] :=
  ⟨short_read_drops_connection Example.libc Example.echo (Example.server [4, 0] [] []) 5
      (Or.inl (by decide)),
    (short_read_drops_connection Example.libc Example.echo
      (Example.server (intBytes 4 ++ [112, 105]) [] []) 5
      (Or.inr ⟨by decide, by decide, by decide⟩)).2.2.2.1⟩

/-- Claim C17. Whatever the state of the server object, when a step of `TCPServer::init` or
`UDPServer::init` fails (`socket`, one of the `setsockopt` calls, `bind`, `listen`, the
allocation of the receive buffer), `init` returns `-1` with `d_init` false and `d_fd` equal
to `-1`, and its report carries the error code and the text that names the step. A
`UDPServer::doMessageCycle` that follows returns at once with a "not initialized" report,
without a system call and without invoking `receiveAndReply`. A `TCPServer::doMessageCycle`
that follows does not: before it tests `d_init` it executes `FD_SET(d_fd, &master)` with
`d_fd = -1`, which has no defined behaviour. `socket` does not hand out `-1` as a
descriptor. -/
theorem cycle_after_failed_init (libc : Libc) (env : ListenEnv) (port size bdp : Int)
    (step : InitStep) (code : Int) (hfd : env.socket ≠ .ok (-1)) :
    (∀ (s : TCPServer) (k : Kernel), env.tcpFailure bdp = some (step, code) →
      (TCPServer.init libc env s k port size bdp).1 = -1 ∧
      (TCPServer.init libc env s k port size bdp).2.1.d_init = false ∧
      (TCPServer.init libc env s k port size bdp).2.1.d_fd = -1 ∧
      (TCPServer.init libc env s k port size bdp).2.1.d_status
        = setError libc s.d_status code step.tcpText ∧
      FD_SET (TCPServer.init libc env s k port size bdp).2.1.d_fd ∅ = none ∧
      ∀ (handler : Handler) (selects : List (Except Int Ready)),
        TCPServer.doMessageCycle libc handler selects
          (TCPServer.init libc env s k port size bdp).2.1
          (TCPServer.init libc env s k port size bdp).2.2 = none) ∧
    (∀ (s : UDPServer) (k : Kernel), env.udpFailure bdp = some (step, code) →
      (UDPServer.init libc env s k port size bdp).1 = -1 ∧
      (UDPServer.init libc env s k port size bdp).2.1.d_init = false ∧
      (UDPServer.init libc env s k port size bdp).2.1.d_fd = -1 ∧
      (UDPServer.init libc env s k port size bdp).2.1.d_status
        = setError libc s.d_status code step.udpText ∧
      ∀ (handler : Handler) (cancels : List Bool),
        (UDPServer.doMessageCycle libc handler cancels
          (UDPServer.init libc env s k port size bdp).2.1
          (UDPServer.init libc env s k port size bdp).2.2).2 = true ∧
        (UDPServer.doMessageCycle libc handler cancels
          (UDPServer.init libc env s k port size bdp).2.1
          (UDPServer.init libc env s k port size bdp).2.2).1.k
          = (UDPServer.init libc env s k port size bdp).2.2 ∧
        (UDPServer.doMessageCycle libc handler cancels
          (UDPServer.init libc env s k port size bdp).2.1
          (UDPServer.init libc env s k port size bdp).2.2).1.calls = [] ∧
        (UDPServer.doMessageCycle libc handler cancels
          (UDPServer.init libc env s k port size bdp).2.1
          (UDPServer.init libc env s k port size bdp).2.2).1.srv.d_status
          = setReport (setError libc s.d_status code step.udpText) (-1)
              "doMessageCycle: server not initialized") := by
  constructor
  · intro s k h
    obtain ⟨g1, g2, g3, g4⟩ := TCPServer.init_fails libc env s k port size bdp step code hfd h
    refine ⟨g1, g2, g3, g4, ?_, ?_⟩
    · rw [g3]; rfl
    · intro handler selects
      exact TCPServer.doMessageCycle_negative libc handler selects _ _ (by rw [g3]; decide)
  · intro s k h
    obtain ⟨g1, g2, g3, g4⟩ := UDPServer.init_fails_udp libc env s k port size bdp step code hfd h
    refine ⟨g1, g2, g3, g4, ?_⟩
    intro handler cancels
    rw [UDPServer.doMessageCycle_not_init_udp libc handler cancels _ _ g2]
    exact ⟨rfl, rfl, rfl, by rw [← g4]⟩

/-- Claim C17, concrete scenario: `bind` fails with error 98 for a stream server and for a
datagram server that were initialised before; the `doMessageCycle` of the stream server is
then undefined, that of the datagram server returns. With `bdp = 1` a refused `SO_SNDBUF`
is the failing step; with `bdp = 4194304` the `int` product `bdp * 1024` is zero, the buffer
size options are not set and `init` returns `0`. -/
theorem cycle_after_failed_init_bind :
    ((TCPServer.init Example.libc Example.busyPort Example.oldServer Kernel.boot 9000 64 0).1 = -1 ∧
      (TCPServer.init Example.libc Example.busyPort Example.oldServer Kernel.boot 9000 64 0).2.1.d_init
        = false ∧
      (TCPServer.init Example.libc Example.busyPort Example.oldServer Kernel.boot 9000 64 0).2.1.d_fd
        = -1 ∧
      (TCPServer.init Example.libc Example.busyPort Example.oldServer Kernel.boot 9000 64 0).2.1.d_status
        = setError Example.libc Example.oldServer.d_status 98 "init(bind)" ∧
      TCPServer.doMessageCycle Example.libc Example.echo Example.rounds
        (TCPServer.init Example.libc Example.busyPort Example.oldServer Kernel.boot 9000 64 0).2.1
        (TCPServer.init Example.libc Example.busyPort Example.oldServer Kernel.boot 9000 64 0).2.2
        = none) ∧
    ((UDPServer.init Example.libc Example.busyPort Example.oldUdpServer Kernel.boot 9000 64 0).1 = -1 ∧
      (UDPServer.init Example.libc Example.busyPort Example.oldUdpServer Kernel.boot 9000 64 0).2.1.d_init
        = false ∧
      (UDPServer.init Example.libc Example.busyPort Example.oldUdpServer Kernel.boot 9000 64 0).2.1.d_fd
        = -1 ∧
      (UDPServer.init Example.libc Example.busyPort Example.oldUdpServer Kernel.boot 9000 64 0).2.1.d_status
        = setError Example.libc Example.oldUdpServer.d_status 98 "init(bind)" ∧
      (UDPServer.doMessageCycle Example.libc Example.echo [false]
        (UDPServer.init Example.libc Example.busyPort Example.oldUdpServer Kernel.boot 9000 64 0).2.1
        (UDPServer.init Example.libc Example.busyPort Example.oldUdpServer Kernel.boot 9000 64 0).2.2).2
        = true) ∧
    (Example.fixedBuffers.tcpFailure 1 = some (.sndbuf, 22) ∧
      (TCPServer.init Example.libc Example.fixedBuffers Example.oldServer Kernel.boot 9000 64 1).1
        = -1 ∧
      int32 (4194304 * 1024) = 0 ∧
      Example.fixedBuffers.tcpFailure 4194304 = none ∧
      (TCPServer.init Example.libc Example.fixedBuffers Example.oldServer Kernel.boot 9000 64
        4194304).1 = 0) :=
  ⟨by
      obtain ⟨g1, g2, g3, g4, -, g5⟩ :=
        (cycle_after_failed_init Example.libc Example.busyPort 9000 64 0 .bind 98
          (by simp [Example.busyPort])).1 Example.oldServer Kernel.boot (by rfl)
      exact ⟨g1, g2, g3, g4, g5 Example.echo Example.rounds⟩,
    by
      obtain ⟨g1, g2, g3, g4, g5⟩ :=
        (cycle_after_failed_init Example.libc Example.busyPort 9000 64 0 .bind 98
          (by simp [Example.busyPort])).2 Example.oldUdpServer Kernel.boot (by rfl)
      exact ⟨g1, g2, g3, g4, (g5 Example.echo [false]).1⟩,
    by decide⟩

/-- Claim C18. In `TCPServer::doMessageCycle` the processing of a client descriptor `i`
leaves `master` as it was or with `i` removed, whatever happens on the connection; a pass
of the `for` loop over a descriptor never removes the listening descriptor from `master`;
and the function, called on an initialised server whose listening descriptor is not
negative, returns exactly when a `select` fails, so that no outcome on a client connection
ends the loop. (With a negative `d_fd` the `FD_SET` at the start of the function has no
defined behaviour.) -/
theorem server_loop_fault_isolation (libc : Libc) (handler : Handler) :
    (∀ (c : Cycle) (i : Int),
      (TCPServer.clientMessage libc handler c i).master = c.master ∨
      (TCPServer.clientMessage libc handler c i).master = c.master.erase i) ∧
    (∀ (readFds : Finset Int) (r : Ready) (st : Loop) (i : Int),
      st.c.srv.d_fd ∈ st.c.master →
      (TCPServer.serveDescriptor libc handler readFds r st i).c.srv.d_fd = st.c.srv.d_fd ∧
      st.c.srv.d_fd ∈ (TCPServer.serveDescriptor libc handler readFds r st i).c.master) ∧
    (∀ (selects : List (Except Int Ready)) (srv : TCPServer) (k : Kernel),
      srv.d_init = true →
      (0 ≤ srv.d_fd →
        ∃ r, TCPServer.doMessageCycle libc handler selects srv k = some r ∧
          srv.d_fd ∈ r.1.c.master ∧
          (r.2 = true ↔ ∃ e, Except.error e ∈ selects)) ∧
      (srv.d_fd < 0 → TCPServer.doMessageCycle libc handler selects srv k = none)) := by
  refine ⟨fun c i => (TCPServer.clientMessage_master libc handler c i).1,
    fun readFds r st i h => TCPServer.serveDescriptor_listening libc handler readFds r st i h, ?_⟩
  intro selects srv k hinit
  refine ⟨fun hfd => ?_, fun hfd => TCPServer.doMessageCycle_negative libc handler selects srv k hfd⟩
  refine ⟨_, TCPServer.doMessageCycle_init libc handler selects srv k hfd hinit, ?_, ?_⟩
  · exact (TCPServer.loop_listening libc handler selects ⟨⟨srv, k, {srv.d_fd}, []⟩, srv.d_fd⟩
      (Finset.mem_singleton_self _)).2
  · exact TCPServer.loop_left libc handler selects _

/-- Claim C18, concrete scenario: a client connects, is dropped after a short length field,
and the loop goes on until `select` fails. -/
theorem server_loop_fault_isolation_rounds :
    ∃ r, TCPServer.doMessageCycle Example.libc Example.echo Example.rounds Example.oldServer
        Kernel.boot = some r ∧
      Example.oldServer.d_fd ∈ r.1.c.master ∧
      (r.2 = true ↔ ∃ e, Except.error e ∈ Example.rounds) :=
  ((server_loop_fault_isolation Example.libc Example.echo).2.2 Example.rounds Example.oldServer
    Kernel.boot rfl).1 (by decide)

/-- Claim C12. When an initialised `TCPClient` finds its descriptor invalid at the start of
`sendAndReceive`, the call is one `init` with the stored server name, port, receive timeout
and bdp, followed by `return -1` when that `init` returns `-1`, and by the exchange on the
object and system left by `init` otherwise. In the first case no `send` is issued; in the
second the exchange runs on the descriptor of the new connection, with the stored
configuration kept. -/
theorem probe_failure_reinitialises (libc : Libc) (env : InitEnv) (c : TCPClient) (k : Kernel)
    (name : String) (outMsgBuf : Option (List Byte)) (outMsgLen : Int)
    (inMsgBuf : Option (List Byte)) (inBufLen v : Int)
    (hinit : c.d_init = true) (hname : c.d_serverName = some name)
    (hprobe : k.isOpen c.d_fd = false) :
    TCPClient.sendAndReceive libc env c k outMsgBuf outMsgLen inMsgBuf inBufLen v =
      (if (TCPClient.init libc env c (k.fcntl c.d_fd).2 name c.d_serverPort c.d_recvTimeout
          c.d_bdp).1 = -1
      then ⟨-1, inMsgBuf, v,
        (TCPClient.init libc env c (k.fcntl c.d_fd).2 name c.d_serverPort c.d_recvTimeout
          c.d_bdp).2.1,
        (TCPClient.init libc env c (k.fcntl c.d_fd).2 name c.d_serverPort c.d_recvTimeout
          c.d_bdp).2.2⟩
      else TCPClient.exchange libc
        (TCPClient.init libc env c (k.fcntl c.d_fd).2 name c.d_serverPort c.d_recvTimeout
          c.d_bdp).2.1
        (TCPClient.init libc env c (k.fcntl c.d_fd).2 name c.d_serverPort c.d_recvTimeout
          c.d_bdp).2.2
        outMsgBuf outMsgLen inMsgBuf inBufLen v) ∧
    ((TCPClient.init libc env c (k.fcntl c.d_fd).2 name c.d_serverPort c.d_recvTimeout
        c.d_bdp).1 = -1 →
      (TCPClient.sendAndReceive libc env c k outMsgBuf outMsgLen inMsgBuf inBufLen v).ret = -1 ∧
      (TCPClient.sendAndReceive libc env c k outMsgBuf outMsgLen inMsgBuf inBufLen v).k.trace.filter
        Syscall.isSend = k.trace.filter Syscall.isSend) ∧
    ((TCPClient.init libc env c (k.fcntl c.d_fd).2 name c.d_serverPort c.d_recvTimeout
        c.d_bdp).1 ≠ -1 →
      (TCPClient.init libc env c (k.fcntl c.d_fd).2 name c.d_serverPort c.d_recvTimeout
        c.d_bdp).2.1.d_init = true ∧
      env.socket = .ok (TCPClient.init libc env c (k.fcntl c.d_fd).2 name c.d_serverPort
        c.d_recvTimeout c.d_bdp).2.1.d_fd ∧
      (TCPClient.init libc env c (k.fcntl c.d_fd).2 name c.d_serverPort c.d_recvTimeout
        c.d_bdp).2.2.fds
        (TCPClient.init libc env c (k.fcntl c.d_fd).2 name c.d_serverPort c.d_recvTimeout
          c.d_bdp).2.1.d_fd = some env.conn ∧
      (TCPClient.init libc env c (k.fcntl c.d_fd).2 name c.d_serverPort c.d_recvTimeout
        c.d_bdp).2.1.d_serverName = some name ∧
      (TCPClient.init libc env c (k.fcntl c.d_fd).2 name c.d_serverPort c.d_recvTimeout
        c.d_bdp).2.1.d_serverPort = c.d_serverPort ∧
      (TCPClient.init libc env c (k.fcntl c.d_fd).2 name c.d_serverPort c.d_recvTimeout
        c.d_bdp).2.1.d_recvTimeout = c.d_recvTimeout ∧
      (TCPClient.init libc env c (k.fcntl c.d_fd).2 name c.d_serverPort c.d_recvTimeout
        c.d_bdp).2.1.d_bdp = c.d_bdp) := by
  have heq := TCPClient.sendAndReceive_reconnect libc env c k outMsgBuf outMsgLen inMsgBuf
    inBufLen v hinit hprobe
  have hn : c.d_serverName.getD "" = name := by rw [hname]; rfl
  rw [hn] at heq
  have hspec := TCPClient.init_spec libc env c (k.fcntl c.d_fd).2 name c.d_serverPort
    c.d_recvTimeout c.d_bdp
  generalize TCPClient.init libc env c (k.fcntl c.d_fd).2 name c.d_serverPort c.d_recvTimeout
    c.d_bdp = r at heq hspec ⊢
  refine ⟨heq, ?_, ?_⟩
  · intro hr
    rw [heq, if_pos hr]
    refine ⟨rfl, ?_⟩
    rcases hspec with ⟨-, -, a3⟩ | ⟨a1, -⟩
    · exact a3.trans (Kernel.fcntl_filter_isSend k c.d_fd)
    · rw [a1] at hr; exact absurd hr (by decide)
  · intro hr
    rcases hspec with ⟨a1, -⟩ | ⟨-, a2, a3, a4, -, a6, a7, a8, a9⟩
    · exact absurd a1 hr
    · exact ⟨a2, a3, a4, a9 hname, a8, a6, a7⟩

/-- Claim C12, concrete scenario: descriptor 4 of the client is not open and the server can
be reached; the exchange goes on on descriptor 7. -/
theorem probe_failure_reinitialises_fresh :
    (TCPClient.init Example.libc Example.env Example.client
      (Kernel.boot.fcntl Example.client.d_fd).2 "localhost" Example.client.d_serverPort
      Example.client.d_recvTimeout Example.client.d_bdp).2.1.d_init = true ∧
    Example.env.socket = .ok (TCPClient.init Example.libc Example.env Example.client
      (Kernel.boot.fcntl Example.client.d_fd).2 "localhost" Example.client.d_serverPort
      Example.client.d_recvTimeout Example.client.d_bdp).2.1.d_fd ∧
    (TCPClient.sendAndReceive Example.libc Example.env Example.client Kernel.boot
      (some Example.ping) 4 none 0 0).k.sentOn 7 = intBytes 4 ++ Example.ping :=
  ⟨((probe_failure_reinitialises Example.libc Example.env Example.client Kernel.boot "localhost"
      (some Example.ping) 4 none 0 0 rfl rfl (by decide)).2.2 (by decide)).1,
    ((probe_failure_reinitialises Example.libc Example.env Example.client Kernel.boot "localhost"
      (some Example.ping) 4 none 0 0 rfl rfl (by decide)).2.2 (by decide)).2.1,
    by decide⟩

/-- Claim C13 fails as stated: after a call whose reconnect attempt failed (the server
refused the connection), the next call returns `-1` although the server can now be reached,
and it issues no system call at all, so it does not attempt a reconnect. -/
theorem failed_reconnect_is_final :
    Example.stranded.ret = -1 ∧
    Example.stranded.k.trace.filter Syscall.isConnect = [.connect 7 (-1), .socket 7] ∧
    (TCPClient.sendAndReceive Example.libc Example.echoEnv Example.stranded.client
      Example.stranded.k (some Example.ping) 4 (some (List.replicate 8 0)) 8 0).ret = -1 ∧
    (TCPClient.sendAndReceive Example.libc Example.echoEnv Example.stranded.client
      Example.stranded.k (some Example.ping) 4 (some (List.replicate 8 0)) 8 0).k.trace
      = Example.stranded.k.trace ∧
    ((TCPClient.sendAndReceive Example.libc Example.echoEnv Example.stranded.client
      Example.stranded.k (some Example.ping) 4 (some (List.replicate 8 0)) 8 0).client.d_status.map
      Report.code).head? = some (-1) := by
  decide

/-- Claim C13 as amended. When a `sendAndReceive` call of an initialised client finds the
descriptor invalid and the `init` it runs fails, the call returns `-1` and leaves `d_init`
false; every later `sendAndReceive` call then returns `-1` with the report "sendAndReceive:
client not initialized", leaves the system untouched (no reconnect attempt) and leaves
`d_init` false. -/
theorem failed_reconnect_needs_init (libc : Libc) (env : InitEnv) (c : TCPClient) (k : Kernel)
    (outMsgBuf : Option (List Byte)) (outMsgLen : Int)
    (inMsgBuf : Option (List Byte)) (inBufLen v : Int)
    (hinit : c.d_init = true) (hprobe : k.isOpen c.d_fd = false)
    (hfail : (TCPClient.init libc env c (k.fcntl c.d_fd).2 (c.d_serverName.getD "")
      c.d_serverPort c.d_recvTimeout c.d_bdp).1 = -1) :
    (TCPClient.sendAndReceive libc env c k outMsgBuf outMsgLen inMsgBuf inBufLen v).ret = -1 ∧
    (TCPClient.sendAndReceive libc env c k outMsgBuf outMsgLen inMsgBuf inBufLen v).client.d_init
      = false ∧
    ∀ (env2 : InitEnv) (out2 : Option (List Byte)) (len2 : Int) (in2 : Option (List Byte))
      (cap2 v2 : Int),
      (TCPClient.sendAndReceive libc env2
        (TCPClient.sendAndReceive libc env c k outMsgBuf outMsgLen inMsgBuf inBufLen v).client
        (TCPClient.sendAndReceive libc env c k outMsgBuf outMsgLen inMsgBuf inBufLen v).k
        out2 len2 in2 cap2 v2).ret = -1 ∧
      (TCPClient.sendAndReceive libc env2
        (TCPClient.sendAndReceive libc env c k outMsgBuf outMsgLen inMsgBuf inBufLen v).client
        (TCPClient.sendAndReceive libc env c k outMsgBuf outMsgLen inMsgBuf inBufLen v).k
        out2 len2 in2 cap2 v2).k
        = (TCPClient.sendAndReceive libc env c k outMsgBuf outMsgLen inMsgBuf inBufLen v).k ∧
      (TCPClient.sendAndReceive libc env2
        (TCPClient.sendAndReceive libc env c k outMsgBuf outMsgLen inMsgBuf inBufLen v).client
        (TCPClient.sendAndReceive libc env c k outMsgBuf outMsgLen inMsgBuf inBufLen v).k
        out2 len2 in2 cap2 v2).client.d_status
        = setReport
          (TCPClient.sendAndReceive libc env c k outMsgBuf outMsgLen inMsgBuf inBufLen v).client.d_status
          (-1) "sendAndReceive: client not initialized" ∧
      (TCPClient.sendAndReceive libc env2
        (TCPClient.sendAndReceive libc env c k outMsgBuf outMsgLen inMsgBuf inBufLen v).client
        (TCPClient.sendAndReceive libc env c k outMsgBuf outMsgLen inMsgBuf inBufLen v).k
        out2 len2 in2 cap2 v2).client.d_init = false := by
  have heq := TCPClient.sendAndReceive_reconnect libc env c k outMsgBuf outMsgLen inMsgBuf
    inBufLen v hinit hprobe
  rw [if_pos hfail] at heq
  have hd : (TCPClient.init libc env c (k.fcntl c.d_fd).2 (c.d_serverName.getD "")
      c.d_serverPort c.d_recvTimeout c.d_bdp).2.1.d_init = false := by
    rcases TCPClient.init_spec libc env c (k.fcntl c.d_fd).2 (c.d_serverName.getD "")
      c.d_serverPort c.d_recvTimeout c.d_bdp with ⟨-, a2, -⟩ | ⟨a1, -⟩
    · exact a2
    · rw [a1] at hfail; exact absurd hfail (by decide)
  have hx : (TCPClient.sendAndReceive libc env c k outMsgBuf outMsgLen inMsgBuf inBufLen
      v).client.d_init = false := by rw [heq]; exact hd
  refine ⟨by rw [heq], hx, ?_⟩
  intro env2 out2 len2 in2 cap2 v2
  rw [TCPClient.sendAndReceive_not_init libc env2 _ _ out2 len2 in2 cap2 v2 hx]
  exact ⟨rfl, rfl, rfl, hx⟩

/-- Claim C13 as amended, concrete scenario: the server refuses the connection, and is
reachable at the time of the second call. -/
theorem failed_reconnect_needs_init_refused :
    Example.stranded.ret = -1 ∧ Example.stranded.client.d_init = false ∧
    (TCPClient.sendAndReceive Example.libc Example.echoEnv Example.stranded.client
      Example.stranded.k (some Example.ping) 4 (some (List.replicate 8 0)) 8 0).ret = -1 :=
  ⟨(failed_reconnect_needs_init Example.libc Example.unreachable Example.client Kernel.boot
      (some Example.ping) 4 (some (List.replicate 8 0)) 8 0 rfl (by decide) (by decide)).1,
    (failed_reconnect_needs_init Example.libc Example.unreachable Example.client Kernel.boot
      (some Example.ping) 4 (some (List.replicate 8 0)) 8 0 rfl (by decide) (by decide)).2.1,
    ((failed_reconnect_needs_init Example.libc Example.unreachable Example.client Kernel.boot
      (some Example.ping) 4 (some (List.replicate 8 0)) 8 0 rfl (by decide) (by decide)).2.2
      Example.echoEnv (some Example.ping) 4 (some (List.replicate 8 0)) 8 0).1⟩

/-- Claim C14 fails as stated: on a connection that the peer has closed while the local
descriptor is still open, and with the server reachable, the next `sendAndReceive` call
returns `-1` without a `socket` or `connect` call: it writes the request on the old
descriptor, gets `0` from the `recv` of the reply length, and closes the descriptor. -/
theorem peer_close_not_detected :
    Example.cutOff.ret = -1 ∧
    Example.cutOff.k.trace.filter Syscall.isConnect = [] ∧
    Example.cutOff.k.trace
      = [.close 4 0, .recv 4 .var 4 0, .send 4 (.buf 0) 4 4, .send 4 .var 4 4, .fcntl 4 0] := by
  decide

/-- Claim C14 as amended. For an initialised stream client whose peer has closed the
connection while the local descriptor is still open, the next `sendAndReceive` call that
asks for a reply does not reconnect: it returns `-1` without a `socket` or `connect` call,
closes the descriptor and changes the object in `d_status` only. It is the call after that
one which finds the descriptor invalid and runs `init` with the stored configuration: it
returns `-1` when that `init` fails, and `0` with the reply of the server when `init`
succeeds and the server answers over a transport that moves every byte requested. -/
theorem peer_close_reconnects_one_call_later (libc : Libc) (env : InitEnv) (c : TCPClient)
    (k : Kernel) (s : Sock) (out inBuf : List Byte) (inBufLen v : Int)
    (hinit : c.d_init = true) (hfd : k.fds c.d_fd = some s)
    (hsp : s.sendPlan = []) (hrp : s.recvPlan = [])
    (hclosed : ∀ t, (s.peer t).drop s.rxPos = []) :
    (TCPClient.sendAndReceive libc env c k (some out) out.length (some inBuf) inBufLen v).ret = -1 ∧
    (TCPClient.sendAndReceive libc env c k (some out) out.length (some inBuf) inBufLen
      v).k.trace.filter Syscall.isConnect = k.trace.filter Syscall.isConnect ∧
    (TCPClient.sendAndReceive libc env c k (some out) out.length (some inBuf) inBufLen
      v).k.isOpen c.d_fd = false ∧
    (∃ st, (TCPClient.sendAndReceive libc env c k (some out) out.length (some inBuf) inBufLen
      v).client = { c with d_status := st }) ∧
    ∀ (env2 : InitEnv) (P R rest inBuf2 : List Byte) (cap2 v2 : Int),
      ((TCPClient.init libc env2
          (TCPClient.sendAndReceive libc env c k (some out) out.length (some inBuf) inBufLen
            v).client
          ((TCPClient.sendAndReceive libc env c k (some out) out.length (some inBuf) inBufLen
            v).k.fcntl c.d_fd).2
          (c.d_serverName.getD "") c.d_serverPort c.d_recvTimeout c.d_bdp).1 = -1 →
        (TCPClient.sendAndReceive libc env2
          (TCPClient.sendAndReceive libc env c k (some out) out.length (some inBuf) inBufLen
            v).client
          (TCPClient.sendAndReceive libc env c k (some out) out.length (some inBuf) inBufLen
            v).k
          (some P) P.length (some inBuf2) cap2 v2).ret = -1) ∧
      ((TCPClient.init libc env2
          (TCPClient.sendAndReceive libc env c k (some out) out.length (some inBuf) inBufLen
            v).client
          ((TCPClient.sendAndReceive libc env c k (some out) out.length (some inBuf) inBufLen
            v).k.fcntl c.d_fd).2
          (c.d_serverName.getD "") c.d_serverPort c.d_recvTimeout c.d_bdp).1 ≠ -1 →
        env2.conn.sendPlan = [] → env2.conn.recvPlan = [] →
        (env2.conn.peer (env2.conn.tx ++ intBytes P.length ++ P)).drop env2.conn.rxPos
          = intBytes R.length ++ R ++ rest →
        (R.length : Int) ≤ cap2 → (R.length : Int) < 2147483648 →
        (TCPClient.sendAndReceive libc env2
          (TCPClient.sendAndReceive libc env c k (some out) out.length (some inBuf) inBufLen
            v).client
          (TCPClient.sendAndReceive libc env c k (some out) out.length (some inBuf) inBufLen
            v).k
          (some P) P.length (some inBuf2) cap2 v2).ret = 0 ∧
        (TCPClient.sendAndReceive libc env2
          (TCPClient.sendAndReceive libc env c k (some out) out.length (some inBuf) inBufLen
            v).client
          (TCPClient.sendAndReceive libc env c k (some out) out.length (some inBuf) inBufLen
            v).k
          (some P) P.length (some inBuf2) cap2 v2).inMsgLen = R.length ∧
        ∃ b, (TCPClient.sendAndReceive libc env2
          (TCPClient.sendAndReceive libc env c k (some out) out.length (some inBuf) inBufLen
            v).client
          (TCPClient.sendAndReceive libc env c k (some out) out.length (some inBuf) inBufLen
            v).k
          (some P) P.length (some inBuf2) cap2 v2).inMsgBuf = some b ∧ b.take R.length = R) := by
  have hopen : k.isOpen c.d_fd = true := by simp [Kernel.isOpen, hfd]
  have heq := TCPClient.sendAndReceive_connected libc env c k (some out) out.length (some inBuf)
    inBufLen v hinit hopen
  have hrecv := TCPClient.reply_length_after_peer_close libc c
    { k with trace := .fcntl c.d_fd 0 :: k.trace } s out hfd hsp hrp hclosed
  obtain ⟨g1, g2, st, g3⟩ := TCPClient.exchange_io_failure libc c
    { k with trace := .fcntl c.d_fd 0 :: k.trace } out out.length (some inBuf) inBufLen v
    (Or.inr (Or.inr (Or.inl ⟨inBuf, rfl, hrecv⟩)))
  have g4 := TCPClient.exchange_filter_isConnect libc c
    { k with trace := .fcntl c.d_fd 0 :: k.trace } (some out) out.length (some inBuf) inBufLen v
  rw [← heq] at g1 g2 g3 g4
  generalize TCPClient.sendAndReceive libc env c k (some out) out.length (some inBuf) inBufLen v
    = x at g1 g2 g3 g4 ⊢
  refine ⟨g1, g4.trans (by simp [Syscall.isConnect]), g2, ⟨st, g3⟩, ?_⟩
  intro env2 P R rest inBuf2 cap2 v2
  have hxi : x.client.d_init = true := by rw [g3]; exact hinit
  have hxo : x.k.isOpen x.client.d_fd = false := by rw [g3]; exact g2
  have heq2 := TCPClient.sendAndReceive_reconnect libc env2 x.client x.k (some P) P.length
    (some inBuf2) cap2 v2 hxi hxo
  have hspec := TCPClient.init_spec libc env2 x.client (x.k.fcntl x.client.d_fd).2
    (x.client.d_serverName.getD "") x.client.d_serverPort x.client.d_recvTimeout x.client.d_bdp
  have e1 : x.client.d_fd = c.d_fd := by rw [g3]
  have e2 : x.client.d_serverName = c.d_serverName := by rw [g3]
  have e3 : x.client.d_serverPort = c.d_serverPort := by rw [g3]
  have e4 : x.client.d_recvTimeout = c.d_recvTimeout := by rw [g3]
  have e5 : x.client.d_bdp = c.d_bdp := by rw [g3]
  rw [e1, e2, e3, e4, e5] at heq2 hspec
  generalize TCPClient.init libc env2 x.client (x.k.fcntl c.d_fd).2 (c.d_serverName.getD "")
    c.d_serverPort c.d_recvTimeout c.d_bdp = r at heq2 hspec ⊢
  constructor
  · intro hr
    rw [heq2, if_pos hr]
  · intro hr hp1 hp2 hrx hcap hint
    rw [heq2, if_neg hr]
    rcases hspec with ⟨a1, -⟩ | ⟨-, -, -, a4, -⟩
    · exact absurd a1 hr
    · obtain ⟨f1, f2, f3, -⟩ := TCPClient.exchange_lossless libc r.2.1 r.2.2 env2.conn P R rest
        inBuf2 cap2 v2 a4 hp1 hp2 hrx hcap hint
      exact ⟨f1, f2, f3⟩

/-- Claim C14 as amended, concrete scenario: the call on the connection that the peer has
closed fails; the call after it reaches an echoing server on descriptor 7 and returns its
reply. -/
theorem peer_close_reconnects_one_call_later_echo :
    Example.cutOff.ret = -1 ∧
    Example.cutOff.k.isOpen 4 = false ∧
    (TCPClient.sendAndReceive Example.libc Example.echoEnv Example.cutOff.client Example.cutOff.k
      (some Example.ping) (4 : Nat) (some (List.replicate 8 0)) 8 0).ret = 0 ∧
    (TCPClient.sendAndReceive Example.libc Example.echoEnv Example.cutOff.client Example.cutOff.k
      (some Example.ping) (4 : Nat) (some (List.replicate 8 0)) 8 0).inMsgLen = (4 : Nat) ∧
    ∃ b, (TCPClient.sendAndReceive Example.libc Example.echoEnv Example.cutOff.client
      Example.cutOff.k (some Example.ping) (4 : Nat) (some (List.replicate 8 0)) 8 0).inMsgBuf
        = some b ∧ b.take 4 = Example.ping :=
  ⟨(peer_close_reconnects_one_call_later Example.libc Example.echoEnv Example.client
      Example.hungUp (Sock.scripted [] [] []) Example.ping (List.replicate 8 0) 8 0
      rfl (by rfl) rfl rfl (fun _ => rfl)).1,
    (peer_close_reconnects_one_call_later Example.libc Example.echoEnv Example.client
      Example.hungUp (Sock.scripted [] [] []) Example.ping (List.replicate 8 0) 8 0
      rfl (by rfl) rfl rfl (fun _ => rfl)).2.2.1,
    ((peer_close_reconnects_one_call_later Example.libc Example.echoEnv Example.client
      Example.hungUp (Sock.scripted [] [] []) Example.ping (List.replicate 8 0) 8 0
      rfl (by rfl) rfl rfl (fun _ => rfl)).2.2.2.2
      Example.echoEnv Example.ping Example.ping [] (List.replicate 8 0) 8 0).2
      (by decide) rfl rfl (by rfl) (by decide) (by decide)⟩

/-- Claim C15. Once `TCPClient::sendAndReceive` has its connection, each of the four
failures (the `send` of the length moves fewer than 4 bytes, the write loop ends short of
`outMsgLen`, the `recv` of the reply length returns fewer than 4 bytes, the read loop ends
short of the reply length) makes the call return `-1` with the descriptor closed and
`d_init` still true, so that the probe of the next call fails and that call starts with
`init` on the stored configuration. -/
theorem io_failure_closes_connection (libc : Libc) (env : InitEnv) (c : TCPClient) (k : Kernel)
    (c0 : TCPClient) (k0 : Kernel) (out : List Byte) (outMsgLen : Int)
    (inMsgBuf : Option (List Byte)) (inBufLen v : Int)
    (hconn : TCPClient.connected libc env c k = .ok (c0, k0))
    (hfail : (k0.send c0.d_fd .var (intBytes outMsgLen) 4).1 < 4 ∨
      (writeLoop 3 (k0.send c0.d_fd .var (intBytes outMsgLen) 4).2 c0.d_fd out outMsgLen 0).1
        < outMsgLen ∨
      (∃ inBuf, inMsgBuf = some inBuf ∧
        ((writeLoop 3 (k0.send c0.d_fd .var (intBytes outMsgLen) 4).2 c0.d_fd out outMsgLen 0).2.recv
          c0.d_fd .var 4).1 < 4) ∨
      (∃ inBuf, inMsgBuf = some inBuf ∧
        (readLoop 3
          ((writeLoop 3 (k0.send c0.d_fd .var (intBytes outMsgLen) 4).2 c0.d_fd out outMsgLen 0).2.recv
            c0.d_fd .var 4).2.2 c0.d_fd inBuf
          (bytesInt (((writeLoop 3 (k0.send c0.d_fd .var (intBytes outMsgLen) 4).2 c0.d_fd out
              outMsgLen 0).2.recv c0.d_fd .var 4).2.1 ++
            (intBytes v).drop ((writeLoop 3 (k0.send c0.d_fd .var (intBytes outMsgLen) 4).2 c0.d_fd
              out outMsgLen 0).2.recv c0.d_fd .var 4).2.1.length)) 0).1
        < bytesInt (((writeLoop 3 (k0.send c0.d_fd .var (intBytes outMsgLen) 4).2 c0.d_fd out
              outMsgLen 0).2.recv c0.d_fd .var 4).2.1 ++
            (intBytes v).drop ((writeLoop 3 (k0.send c0.d_fd .var (intBytes outMsgLen) 4).2 c0.d_fd
              out outMsgLen 0).2.recv c0.d_fd .var 4).2.1.length))) :
    (TCPClient.sendAndReceive libc env c k (some out) outMsgLen inMsgBuf inBufLen v).ret = -1 ∧
    (TCPClient.sendAndReceive libc env c k (some out) outMsgLen inMsgBuf inBufLen v).k.isOpen
      (TCPClient.sendAndReceive libc env c k (some out) outMsgLen inMsgBuf inBufLen v).client.d_fd
      = false ∧
    (TCPClient.sendAndReceive libc env c k (some out) outMsgLen inMsgBuf inBufLen v).client.d_init
      = true ∧
    ((TCPClient.sendAndReceive libc env c k (some out) outMsgLen inMsgBuf inBufLen v).k.fcntl
      (TCPClient.sendAndReceive libc env c k (some out) outMsgLen inMsgBuf inBufLen v).client.d_fd).1
      = -1 ∧
    ∀ (env2 : InitEnv) (out2 : Option (List Byte)) (len2 : Int) (in2 : Option (List Byte))
      (cap2 v2 : Int),
      TCPClient.sendAndReceive libc env2
        (TCPClient.sendAndReceive libc env c k (some out) outMsgLen inMsgBuf inBufLen v).client
        (TCPClient.sendAndReceive libc env c k (some out) outMsgLen inMsgBuf inBufLen v).k
        out2 len2 in2 cap2 v2 =
      if (TCPClient.init libc env2
          (TCPClient.sendAndReceive libc env c k (some out) outMsgLen inMsgBuf inBufLen v).client
          ((TCPClient.sendAndReceive libc env c k (some out) outMsgLen inMsgBuf inBufLen v).k.fcntl
            c0.d_fd).2
          (c0.d_serverName.getD "") c0.d_serverPort c0.d_recvTimeout c0.d_bdp).1 = -1
      then ⟨-1, in2, v2,
        (TCPClient.init libc env2
          (TCPClient.sendAndReceive libc env c k (some out) outMsgLen inMsgBuf inBufLen v).client
          ((TCPClient.sendAndReceive libc env c k (some out) outMsgLen inMsgBuf inBufLen v).k.fcntl
            c0.d_fd).2
          (c0.d_serverName.getD "") c0.d_serverPort c0.d_recvTimeout c0.d_bdp).2.1,
        (TCPClient.init libc env2
          (TCPClient.sendAndReceive libc env c k (some out) outMsgLen inMsgBuf inBufLen v).client
          ((TCPClient.sendAndReceive libc env c k (some out) outMsgLen inMsgBuf inBufLen v).k.fcntl
            c0.d_fd).2
          (c0.d_serverName.getD "") c0.d_serverPort c0.d_recvTimeout c0.d_bdp).2.2⟩
      else TCPClient.exchange libc
        (TCPClient.init libc env2
          (TCPClient.sendAndReceive libc env c k (some out) outMsgLen inMsgBuf inBufLen v).client
          ((TCPClient.sendAndReceive libc env c k (some out) outMsgLen inMsgBuf inBufLen v).k.fcntl
            c0.d_fd).2
          (c0.d_serverName.getD "") c0.d_serverPort c0.d_recvTimeout c0.d_bdp).2.1
        (TCPClient.init libc env2
          (TCPClient.sendAndReceive libc env c k (some out) outMsgLen inMsgBuf inBufLen v).client
          ((TCPClient.sendAndReceive libc env c k (some out) outMsgLen inMsgBuf inBufLen v).k.fcntl
            c0.d_fd).2
          (c0.d_serverName.getD "") c0.d_serverPort c0.d_recvTimeout c0.d_bdp).2.2
        out2 len2 in2 cap2 v2 := by
  have hc0 := TCPClient.connected_ok_init libc env c k c0 k0 hconn
  have heq : TCPClient.sendAndReceive libc env c k (some out) outMsgLen inMsgBuf inBufLen v
      = TCPClient.exchange libc c0 k0 (some out) outMsgLen inMsgBuf inBufLen v := by
    rw [sendAndReceive_eq, hconn]
  obtain ⟨g1, g2, st, g3⟩ := TCPClient.exchange_io_failure libc c0 k0 out outMsgLen inMsgBuf
    inBufLen v hfail
  rw [← heq] at g1 g2 g3
  generalize TCPClient.sendAndReceive libc env c k (some out) outMsgLen inMsgBuf inBufLen v
    = x at g1 g2 g3 ⊢
  have e1 : x.client.d_fd = c0.d_fd := by rw [g3]
  have hxi : x.client.d_init = true := by rw [g3]; exact hc0
  have hxo : x.k.isOpen x.client.d_fd = false := by rw [e1]; exact g2
  refine ⟨g1, hxo, hxi, (Kernel.fcntl_fails_iff _ _).mpr hxo, ?_⟩
  intro env2 out2 len2 in2 cap2 v2
  have heq2 := TCPClient.sendAndReceive_reconnect libc env2 x.client x.k out2 len2 in2 cap2 v2
    hxi hxo
  have e2 : x.client.d_serverName = c0.d_serverName := by rw [g3]
  have e3 : x.client.d_serverPort = c0.d_serverPort := by rw [g3]
  have e4 : x.client.d_recvTimeout = c0.d_recvTimeout := by rw [g3]
  have e5 : x.client.d_bdp = c0.d_bdp := by rw [g3]
  rw [e1, e2, e3, e4, e5] at heq2
  exact heq2

/-- Claim C15, concrete scenario: the `send` of the request length moves 2 of its 4 bytes. -/
theorem io_failure_closes_connection_short_send :
    (TCPClient.sendAndReceive Example.libc Example.env Example.client
      (Kernel.boot.withSock 4 (Sock.scripted [] [.count 2] [])) (some Example.ping) 4
      (some (List.replicate 8 0)) 8 0).ret = -1 ∧
    (TCPClient.sendAndReceive Example.libc Example.env Example.client
      (Kernel.boot.withSock 4 (Sock.scripted [] [.count 2] [])) (some Example.ping) 4
      (some (List.replicate 8 0)) 8 0).k.isOpen
      (TCPClient.sendAndReceive Example.libc Example.env Example.client
        (Kernel.boot.withSock 4 (Sock.scripted [] [.count 2] [])) (some Example.ping) 4
        (some (List.replicate 8 0)) 8 0).client.d_fd = false ∧
    (TCPClient.sendAndReceive Example.libc Example.env Example.client
      (Kernel.boot.withSock 4 (Sock.scripted [] [.count 2] [])) (some Example.ping) 4
      (some (List.replicate 8 0)) 8 0).client.d_init = true :=
  ⟨(io_failure_closes_connection Example.libc Example.env Example.client
      (Kernel.boot.withSock 4 (Sock.scripted [] [.count 2] [])) Example.probed.1 Example.probed.2
      Example.ping 4 (some (List.replicate 8 0)) 8 0 (by rfl) (Or.inl (by decide))).1,
    (io_failure_closes_connection Example.libc Example.env Example.client
      (Kernel.boot.withSock 4 (Sock.scripted [] [.count 2] [])) Example.probed.1 Example.probed.2
      Example.ping 4 (some (List.replicate 8 0)) 8 0 (by rfl) (Or.inl (by decide))).2.1,
    (io_failure_closes_connection Example.libc Example.env Example.client
      (Kernel.boot.withSock 4 (Sock.scripted [] [.count 2] [])) Example.probed.1 Example.probed.2
      Example.ping 4 (some (List.replicate 8 0)) 8 0 (by rfl) (Or.inl (by decide))).2.2.1⟩

/-- Claim C24 fails as stated: when thread 7 owns the mutex with the recursion count at its
largest value, its `tryLock` returns `0` and the count becomes `0` instead of growing by 1.
The state this leaves has the owner 7 with the count 0, and in it a `tryLock` of thread 9
returns `0`, although the mutex is neither without an owner nor owned by thread 9. -/
theorem try_lock_wraps_count :
    (RecursiveMutex.tryLock ⟨4294967295, 7⟩ 7).1 = 0 ∧
    (RecursiveMutex.tryLock ⟨4294967295, 7⟩ 7).2.d_recursionCount = 0 ∧
    (RecursiveMutex.tryLock ⟨4294967295, 7⟩ 7).2.d_recursionCount ≠ 4294967295 + 1 ∧
    (RecursiveMutex.tryLock ⟨4294967295, 7⟩ 7).2 = ⟨0, 7⟩ ∧
    (RecursiveMutex.tryLock ⟨0, 7⟩ 9).1 = 0 ∧
    (RecursiveMutex.tryLock (RecursiveMutex.tryLock ⟨4294967295, 7⟩ 7).2 9).1 = 0 := by
  decide

/-- Claim C24 as amended. Take a state whose recursion count is below its largest value
4294967295. In every such state in which the owner is null exactly when the count is zero,
`tryLock` called by a thread `t` (not the null sentinel) returns `0` if and only if the
mutex has no owner or `t` owns it, and the state it leaves is again of that kind (last part
of the statement). Whatever the owner field holds, `tryLock` returns `0` exactly when the
count is zero or `t` is the owner, and `-1` otherwise; with `0` the owner is `t` and the
count has grown by exactly 1 (to 1 from zero), with `-1` the state is unchanged. -/
theorem try_lock_below_max (m : RecursiveMutex) (t : Nat)
    (hc : m.d_recursionCount + 1 < UINT) :
    ((m.tryLock t).1 = 0 ↔ (m.d_recursionCount = 0 ∨ m.d_ownerId = t)) ∧
    ((m.tryLock t).1 = 0 ∨ (m.tryLock t).1 = -1) ∧
    ((m.tryLock t).1 = 0 →
      (m.tryLock t).2.d_ownerId = t ∧
      (m.tryLock t).2.d_recursionCount = m.d_recursionCount + 1) ∧
    ((m.tryLock t).1 = -1 → (m.tryLock t).2 = m) ∧
    ((m.d_ownerId = 0 ↔ m.d_recursionCount = 0) → t ≠ 0 →
      ((m.tryLock t).1 = 0 ↔ (m.d_ownerId = 0 ∨ m.d_ownerId = t)) ∧
      ((m.tryLock t).2.d_ownerId = 0 ↔ (m.tryLock t).2.d_recursionCount = 0)) := by
  have hmod : (m.d_recursionCount + 1) % UINT = m.d_recursionCount + 1 := Nat.mod_eq_of_lt hc
  by_cases h1 : m.d_ownerId = t
  · have hval : m.tryLock t = (0, ⟨m.d_recursionCount + 1, t⟩) := by
      simp [RecursiveMutex.tryLock, h1, hmod]
    rw [hval]
    refine ⟨⟨fun _ => Or.inr h1, fun _ => rfl⟩, Or.inl rfl, fun _ => ⟨rfl, rfl⟩, ?_, ?_⟩
    · intro h; simp at h
    · intro _ ht
      exact ⟨⟨fun _ => Or.inr h1, fun _ => rfl⟩,
        ⟨fun h => absurd h ht, fun h => absurd h (Nat.succ_ne_zero _)⟩⟩
  · by_cases h2 : m.d_recursionCount = 0
    · have hval : m.tryLock t = (0, ⟨1, t⟩) := by
        simp [RecursiveMutex.tryLock, h1, h2]
      rw [hval]
      refine ⟨⟨fun _ => Or.inl h2, fun _ => rfl⟩, Or.inl rfl, fun _ => ⟨rfl, by rw [h2]⟩,
        ?_, ?_⟩
      · intro h; simp at h
      · intro hm ht
        exact ⟨⟨fun _ => Or.inl (hm.mpr h2), fun _ => rfl⟩,
          ⟨fun h => absurd h ht, fun h => absurd h (Nat.succ_ne_zero 0)⟩⟩
    · have hval : m.tryLock t = (-1, m) := by
        simp [RecursiveMutex.tryLock, h1, h2]
      rw [hval]
      refine ⟨⟨fun h => ?_, fun h => ?_⟩, Or.inr rfl, fun h => ?_, fun _ => rfl, ?_⟩
      · simp at h
      · rcases h with h | h
        · exact absurd h h2
        · exact absurd h h1
      · simp at h
      · intro hm _
        refine ⟨⟨fun h => ?_, fun h => ?_⟩, hm⟩
        · simp at h
        · rcases h with h | h
          · exact absurd (hm.mp h) h2
          · exact absurd h h1

/-- Claim C24 as amended, concrete scenario: thread 7 holds the mutex twice; its own
`tryLock` succeeds and that of thread 9 fails and changes nothing. -/
theorem try_lock_below_max_nested :
    ((RecursiveMutex.tryLock ⟨2, 7⟩ 7).1 = 0 ↔ ((7 : Nat) = 0 ∨ (7 : Nat) = 7)) ∧
    ((RecursiveMutex.tryLock ⟨2, 7⟩ 9).1 = 0 ↔ ((7 : Nat) = 0 ∨ (7 : Nat) = 9)) ∧
    ((RecursiveMutex.tryLock ⟨2, 7⟩ 9).1 = -1 → RecursiveMutex.tryLock ⟨2, 7⟩ 9 = (-1, ⟨2, 7⟩)) :=
  ⟨((try_lock_below_max ⟨2, 7⟩ 7 (by decide)).2.2.2.2 (by decide) (by decide)).1,
    ((try_lock_below_max ⟨2, 7⟩ 9 (by decide)).2.2.2.2 (by decide) (by decide)).1,
    fun h => Prod.ext h ((try_lock_below_max ⟨2, 7⟩ 9 (by decide)).2.2.2.1 h)⟩

/-- Claim C25 fails as stated: after 4294967296 `lock` calls of thread 7 on a new mutex and
no `unlock`, the recursion count is back at zero, so a `tryLock` of thread 9 returns `0` and a
`lock` of thread 9 does not wait. -/
theorem nested_locks_wrap_around :
    RecursiveMutex.run 7 RecursiveMutex.new (List.replicate 4294967296 .lock) = some ⟨0, 7⟩ ∧
    RecursiveMutex.unlocks (List.replicate 4294967296 RecursiveMutex.Act.lock) = 0 ∧
    RecursiveMutex.locks (List.replicate 4294967296 RecursiveMutex.Act.lock) = 4294967296 ∧
    (RecursiveMutex.tryLock ⟨0, 7⟩ 9).1 = 0 ∧
    (RecursiveMutex.lock ⟨0, 7⟩ 9).isSome = true := by
  have hn : (4294967296 : Nat) = 4294967295 + 1 := by norm_num
  refine ⟨?_, ?_, ?_, by decide, by decide⟩
  · rw [hn, List.replicate_succ]
    have hlock : RecursiveMutex.new.lock 7 = some ⟨1, 7⟩ := by decide
    rw [RecursiveMutex.run, hlock]
    dsimp only
    rcases RecursiveMutex.run_locks_owner 7 4294967295 1 with h | ⟨h, -⟩
    · rw [h]
      have : (1 + 4294967295) % UINT = 0 := by decide
      rw [this]
    · exact absurd h (by norm_num)
  · rw [RecursiveMutex.unlocks, List.countP_replicate]
    rfl
  · rw [RecursiveMutex.locks, List.countP_replicate]
    rfl

/-- Claim C25 as amended. Thread `t` makes `lock`, `tryLock` and `unlock` calls on a new
mutex, such that at every point of the sequence the `unlock` calls do not outnumber the
others and the difference stays below 4294967296. Then no `lock` waits and every `tryLock`
returns `0`, the recursion count is the difference at the end, and another thread `u` can
take the mutex (its `tryLock` returns `0`, its `lock` does not wait) exactly when the numbers
are equal. -/
theorem balanced_unlock_releases (t u : Nat) (ht : t ≠ 0) (hu : u ≠ 0) (htu : u ≠ t)
    (acts : List RecursiveMutex.Act)
    (h : ∀ k, RecursiveMutex.unlocks (acts.take k) ≤ RecursiveMutex.locks (acts.take k) ∧
      RecursiveMutex.locks (acts.take k) - RecursiveMutex.unlocks (acts.take k) < UINT) :
    ∃ m, RecursiveMutex.run t RecursiveMutex.new acts = some m ∧
      m.d_recursionCount = RecursiveMutex.locks acts - RecursiveMutex.unlocks acts ∧
      ((m.tryLock u).1 = 0 ↔ RecursiveMutex.unlocks acts = RecursiveMutex.locks acts) ∧
      ((m.lock u).isSome = true ↔ RecursiveMutex.unlocks acts = RecursiveMutex.locks acts) := by
  have hrun := RecursiveMutex.run_balanced t ht acts h
  have hend := h acts.length
  rw [List.take_length] at hend
  refine ⟨_, hrun, rfl, ?_, ?_⟩
  · by_cases hz : RecursiveMutex.locks acts - RecursiveMutex.unlocks acts = 0
    · have he : RecursiveMutex.unlocks acts = RecursiveMutex.locks acts := by omega
      have hne : ¬ ((0 : Nat) = u) := fun hc => hu hc.symm
      simp [RecursiveMutex.tryLock, hz, hne, he]
    · have he : ¬ (RecursiveMutex.unlocks acts = RecursiveMutex.locks acts) := by omega
      have hne : ¬ (t = u) := fun hc => htu hc.symm
      simp [RecursiveMutex.tryLock, hz, hne, he]
  · by_cases hz : RecursiveMutex.locks acts - RecursiveMutex.unlocks acts = 0
    · have he : RecursiveMutex.unlocks acts = RecursiveMutex.locks acts := by omega
      have hne : ¬ ((0 : Nat) = u) := fun hc => hu hc.symm
      simp [RecursiveMutex.lock, hz, hne, he]
    · have he : ¬ (RecursiveMutex.unlocks acts = RecursiveMutex.locks acts) := by omega
      have hne : ¬ (t = u) := fun hc => htu hc.symm
      simp [RecursiveMutex.lock, hz, hne, he]

/-- Claim C25 as amended, concrete scenario: thread 7 locks twice and unlocks once, then
unlocks again. -/
theorem balanced_unlock_releases_twice :
    (∃ m, RecursiveMutex.run 7 RecursiveMutex.new [.lock, .tryLock, .unlock] = some m ∧
      m.d_recursionCount = 1 ∧ ¬ (m.tryLock 9).1 = 0) ∧
    (∃ m, RecursiveMutex.run 7 RecursiveMutex.new [.lock, .tryLock, .unlock, .unlock] = some m ∧
      m.d_recursionCount = 0 ∧ (m.tryLock 9).1 = 0) := by
  constructor
  · obtain ⟨m, h1, h2, h3, -⟩ := balanced_unlock_releases 7 9 (by decide) (by decide) (by decide)
      [.lock, .tryLock, .unlock] (by
        intro k
        rcases k with _ | _ | _ | _ | k
        all_goals first
          | decide
          | (simp only [List.take_succ_cons, List.take_nil]; decide))
    exact ⟨m, h1, h2, fun hc => absurd (h3.mp hc) (by decide)⟩
  · obtain ⟨m, h1, h2, h3, -⟩ := balanced_unlock_releases 7 9 (by decide) (by decide) (by decide)
      [.lock, .tryLock, .unlock, .unlock] (by
        intro k
        rcases k with _ | _ | _ | _ | _ | k
        all_goals first
          | decide
          | (simp only [List.take_succ_cons, List.take_nil]; decide))
    exact ⟨m, h1, h2, h3.mpr (by decide)⟩

/-- Claim C23. Start from a ring buffer (not `SR_LINEAR`) with at least one element, all
elements allocated, `d_maxMsgLen` not negative and `d_reportNum` zero, as after the
construction or after `clearReports`. After fewer than 4294967296 calls of `setReport`,
`getNumReports()` is the smaller of the number of calls and `d_maxNumMsgs`, and for every
`rN` from 1 to `getNumReports()` the getters return the code, the message (its first
`d_maxMsgLen` characters, nothing for `NULL`) and the time of the `rN`-th most recent call. -/
theorem most_recent_reports (s0 : StatusReport) (calls : List StatusReport.Call)
    (hc : s0.d_bufferType ≠ .SR_LINEAR) (ha : s0.allocated = true)
    (hmax : 1 ≤ s0.d_maxNumMsgs) (hlen : 0 ≤ s0.d_maxMsgLen) (h0 : s0.d_reportNum = 0)
    (hn : calls.length < UINT) :
    ∃ s, s0.report calls = .ok s ∧
      s.getNumReports = min calls.length s0.d_maxNumMsgs ∧
      ∀ rN, 1 ≤ rN → rN ≤ s.getNumReports →
        ∃ c, calls.reverse.get? (rN - 1) = some c ∧
          s.getReportCode rN = .ok c.code ∧
          s.getReportMessage rN = .ok (some (s0.stored c.message)) ∧
          s.getReportTimestamp rN = .ok c.now := by
  have hh0 : s0.holds [] := ⟨h0, fun j hj => absurd hj (Nat.not_lt_zero j)⟩
  obtain ⟨s, e, hh, ha1, t1, m1, l1⟩ :=
    StatusReport.holds_report calls s0 [] hc ha hmax hlen hh0 (by simpa using hn)
  have hc1 : s.d_bufferType ≠ .SR_LINEAR := by rw [t1]; exact hc
  rw [List.append_nil] at hh
  have hnum : s.getNumReports = min calls.length s0.d_maxNumMsgs := by
    have hq : s.getNumReports = min s.d_reportNum s.d_maxNumMsgs := by
      unfold StatusReport.getNumReports
      split_ifs with h
      · exact (Nat.min_eq_left h).symm
      · exact (Nat.min_eq_right (by omega)).symm
    rw [hq, hh.1, m1]
    simp
  refine ⟨s, e, hnum, ?_⟩
  intro rN h1 h2
  obtain ⟨-, m, hm, i, hi, hel⟩ := StatusReport.holds_query s _ rN hc1 ha1 hh h1 h2
  rw [← List.map_reverse] at hm
  simp only [List.get?_eq_getElem?, List.getElem?_map, Option.map_eq_some'] at hm
  obtain ⟨c, hcget, hcm⟩ := hm
  refine ⟨c, by simpa using hcget, ?_, ?_, ?_⟩
  · simp only [StatusReport.getReportCode, hi, hel]
    rw [← hcm]; rfl
  · simp only [StatusReport.getReportMessage, hi, hel]
    rw [← hcm]; rfl
  · simp only [StatusReport.getReportTimestamp, hi, hel]
    rw [← hcm]; rfl

/-- Claim C23, concrete scenario: three reports in a ring buffer of two elements. -/
theorem most_recent_reports_ring :
    ∃ s, Example.ring.report Example.reports = .ok s ∧
      s.getNumReports = min Example.reports.length Example.ring.d_maxNumMsgs ∧
      ∀ rN, 1 ≤ rN → rN ≤ s.getNumReports →
        ∃ c, Example.reports.reverse.get? (rN - 1) = some c ∧
          s.getReportCode rN = .ok c.code ∧
          s.getReportMessage rN = .ok (some (Example.ring.stored c.message)) ∧
          s.getReportTimestamp rN = .ok c.now :=
  most_recent_reports Example.ring Example.reports (by decide) (by decide) (by decide)
    (by decide) (by decide) (by decide)

/-- Claim C29 fails as stated: in a full `SR_LINEAR` buffer of 2 reports whose counter
`d_reportNum` is 4294967295, one more `setReport` sets the counter to 0, is not discarded and
overwrites the second element; afterwards `getNumReports()` and `getNumReportsOverflow()`
return 0 and `getReportCode(1)` returns 0 instead of 22. -/
theorem linear_counter_wraps :
    Example.lineAtMax.getNumReports = 2 ∧
    Example.lineAtMax.getNumReportsOverflow = 4294967293 ∧
    (Example.lineAtMax.getReportCode 1).toOption = some 22 ∧
    (Example.lineAtMax.setReport 5 (some "x") ⟨9, 0⟩).toOption.isSome = true ∧
    Example.lineWrapped.d_reportNum = 0 ∧
    Example.lineWrapped.d_messages.map (fun m => m.code) = [11, 5] ∧
    Example.lineWrapped.getNumReports = 0 ∧
    Example.lineWrapped.getNumReportsOverflow = 0 ∧
    (Example.lineWrapped.getReportCode 1).toOption = some 0 := by
  decide

/-- Claim C29 as amended. In `SR_LINEAR` mode, once `d_maxNumMsgs` reports are stored and
as long as the counter `d_reportNum` is below the largest `unsigned int`, a further
`setReport` leaves every element as it was: the three getters return for every `rN` what
they returned before, `getNumReports()` stays `d_maxNumMsgs`, and
`getNumReportsOverflow()` grows by exactly 1. -/
theorem linear_full_discards (s : StatusReport) (code : Int) (message : Option String)
    (now : Timespec) (hl : s.d_bufferType = .SR_LINEAR)
    (hfull : s.d_maxNumMsgs ≤ s.d_reportNum) (hn : s.d_reportNum + 1 < UINT) :
    ∃ s1, s.setReport code message now = .ok s1 ∧
      s1.d_messages = s.d_messages ∧
      s.getNumReports = s.d_maxNumMsgs ∧ s1.getNumReports = s.d_maxNumMsgs ∧
      s1.getNumReportsOverflow = s.getNumReportsOverflow + 1 ∧
      ∀ rN, s1.getReportCode rN = s.getReportCode rN ∧
        s1.getReportMessage rN = s.getReportMessage rN ∧
        s1.getReportTimestamp rN = s.getReportTimestamp rN := by
  have hmod : (s.d_reportNum + 1) % UINT = s.d_reportNum + 1 := Nat.mod_eq_of_lt hn
  have hover : s.d_bufferType = .SR_LINEAR ∧ (s.d_reportNum + 1) % UINT > s.d_maxNumMsgs :=
    ⟨hl, by rw [hmod]; omega⟩
  have hg : s.getNumReports = s.d_maxNumMsgs := by
    unfold StatusReport.getNumReports
    split_ifs <;> omega
  have hg1 : ({ s with d_reportNum := (s.d_reportNum + 1) % UINT } : StatusReport).getNumReports
      = s.d_maxNumMsgs := by
    unfold StatusReport.getNumReports
    simp only [hmod]
    split_ifs <;> omega
  have hidx : ∀ rN, ({ s with d_reportNum := (s.d_reportNum + 1) % UINT } : StatusReport).getIndex rN
      = s.getIndex rN := by
    intro rN
    unfold StatusReport.getIndex
    rw [hg1, hg]
    have hl1 : ({ s with d_reportNum := (s.d_reportNum + 1) % UINT } : StatusReport).d_bufferType
        = .SR_LINEAR := hl
    rw [if_pos hl1, if_pos hl]
  refine ⟨_, StatusReport.setReport_discards s code message now hover, rfl, hg, hg1, ?_, ?_⟩
  · unfold StatusReport.getNumReportsOverflow
    simp only [hmod]
    split_ifs <;> omega
  · intro rN
    refine ⟨?_, ?_, ?_⟩
    · simp only [StatusReport.getReportCode, hidx]
      rfl
    · simp only [StatusReport.getReportMessage, hidx]
      rfl
    · simp only [StatusReport.getReportTimestamp, hidx]
      rfl

/-- Claim C29 as amended, concrete scenario: a fourth report for a buffer of two. -/
theorem linear_full_discards_fourth :
    ∃ s1, Example.lineFull.setReport 5 (some "x") ⟨9, 0⟩ = .ok s1 ∧
      s1.d_messages = Example.lineFull.d_messages ∧
      Example.lineFull.getNumReports = Example.lineFull.d_maxNumMsgs ∧
      s1.getNumReports = Example.lineFull.d_maxNumMsgs ∧
      s1.getNumReportsOverflow = Example.lineFull.getNumReportsOverflow + 1 ∧
      ∀ rN, s1.getReportCode rN = Example.lineFull.getReportCode rN ∧
        s1.getReportMessage rN = Example.lineFull.getReportMessage rN ∧
        s1.getReportTimestamp rN = Example.lineFull.getReportTimestamp rN :=
  linear_full_discards Example.lineFull 5 (some "x") ⟨9, 0⟩ rfl (by decide) (by decide)

/-- Claim C30. For an object whose first `d_maxNumMsgs` elements are allocated, as `init`
leaves it, and with `d_maxNumMsgs` at least 1, whatever the buffer type: no sequence of
`setReport`, `clearReports` and getter calls divides by zero or touches an element outside
the allocated ones (the only error left is the one of a negative `d_maxMsgLen`, inside an
element); the element that `setReport` writes and the element that a getter reads have
numbers below `d_maxNumMsgs`; and a query with `rN < 1` or `rN > getNumReports()` reads no
element and returns code 0, the empty message and the zero time. -/
theorem index_safety (s : StatusReport) (ha : s.allocated = true) (hmax : 1 ≤ s.d_maxNumMsgs) :
    (∀ ops : List StatusReport.Op,
      (∃ s1, s.exec ops = .ok s1 ∧ s1.allocated = true ∧ s1.d_maxNumMsgs = s.d_maxNumMsgs) ∨
      (s.d_maxMsgLen < 0 ∧ s.exec ops = .error .outsideBlock)) ∧
    (∃ i : Nat,
      ({ s with d_reportNum := (s.d_reportNum + 1) % UINT } : StatusReport).setIndex
        = some (i : Int) ∧ i < s.d_maxNumMsgs) ∧
    (∀ rN i, s.getIndex rN = some i → i < s.d_maxNumMsgs ∧ ∃ m, s.element i = .ok m) ∧
    (∀ rN, (rN < 1 ∨ rN > s.getNumReports) →
      s.getIndex rN = none ∧ s.getReportCode rN = .ok 0 ∧
      s.getReportMessage rN = .ok (some "") ∧ s.getReportTimestamp rN = .ok ⟨0, 0⟩) ∧
    (∀ (maxMsgLen maxNumMsgs : Int) (type : SR_buffer_type) (avail : Nat),
      maxNumMsgs < 2147483648 →
      (StatusReport.init maxMsgLen maxNumMsgs type avail).allocated = true) := by
  obtain ⟨a1, a2, -, -⟩ := (StatusReport.allocated_iff s).mp ha
  refine ⟨?_, ?_, ?_, ?_, ?_⟩
  · intro ops
    rcases StatusReport.exec_allocated ops s ha hmax with ⟨s1, e, g1, g2, -⟩ | h
    · exact Or.inl ⟨s1, e, g1, g2⟩
    · exact Or.inr h
  · exact ⟨s.d_reportNum % s.d_maxNumMsgs, StatusReport.setIndex_incremented s a2 a1 hmax,
      Nat.mod_lt _ (by omega)⟩
  · intro rN i h
    exact StatusReport.getIndex_lt s rN i ha h
  · intro rN h
    have hi := StatusReport.getIndex_out_of_range s rN h
    refine ⟨hi, ?_, ?_, ?_⟩
    · simp only [StatusReport.getReportCode, hi]
    · simp only [StatusReport.getReportMessage, hi]
    · simp only [StatusReport.getReportTimestamp, hi]
  · intro maxMsgLen maxNumMsgs type avail h
    exact StatusReport.init_allocated maxMsgLen maxNumMsgs type avail h

/-- Claim C30, concrete scenario: queries far out of range and reports on both kinds of
buffer. -/
theorem index_safety_ring :
    (∃ s1, Example.ring.exec [.getReportCode 0, .setReport 1 none ⟨1, 0⟩, .getReportMessage 7,
        .clearReports, .getReportTimestamp 1] = .ok s1 ∧ s1.allocated = true ∧
      s1.d_maxNumMsgs = Example.ring.d_maxNumMsgs) ∧
    (∀ rN i, Example.lineAtMax.getIndex rN = some i →
      i < Example.lineAtMax.d_maxNumMsgs ∧ ∃ m, Example.lineAtMax.element i = .ok m) := by
  constructor
  · rcases (index_safety Example.ring (by decide) (by decide)).1
      [.getReportCode 0, .setReport 1 none ⟨1, 0⟩, .getReportMessage 7,
        .clearReports, .getReportTimestamp 1] with h | ⟨h, -⟩
    · exact h
    · exact absurd h (by decide)
  · exact (index_safety Example.lineAtMax (by decide) (by decide)).2.2.1

/-- Claim C21. In a round of `UDPServer::doMessageCycle` in which `recvfrom` returns `-1`,
the server reports `EIO` with the text "doMessageCycle(recvfrom)", does not invoke
`receiveAndReply`, issues no `sendto`, and leaves `d_init`, `d_fd`, the receive buffer and its
size as they were; the loop goes on with the next round, and it is left only when the thread
is cancelled. -/
theorem recvfrom_failure_continues (libc : Libc) (handler : Handler) (c : UCycle)
    (h : (c.k.recvfrom c.srv.d_fd c.srv.d_rcvBufSize).1 = -1) :
    (UDPServer.serveDatagram libc handler c).srv.d_status
      = setError libc c.srv.d_status EIO "doMessageCycle(recvfrom)" ∧
    (UDPServer.serveDatagram libc handler c).calls = c.calls ∧
    (UDPServer.serveDatagram libc handler c).k.trace
      = .recvfrom c.srv.d_fd c.srv.d_rcvBufSize (-1) :: c.k.trace ∧
    (UDPServer.serveDatagram libc handler c).k.trace.filter Syscall.isSend
      = c.k.trace.filter Syscall.isSend ∧
    (UDPServer.serveDatagram libc handler c).srv.d_init = c.srv.d_init ∧
    (UDPServer.serveDatagram libc handler c).srv.d_fd = c.srv.d_fd ∧
    (UDPServer.serveDatagram libc handler c).srv.d_rcvBufSize = c.srv.d_rcvBufSize ∧
    (UDPServer.serveDatagram libc handler c).srv.d_rcvBuf = c.srv.d_rcvBuf ∧
    (∀ cancels, UDPServer.loop libc handler (false :: cancels) c
      = UDPServer.loop libc handler cancels (UDPServer.serveDatagram libc handler c)) ∧
    (∀ cancels, (UDPServer.loop libc handler cancels c).2 = true ↔ true ∈ cancels) := by
  have ht := Kernel.recvfrom_trace c.k c.srv.d_fd c.srv.d_rcvBufSize
  rw [h] at ht
  have hs : UDPServer.serveDatagram libc handler c
      = { c with k := (c.k.recvfrom c.srv.d_fd c.srv.d_rcvBufSize).2.2.2
                 srv := { c.srv with
                   d_status := setError libc c.srv.d_status EIO "doMessageCycle(recvfrom)" } } := by
    simp only [UDPServer.serveDatagram, h, ↓reduceIte]
  rw [hs]
  refine ⟨rfl, rfl, ht, ?_, rfl, rfl, rfl, rfl, fun _ => ?_, fun cancels => ?_⟩
  · show (c.k.recvfrom c.srv.d_fd c.srv.d_rcvBufSize).2.2.2.trace.filter _ = _
    rw [ht]
    simp [Syscall.isSend]
  · rw [← hs]; rfl
  · exact UDPServer.loop_left_udp libc handler cancels c

/-- Claim C21, concrete scenario: `recvfrom` fails with `EINTR`. -/
theorem recvfrom_failure_continues_eintr :
    (UDPServer.serveDatagram Example.libc Example.echo
      ⟨Example.udpServer, Example.udpFailing, []⟩).calls = [] ∧
    (UDPServer.serveDatagram Example.libc Example.echo
      ⟨Example.udpServer, Example.udpFailing, []⟩).k.trace = [.recvfrom 3 8 (-1)] ∧
    (UDPServer.serveDatagram Example.libc Example.echo
      ⟨Example.udpServer, Example.udpFailing, []⟩).srv.d_init = true :=
  ⟨(recvfrom_failure_continues Example.libc Example.echo
      ⟨Example.udpServer, Example.udpFailing, []⟩ (by decide)).2.1,
    (recvfrom_failure_continues Example.libc Example.echo
      ⟨Example.udpServer, Example.udpFailing, []⟩ (by decide)).2.2.1,
    (recvfrom_failure_continues Example.libc Example.echo
      ⟨Example.udpServer, Example.udpFailing, []⟩ (by decide)).2.2.2.2.1⟩

/-- Claim C22. When `recvfrom` in `UDPServer::doMessageCycle` delivers a datagram from the
address `A` (cut to `d_rcvBufSize` bytes), `receiveAndReply` is invoked once, with the
received bytes at the start of the buffer and with their number. When it returns a buffer
`R` and the length `m`, exactly one `sendto` follows: it is for `m` bytes of `R` and for the
address `A`, and over a socket that takes every datagram whole, the datagram sent is the
first `m` bytes of `R` and nothing before them. When it returns `NULL`, no `sendto` follows. -/
theorem datagram_served (libc : Libc) (handler : Handler) (c : UCycle) (d : DSock)
    (g : Datagram) (more : List Datagram)
    (hfd : c.k.udp c.srv.d_fd = some d) (hrp : d.recvPlan = []) (hsp : d.sendPlan = [])
    (hin : d.inbox = g :: more) :
    (UDPServer.serveDatagram libc handler c).calls
      = (storeAt c.srv.d_rcvBuf 0 (g.payload.take c.srv.d_rcvBufSize.toNat),
          ((g.payload.take c.srv.d_rcvBufSize.toNat).length : Int)) :: c.calls ∧
    (storeAt c.srv.d_rcvBuf 0 (g.payload.take c.srv.d_rcvBufSize.toNat)).take
      (g.payload.take c.srv.d_rcvBufSize.toNat).length
      = g.payload.take c.srv.d_rcvBufSize.toNat ∧
    (∀ (R : List Byte) (m : Int),
      handler (storeAt c.srv.d_rcvBuf 0 (g.payload.take c.srv.d_rcvBufSize.toNat))
        ((g.payload.take c.srv.d_rcvBufSize.toNat).length : Int) = (some R, m) →
      (UDPServer.serveDatagram libc handler c).k
        = ((c.k.recvfrom c.srv.d_fd c.srv.d_rcvBufSize).2.2.2.sendto c.srv.d_fd R m
            ⟨g.sin_port, g.s_addr⟩).2 ∧
      (UDPServer.serveDatagram libc handler c).k.trace
        = .sendto c.srv.d_fd m (R.take m.toNat).length ::
          .recvfrom c.srv.d_fd c.srv.d_rcvBufSize
            (g.payload.take c.srv.d_rcvBufSize.toNat).length :: c.k.trace ∧
      ((UDPServer.serveDatagram libc handler c).k.udp c.srv.d_fd).map (fun x => x.sent)
        = some (⟨g.s_addr, g.sin_port, R.take m.toNat⟩ :: d.sent)) ∧
    (∀ (m : Int),
      handler (storeAt c.srv.d_rcvBuf 0 (g.payload.take c.srv.d_rcvBufSize.toNat))
        ((g.payload.take c.srv.d_rcvBufSize.toNat).length : Int) = (none, m) →
      (UDPServer.serveDatagram libc handler c).k.trace
        = .recvfrom c.srv.d_fd c.srv.d_rcvBufSize
            (g.payload.take c.srv.d_rcvBufSize.toNat).length :: c.k.trace ∧
      ((UDPServer.serveDatagram libc handler c).k.udp c.srv.d_fd).map (fun x => x.sent)
        = some d.sent) := by
  have hr := Kernel.recvfrom_datagram c.k c.srv.d_fd c.srv.d_rcvBufSize d g more hfd hrp hin
  generalize g.payload.take c.srv.d_rcvBufSize.toNat = data at hr ⊢
  generalize hk1 : ({ c.k with
      udp := Function.update c.k.udp c.srv.d_fd (some { d with inbox := more, recvPlan := [] })
      trace := Syscall.recvfrom c.srv.d_fd c.srv.d_rcvBufSize data.length :: c.k.trace }
      : Kernel) = k1 at hr
  have hk1u : k1.udp c.srv.d_fd = some { d with inbox := more, recvPlan := [] } := by
    rw [← hk1]; simp
  have hk1t : k1.trace
      = Syscall.recvfrom c.srv.d_fd c.srv.d_rcvBufSize data.length :: c.k.trace := by
    rw [← hk1]
  have hne : ¬ ((data.length : Int) = -1) := by omega
  refine ⟨?_, storeAt_zero_take _ _, ?_, ?_⟩
  · simp only [UDPServer.serveDatagram, hr, hne, ↓reduceIte]
    cases hh : (handler (storeAt c.srv.d_rcvBuf 0 data) data.length).1 with
    | none => rfl
    | some R =>
      simp only []
      split_ifs <;> rfl
  · intro R m hh
    have hst := Kernel.sendto_lossless k1 c.srv.d_fd R m ⟨g.sin_port, g.s_addr⟩
      { d with inbox := more, recvPlan := [] } hk1u hsp
    have hk : (UDPServer.serveDatagram libc handler c).k
        = (k1.sendto c.srv.d_fd R m ⟨g.sin_port, g.s_addr⟩).2 := by
      simp only [UDPServer.serveDatagram, hr, hne, ↓reduceIte, hh, Option.getD_some]
      split_ifs <;> rfl
    rw [hk]
    refine ⟨by rw [hr], ?_, ?_⟩
    · rw [hst, hk1t]
    · rw [hst]
      simp
  · intro m hh
    have hk : (UDPServer.serveDatagram libc handler c).k = k1 := by
      simp only [UDPServer.serveDatagram, hr, hne, ↓reduceIte, hh]
    rw [hk]
    exact ⟨hk1t, by rw [hk1u]; rfl⟩

/-- Claim C22, concrete scenario: the datagram "ping" from host address 2, port 4000 is
echoed to that address. -/
theorem datagram_served_ping :
    (UDPServer.serveDatagram Example.libc Example.echo
      ⟨Example.udpServer, Example.udpInbox, []⟩).calls.map (fun x => x.2) = [4] ∧
    ((UDPServer.serveDatagram Example.libc Example.echo
      ⟨Example.udpServer, Example.udpInbox, []⟩).k.udp 3).map (fun x => x.sent)
      = some [⟨2, 4000, Example.ping⟩] := by
  obtain ⟨h1, -, h3, -⟩ := datagram_served Example.libc Example.echo
    ⟨Example.udpServer, Example.udpInbox, []⟩ ⟨[⟨2, 4000, Example.ping⟩], [], [], []⟩
    ⟨2, 4000, Example.ping⟩ [] (by rfl) rfl rfl rfl
  refine ⟨by rw [h1]; rfl, ?_⟩
  exact (h3 Example.ping 4 (by decide)).2.2

/-- Claim C27. `UDPClient::sendAndReceive` looks at the host address of the sender of the
reply only. Two calls that find the same situation except for the port from which the
waiting datagram comes (and for what else is waiting behind it) return the same value and
leave the same reply buffer, `*inMsgLen` and object. And a datagram from the host address of
the configured server is accepted whatever its port: the call returns `0`, `*inMsgLen` is
the number of bytes received (the length of the datagram when it fits into `inBufLen`), and
these bytes are at the start of the reply buffer. -/
theorem reply_port_is_ignored (libc : Libc) (env : InitEnv) (c : UDPClient) :
    (∀ (k1 k2 : Kernel) (d1 d2 : DSock) (g1 g2 : Datagram) (m1 m2 : List Datagram)
      (outMsgBuf : Option (List Byte)) (outMsgLen : Int) (inMsgBuf : Option (List Byte))
      (inBufLen v : Int),
      k1.udp c.d_fd = some d1 → k2.udp c.d_fd = some d2 → k1.errno = k2.errno →
      d1.sendPlan = d2.sendPlan → d1.recvPlan = d2.recvPlan →
      d1.inbox = g1 :: m1 → d2.inbox = g2 :: m2 →
      g1.s_addr = g2.s_addr → g1.payload = g2.payload →
      (UDPClient.sendAndReceive libc env c k1 outMsgBuf outMsgLen inMsgBuf inBufLen v).ret
        = (UDPClient.sendAndReceive libc env c k2 outMsgBuf outMsgLen inMsgBuf inBufLen v).ret ∧
      (UDPClient.sendAndReceive libc env c k1 outMsgBuf outMsgLen inMsgBuf inBufLen v).inMsgBuf
        = (UDPClient.sendAndReceive libc env c k2 outMsgBuf outMsgLen inMsgBuf inBufLen v).inMsgBuf ∧
      (UDPClient.sendAndReceive libc env c k1 outMsgBuf outMsgLen inMsgBuf inBufLen v).inMsgLen
        = (UDPClient.sendAndReceive libc env c k2 outMsgBuf outMsgLen inMsgBuf inBufLen v).inMsgLen ∧
      (UDPClient.sendAndReceive libc env c k1 outMsgBuf outMsgLen inMsgBuf inBufLen v).client
        = (UDPClient.sendAndReceive libc env c k2 outMsgBuf outMsgLen inMsgBuf inBufLen v).client) ∧
    (∀ (k : Kernel) (d : DSock) (g : Datagram) (more : List Datagram) (out inBuf : List Byte)
      (outMsgLen inBufLen v : Int),
      c.d_init = true → k.udp c.d_fd = some d → d.sendPlan = [] → d.recvPlan = [] →
      outMsgLen ≤ out.length → d.inbox = g :: more → g.s_addr = c.d_server.s_addr →
      (UDPClient.sendAndReceive libc env c k (some out) outMsgLen (some inBuf) inBufLen v).ret = 0 ∧
      (UDPClient.sendAndReceive libc env c k (some out) outMsgLen (some inBuf) inBufLen v).inMsgLen
        = (g.payload.take inBufLen.toNat).length ∧
      (g.payload.length ≤ inBufLen.toNat →
        (UDPClient.sendAndReceive libc env c k (some out) outMsgLen (some inBuf) inBufLen v).inMsgLen
          = g.payload.length) ∧
      (UDPClient.sendAndReceive libc env c k (some out) outMsgLen (some inBuf) inBufLen v).inMsgBuf
        = some (storeAt inBuf 0 (g.payload.take inBufLen.toNat)) ∧
      (UDPClient.sendAndReceive libc env c k (some out) outMsgLen (some inBuf) inBufLen v).client
        = c) := by
  have hz : ¬ ((0 : Int) = -1) := by decide
  constructor
  · intro k1 k2 d1 d2 g1 g2 m1 m2 outMsgBuf outMsgLen inMsgBuf inBufLen v h1 h2 herr hs hr
      hi1 hi2 ha hp
    have o1 : k1.isOpen c.d_fd = true := by simp [Kernel.isOpen, h1]
    have o2 : k2.isOpen c.d_fd = true := by simp [Kernel.isOpen, h2]
    have f1 := Kernel.fcntl_isOpen k1 c.d_fd o1
    have f2 := Kernel.fcntl_isOpen k2 c.d_fd o2
    by_cases hinit : c.d_init = true
    swap
    · simp [UDPClient.sendAndReceive, hinit]
    cases outMsgBuf with
    | none =>
      simp only [UDPClient.sendAndReceive, hinit, f1, f2, hz, Bool.not_true, Bool.false_eq_true,
        ↓reduceIte, and_self]
    | some out =>
      obtain ⟨s1, s2, ⟨e1, u1, r1, i1⟩, ⟨e2, u2, r2, i2⟩⟩ := Kernel.sendto_agree
        { k1 with trace := .fcntl c.d_fd 0 :: k1.trace }
        { k2 with trace := .fcntl c.d_fd 0 :: k2.trace } c.d_fd out outMsgLen c.d_server d1 d2
        h1 h2 herr hs
      simp only [UDPClient.sendAndReceive, hinit, f1, f2, hz, Bool.not_true, Bool.false_eq_true,
        ↓reduceIte]
      generalize Kernel.sendto { k1 with trace := .fcntl c.d_fd 0 :: k1.trace } c.d_fd out
        outMsgLen c.d_server = x1 at s1 s2 u1 ⊢
      generalize Kernel.sendto { k2 with trace := .fcntl c.d_fd 0 :: k2.trace } c.d_fd out
        outMsgLen c.d_server = x2 at s1 s2 u2 ⊢
      rw [← s1, ← s2]
      by_cases hshort : x1.1 < outMsgLen
      · simp only [hshort, ↓reduceIte, and_self]
      · simp only [hshort, ↓reduceIte]
        cases inMsgBuf with
        | none => simp only [and_self]
        | some inBuf =>
          obtain ⟨q1, q2, q3, q4⟩ := Kernel.recvfrom_agree x1.2 x2.2 c.d_fd inBufLen e1 e2
            g1 g2 m1 m2 u1 u2 s2 (by rw [r1, r2, hr]) (by rw [i1, hi1]) (by rw [i2, hi2]) ha hp
          simp only []
          generalize x1.2.recvfrom c.d_fd inBufLen = y1 at q1 q2 q3 q4 ⊢
          generalize x2.2.recvfrom c.d_fd inBufLen = y2 at q1 q2 q3 q4 ⊢
          rw [← q1, ← q2, ← q3, ← q4]
          by_cases hfail : y1.1 = -1
          · simp only [hfail, ↓reduceIte, and_self]
          · simp only [hfail, ↓reduceIte]
            split_ifs
            · simp only [and_self]
            · simp only [and_self]
  · intro k d g more out inBuf outMsgLen inBufLen v hinit hfd hsp hrp hlen hin hsrc
    have hopen : k.isOpen c.d_fd = true := by simp [Kernel.isOpen, hfd]
    have hf := Kernel.fcntl_isOpen k c.d_fd hopen
    generalize hk0 : ({ k with trace := Syscall.fcntl c.d_fd 0 :: k.trace } : Kernel) = k0 at hf
    have hk0u : k0.udp c.d_fd = some d := by rw [← hk0]; exact hfd
    have hs := Kernel.sendto_lossless k0 c.d_fd out outMsgLen c.d_server d hk0u hsp
    have hcount : ¬ (((out.take outMsgLen.toNat).length : Int) < outMsgLen) := by
      rw [List.length_take]; omega
    generalize out.take outMsgLen.toNat = taken at hs hcount
    generalize hk1 : ({ k0 with
        udp := Function.update k0.udp c.d_fd
          (some { d with sent := ⟨c.d_server.s_addr, c.d_server.sin_port, taken⟩ :: d.sent })
        trace := Syscall.sendto c.d_fd outMsgLen taken.length :: k0.trace }
        : Kernel) = k1 at hs
    have hk1u : k1.udp c.d_fd = some { d with
        sent := ⟨c.d_server.s_addr, c.d_server.sin_port, taken⟩ :: d.sent } := by
      rw [← hk1]; simp
    have hr := Kernel.recvfrom_datagram k1 c.d_fd inBufLen _ g more hk1u hrp hin
    have hfit : g.payload.length ≤ inBufLen.toNat →
        (g.payload.take inBufLen.toNat).length = g.payload.length := by
      intro h; rw [List.length_take]; omega
    generalize g.payload.take inBufLen.toNat = data at hr hfit ⊢
    generalize hk2 : ({ k1 with
        udp := Function.update k1.udp c.d_fd
          (some { ({ d with sent := ⟨c.d_server.s_addr, c.d_server.sin_port, taken⟩ :: d.sent } : DSock) with
            inbox := more, recvPlan := [] })
        trace := Syscall.recvfrom c.d_fd inBufLen data.length :: k1.trace }
        : Kernel) = k2 at hr
    have hne : ¬ ((data.length : Int) = -1) := by omega
    have hres : UDPClient.sendAndReceive libc env c k (some out) outMsgLen (some inBuf) inBufLen v
        = ⟨0, some (storeAt inBuf 0 data), data.length, c, k2⟩ := by
      simp only [UDPClient.sendAndReceive, hinit, hf]
      simp [hs, hr, hcount, hne, hsrc]
    rw [hres]
    exact ⟨rfl, rfl, fun h => by rw [hfit h], rfl, rfl⟩

/-- Claim C27, concrete scenario: the reply "ping" from the host of the server, once from
port 9000 and once from port 4000. -/
theorem reply_port_is_ignored_ports :
    (UDPClient.sendAndReceive Example.libc Example.env Example.udpClient (Example.replyFrom 9000)
        (some Example.ping) 4 (some (List.replicate 8 0)) 8 0).ret
      = (UDPClient.sendAndReceive Example.libc Example.env Example.udpClient
          (Example.replyFrom 4000) (some Example.ping) 4 (some (List.replicate 8 0)) 8 0).ret ∧
    (UDPClient.sendAndReceive Example.libc Example.env Example.udpClient (Example.replyFrom 4000)
        (some Example.ping) 4 (some (List.replicate 8 0)) 8 0).ret = 0 ∧
    (UDPClient.sendAndReceive Example.libc Example.env Example.udpClient (Example.replyFrom 4000)
        (some Example.ping) 4 (some (List.replicate 8 0)) 8 0).inMsgLen = (4 : Nat) :=
  ⟨((reply_port_is_ignored Example.libc Example.env Example.udpClient).1
      (Example.replyFrom 9000) (Example.replyFrom 4000)
      ⟨[⟨1, 9000, Example.ping⟩], [], [], []⟩ ⟨[⟨1, 4000, Example.ping⟩], [], [], []⟩
      ⟨1, 9000, Example.ping⟩ ⟨1, 4000, Example.ping⟩ [] []
      (some Example.ping) 4 (some (List.replicate 8 0)) 8 0
      (by rfl) (by rfl) rfl rfl rfl rfl rfl rfl rfl).1,
    ((reply_port_is_ignored Example.libc Example.env Example.udpClient).2
      (Example.replyFrom 4000) ⟨[⟨1, 4000, Example.ping⟩], [], [], []⟩ ⟨1, 4000, Example.ping⟩ []
      Example.ping (List.replicate 8 0) 4 8 0 rfl (by rfl) rfl rfl (by decide) rfl rfl).1,
    ((reply_port_is_ignored Example.libc Example.env Example.udpClient).2
      (Example.replyFrom 4000) ⟨[⟨1, 4000, Example.ping⟩], [], [], []⟩ ⟨1, 4000, Example.ping⟩ []
      Example.ping (List.replicate 8 0) 4 8 0 rfl (by rfl) rfl rfl (by decide) rfl rfl).2.2.1
      (by decide)⟩

/-- Claim C26. A stream client and a datagram client whose stored server name is
"localhost2" are initialised with the name "localhost": `init` returns `0` and the stored
name is still "localhost2", because the comparison of the names stops after the 9 characters
of the new name. -/
theorem stale_server_name_kept :
    (TCPClient.init Example.libc Example.env Example.staleClient Kernel.boot "localhost" 9000
      ⟨1, 0⟩ 0).1 = 0 ∧
    (TCPClient.init Example.libc Example.env Example.staleClient Kernel.boot "localhost" 9000
      ⟨1, 0⟩ 0).2.1.d_serverName = some "localhost2" ∧
    (UDPClient.init Example.libc Example.env Example.staleUdpClient Kernel.boot "localhost" 9000
      ⟨1, 0⟩ 0).1 = 0 ∧
    (UDPClient.init Example.libc Example.env Example.staleUdpClient Kernel.boot "localhost" 9000
      ⟨1, 0⟩ 0).2.1.d_serverName = some "localhost2" := by
  decide

/-- Claim C28. The read loop of `TCPServer::doMessageCycle` and of
`TCPClient::sendAndReceive`, run for a length `msgSize` with `0 ≤ msgSize ≤ capacity` on a
buffer of at least `capacity` bytes: every `recv` is issued at an offset `off` with
`0 ≤ off < msgSize` and for `msgSize - off` bytes, so that it ends at `msgSize ≤ capacity`,
and returns at most that count; the buffer keeps its length and the bytes from `capacity` on
are not written. For the server the buffer has `d_rcvBufSize + 4` bytes after an `init` that
returned `0`, which is at least the capacity `d_rcvBufSize`. -/
theorem read_loop_within_buffer (k : Kernel) (fd : Int) (buf : List Byte)
    (msgSize capacity : Int)
    (h0 : 0 ≤ msgSize) (h1 : msgSize ≤ capacity) (h2 : capacity.toNat ≤ buf.length) :
    (∃ calls : List Syscall,
      (readLoop 3 k fd buf msgSize 0).2.2.trace = calls ++ k.trace ∧
      (∀ e ∈ calls, ∃ off ret, e = Syscall.recv fd (.buf off) (msgSize - off) ret ∧
        0 ≤ off ∧ off < msgSize ∧ off + (msgSize - off) ≤ capacity ∧ ret ≤ msgSize - off) ∧
      (readLoop 3 k fd buf msgSize 0).2.1.length = buf.length ∧
      (readLoop 3 k fd buf msgSize 0).2.1.drop capacity.toNat = buf.drop capacity.toNat) ∧
    (∀ (libc : Libc) (env : ListenEnv) (s : TCPServer) (k0 : Kernel) (port bufSize bdp : Int),
      (TCPServer.init libc env s k0 port bufSize bdp).1 = 0 →
      (TCPServer.init libc env s k0 port bufSize bdp).2.1.d_rcvBufSize.toNat
        ≤ (TCPServer.init libc env s k0 port bufSize bdp).2.1.d_rcvBuf.length) := by
  constructor
  · obtain ⟨calls, c1, c2, c3, c4⟩ := readLoop_bounds fd msgSize 3 k buf 0 (le_refl _) h0
      (by omega)
    refine ⟨calls, c1, ?_, c3, ?_⟩
    · intro e he
      obtain ⟨off, ret, g1, g2, g3, g4⟩ := c2 e he
      exact ⟨off, ret, g1, g2, g3, by omega, g4⟩
    · have hle : msgSize.toNat ≤ capacity.toNat := by omega
      have e1 : (readLoop 3 k fd buf msgSize 0).2.1.drop capacity.toNat
          = ((readLoop 3 k fd buf msgSize 0).2.1.drop msgSize.toNat).drop
              (capacity.toNat - msgSize.toNat) := by
        rw [List.drop_drop]; congr 1; omega
      have e2 : buf.drop capacity.toNat
          = (buf.drop msgSize.toNat).drop (capacity.toNat - msgSize.toNat) := by
        rw [List.drop_drop]; congr 1; omega
      rw [e1, e2, c4]
  · intro libc env s k0 port bufSize bdp h
    obtain ⟨g1, g2⟩ := TCPServer.init_buffer libc env s k0 port bufSize bdp h
    rw [g1, g2]
    omega

/-- Claim C28, concrete scenario: 4 bytes arrive as 1 + 2 + 1 into a buffer of 8. -/
theorem read_loop_within_buffer_pieces :
    ∃ calls : List Syscall,
      (readLoop 3 Example.chunkedNet 5 (List.replicate 8 0) 4 0).2.2.trace
        = calls ++ Example.chunkedNet.trace ∧
      (∀ e ∈ calls, ∃ off ret, e = Syscall.recv 5 (.buf off) (4 - off) ret ∧
        0 ≤ off ∧ off < 4 ∧ off + (4 - off) ≤ 6 ∧ ret ≤ 4 - off) ∧
      (readLoop 3 Example.chunkedNet 5 (List.replicate 8 0) 4 0).2.1.length
        = (List.replicate 8 (0 : Byte)).length ∧
      (readLoop 3 Example.chunkedNet 5 (List.replicate 8 0) 4 0).2.1.drop (6 : Int).toNat
        = (List.replicate 8 (0 : Byte)).drop (6 : Int).toNat :=
  (read_loop_within_buffer Example.chunkedNet 5 (List.replicate 8 0) 4 6 (by decide) (by decide)
    (by decide)).1

end PUtils
